import Mathlib

/-!
# health-bar: the authorization core and the gateway

A shallow embedding of the Go services of the health-bar repository:

* `shared/middleware/auth.go` (`AuthMiddleware`),
* `shared/utils/response.go` (`SendJSON`, `SendSuccess`, `SendError`),
* `shared/models/*.go` (the row types),
* `services/auth`, `services/patient`, `services/doctor`, `services/timeline` and
  `services/prescription` (repositories, handlers, route tables),
* `services/gateway` (`ProxyRequest`, `HealthCheck`, the router of `main.go`, the rate
  limiter).

Modelling conventions.

* The relational database is an in-memory record of tables; a table is the list of
  its rows.  `db.Get` returns the first matching row and fails with `sql.ErrNoRows`
  when there is none; `db.Select` returns the matching rows; `db.Exec` of an
  `UPDATE`/`DELETE` touches every matching row.  Connection failures are outside the
  model, the handlers keep their branches for them.
* Go functions returning `(T, error)` return a pair `T × Option DBError`.
* Timestamps are natural numbers; `NOW()` and `uuid.New()` are read from an
  environment record, one per request.
* An `http.Handler` is a function from the request and the world (database and
  upload directory) to the response and the new world.
-/

namespace HealthBar

/-! ## Strings and `net/http` -/

/-- Go `strings.Replace(s, old, new, 1)` on character lists: the leftmost occurrence of
`old` is replaced by `new`. -/
def replaceFirst (old new : List Char) : List Char → List Char
  | [] => if old = [] then new else []
  | c :: cs =>
    if old.isPrefixOf (c :: cs) then new ++ (c :: cs).drop old.length
    else c :: replaceFirst old new cs

/-- Go `strings.Replace(s, old, new, 1)`. -/
def stringsReplace1 (s old new : String) : String :=
  ⟨replaceFirst old.data new.data s.data⟩

/-- Go `strings.HasPrefix`. -/
def stringsHasPrefix (s pre : String) : Bool :=
  pre.data.isPrefixOf s.data

/-- The bytes `net/textproto` accepts in a header field name (RFC 7230 token characters). -/
def validHeaderFieldByte (c : Char) : Bool :=
  c.isAlphanum ||
    [33, 35, 36, 37, 38, 39, 42, 43, 45, 46, 94, 95, 96, 124, 126].contains c.toNat

/-- The rewriting loop of `textproto.canonicalMIMEHeaderKey`: upper-case the first letter
and every letter after a hyphen, lower-case the others. -/
def canonicalLoop : Bool → List Char → List Char
  | _, [] => []
  | upper, c :: cs =>
    let c1 := if upper && c.isLower then c.toUpper
      else if !upper && c.isUpper then c.toLower else c
    c1 :: canonicalLoop (c1 == '-') cs

/-- Go `textproto.CanonicalMIMEHeaderKey`: a name with a byte that is not a token
character is returned unchanged. -/
def CanonicalMIMEHeaderKey (s : String) : String :=
  if s.data.all validHeaderFieldByte then ⟨canonicalLoop true s.data⟩ else s

/-- Go `http.Header` (and `url.Values`): keys with their lists of values.  As in a Go
map, the first entry of a key is the entry of that key. -/
abbrev Values := List (String × List String)

/-- Go `url.Values.Get`: the first value of the key, or the empty string. -/
def Values.Get (v : Values) (key : String) : String :=
  match v.lookup key with
  | some (x :: _) => x
  | _ => ""

/-- All values stored under a key, as `h[key]` in Go. -/
def Values.All (v : Values) (key : String) : List String :=
  (v.lookup key).getD []

/-- Go `http.Header`. -/
structure Header where
  entries : Values
deriving DecidableEq, Repr, Inhabited

/-- Go `Header.Get`: the first value of the canonicalised key, or the empty string. -/
def Header.Get (h : Header) (key : String) : String :=
  h.entries.Get (CanonicalMIMEHeaderKey key)

/-- Go `Header.Values`: every value of the canonicalised key. -/
def Header.Values (h : Header) (key : String) : List String :=
  h.entries.All (CanonicalMIMEHeaderKey key)

/-- Go `Header.Set`: the key's entry is replaced by the single value. -/
def Header.Set (h : Header) (key value : String) : Header :=
  { entries := (CanonicalMIMEHeaderKey key, [value]) ::
      h.entries.filter (fun e => e.1 ≠ CanonicalMIMEHeaderKey key) }

/-- Go `multipart.FileHeader` with the content of the part. -/
structure FileHeader where
  Filename : String
  Content : List Nat
deriving DecidableEq, Repr, Inhabited

/-- The request body as the handlers consume it: a JSON object of string fields (what
`json.Decoder.Decode` fills the request structs from), a multipart form with its file
parts, or anything else (on which both decoders fail). -/
inductive RequestBody
  | raw (content : String)
  | json (fields : List (String × String))
  | multipart (files : List (String × FileHeader))
deriving DecidableEq, Repr, Inhabited

/-- Go `http.Request`, as far as the services read it.  `Path` is `r.URL.Path`,
`RawQuery` is `r.URL.RawQuery` and `Query` is `r.URL.Query()`, its parsed form. -/
structure Request where
  Method : String
  Path : String
  RawQuery : String
  Query : Values
  Header : Header
  RemoteAddr : String
  Body : RequestBody
deriving DecidableEq, Repr, Inhabited

/-! ## `shared/models` -/

/-- Timestamps (`time.Time`, `NOW()`), as a count of clock ticks. -/
abbrev Time := Nat

/-- Row of `patient_profiles` (`models.PatientProfile`). -/
structure PatientProfile where
  ID : String
  UserID : String
  FullName : String
  DateOfBirth : Time
  Gender : String
  Phone : String
  Address : String
  CreatedAt : Time
  UpdatedAt : Time
deriving DecidableEq, Repr, Inhabited

/-- Row of `doctor_profiles` (`models.DoctorProfile`). -/
structure DoctorProfile where
  ID : String
  UserID : String
  FullName : String
  Specialization : String
  LicenseNumber : String
  Phone : String
  CreatedAt : Time
  UpdatedAt : Time
deriving DecidableEq, Repr, Inhabited

/-- Row of `doctor_access_permissions` (`models.DoctorAccessPermission`); `RevokedAt` is
the nullable column. -/
structure DoctorAccessPermission where
  ID : String
  PatientID : String
  DoctorID : String
  GrantedAt : Time
  RevokedAt : Option Time
  IsActive : Bool
deriving DecidableEq, Repr, Inhabited

/-- Row of `hospital_visits` (`models.HospitalVisit`). -/
structure HospitalVisit where
  ID : String
  PatientID : String
  HospitalName : String
  VisitDate : Time
  Reason : String
  Notes : String
  CreatedAt : Time
  UpdatedAt : Time
deriving DecidableEq, Repr, Inhabited

/-- Row of `prescriptions` (`models.Prescription`). -/
structure Prescription where
  ID : String
  PatientID : String
  FileName : String
  FileType : String
  FileSize : Nat
  FilePath : String
  UploadDate : Time
  CreatedAt : Time
deriving DecidableEq, Repr, Inhabited

/-- Row of `users` (`models.User`); `Role` is a `models.UserRole`, a string. -/
structure User where
  ID : String
  Email : String
  PasswordHash : String
  Role : String
  CreatedAt : Time
  UpdatedAt : Time
deriving DecidableEq, Repr, Inhabited

/-! ## The database and the upload directory -/

/-- The tables of the shared relational database. -/
structure DB where
  patient_profiles : List PatientProfile
  doctor_profiles : List DoctorProfile
  doctor_access_permissions : List DoctorAccessPermission
  hospital_visits : List HospitalVisit
  prescriptions : List Prescription
deriving DecidableEq, Repr, Inhabited

/-- The state a handler runs against: the database and the files of the upload
directory (file name relative to the upload root, and content). -/
structure World where
  db : DB
  uploads : List (String × List Nat)
deriving DecidableEq, Repr, Inhabited

/-- Errors of `database/sql`. -/
inductive DBError
  | ErrNoRows
  | other (msg : String)
deriving DecidableEq, Repr, Inhabited

/-- Go `sqlx.DB.Get` of a single-row `SELECT col FROM rows WHERE cond`: the first matching
row, or the zero value of the destination together with `sql.ErrNoRows`. -/
def sqlGet {α β : Type} [Inhabited β] (rows : List α) (cond : α → Bool) (col : α → β) :
    β × Option DBError :=
  match rows.find? cond with
  | some row => (col row, none)
  | none => (default, some DBError.ErrNoRows)

/-- Claims of a validated bearer credential (`utils.Claims`). -/
structure Claims where
  UserID : String
  Email : String
  Role : String
deriving DecidableEq, Repr, Inhabited

/-- What a request reads from outside the store.  `ValidateToken` is
`utils.ValidateToken`, whose file is not among the sources: it is a parameter, as are
the clock, the UUID generator and `time.Parse` for the layout `2006-01-02`. -/
structure Env where
  ValidateToken : String → Except String Claims
  now : Time
  newUUID : String
  newFileUUID : String
  timeParse : String → Option Time

/-! ## Responses: `shared/utils/response.go` and `http.Error` -/

/-- What the `data` field of the envelope carries (`interface{}` in Go). -/
inductive Payload
  | visit (v : HospitalVisit)
  | visits (vs : List HospitalVisit)
  | prescription (p : Prescription)
  | prescriptions (ps : List Prescription)
  | patientProfile (p : PatientProfile)
  | patientProfiles (ps : List PatientProfile)
  | doctorProfile (d : DoctorProfile)
  | permissions (gs : List DoctorAccessPermission)
  | user (u : User)
  | authResponse (token : String) (user : User)
deriving DecidableEq, Repr

namespace utils

/-- The envelope `utils.Response`; `Data` is `none` for a Go `nil`. -/
structure Response where
  Success : Bool
  Message : String
  Data : Option Payload
  Error : String
deriving DecidableEq, Repr

end utils

/-- What was written to the `http.ResponseWriter`. -/
inductive ResponseBody
  | json (r : utils.Response)
  | text (s : String)
  | bytes (content : List Nat)
deriving DecidableEq, Repr

/-- The status line, headers and body written to the `http.ResponseWriter`. -/
structure HTTPResponse where
  StatusCode : Nat
  Header : List (String × String)
  Body : ResponseBody
deriving DecidableEq, Repr

namespace utils

/-- Go `utils.SendJSON`. -/
def SendJSON (status : Nat) (data : Response) : HTTPResponse :=
  { StatusCode := status, Header := [("Content-Type", "application/json")],
    Body := ResponseBody.json data }

/-- Go `utils.SendSuccess`. -/
def SendSuccess (status : Nat) (message : String) (data : Option Payload) : HTTPResponse :=
  SendJSON status { Success := true, Message := message, Data := data, Error := "" }

/-- Go `utils.SendError`. -/
def SendError (status : Nat) (message : String) : HTTPResponse :=
  SendJSON status { Success := false, Message := "", Data := none, Error := message }

end utils

/-- Go `http.Error`: a plain-text body, the message followed by a newline. -/
def httpError (error : String) (code : Nat) : HTTPResponse :=
  { StatusCode := code,
    Header := [("Content-Type", "text/plain; charset=utf-8"),
      ("X-Content-Type-Options", "nosniff")],
    Body := ResponseBody.text (error ++ "\n") }

/-- The patient data a response carries: the `data` of an envelope, or a streamed file. -/
def HTTPResponse.carriesData (resp : HTTPResponse) : Bool :=
  match resp.Body with
  | ResponseBody.json r => r.Data.isSome
  | ResponseBody.text _ => false
  | ResponseBody.bytes _ => true

/-- Go `http.HandlerFunc`: the response written, and the world the handler leaves. -/
abbrev HandlerFunc := Request → World → HTTPResponse × World

/-! ## `shared/middleware/auth.go` -/

/-- Go `middleware.AuthMiddleware`. -/
def AuthMiddleware (env : Env) (next : HandlerFunc) : HandlerFunc := fun r w =>
  let authHeader := r.Header.Get "Authorization"
  if authHeader = "" then
    (httpError "Authorization header required" 401, w)
  else
    let tokenString := stringsReplace1 authHeader "Bearer " ""
    match env.ValidateToken tokenString with
    | Except.error _ => (httpError "Invalid token" 401, w)
    | Except.ok claims =>
      -- Add claims to request context
      let h1 := r.Header.Set "X-User-ID" claims.UserID
      let h2 := h1.Set "X-User-Email" claims.Email
      let h3 := h2.Set "X-User-Role" claims.Role
      next { r with Header := h3 } w

/-! ## `services/patient/repository/patient_repository.go` -/

namespace PatientRepository

/-- Go `PatientRepository.GetProfileByUserID`: `nil` (here the zero profile) on error. -/
def GetProfileByUserID (db : DB) (userID : String) : PatientProfile × Option DBError :=
  sqlGet db.patient_profiles (fun p => p.UserID = userID) id

/-- Go `PatientRepository.GetProfileByID`. -/
def GetProfileByID (db : DB) (profileID : String) : PatientProfile × Option DBError :=
  sqlGet db.patient_profiles (fun p => p.ID = profileID) id

/-- Go `PatientRepository.GrantAccess`: `INSERT ... ON CONFLICT (patient_id, doctor_id)
DO UPDATE SET is_active = true, revoked_at = NULL, granted_at = NOW()`.  The inserted row
takes the table defaults for the columns the statement leaves out (`revoked_at` NULL,
`granted_at` the insertion time); `uuid.New()` is `env.newUUID`.  Foreign keys and
collisions of the generated id are outside the model. -/
def GrantAccess (env : Env) (db : DB) (patientID doctorID : String) :
    DB × Option DBError :=
  let permission : DoctorAccessPermission :=
    { ID := env.newUUID, PatientID := patientID, DoctorID := doctorID,
      GrantedAt := env.now, RevokedAt := none, IsActive := true }
  let conflict := fun (g : DoctorAccessPermission) =>
    decide (g.PatientID = permission.PatientID) && decide (g.DoctorID = permission.DoctorID)
  if db.doctor_access_permissions.any conflict then
    ({ db with doctor_access_permissions := db.doctor_access_permissions.map (fun g =>
        if conflict g then { g with IsActive := true, RevokedAt := none, GrantedAt := env.now }
        else g) }, none)
  else
    ({ db with doctor_access_permissions := db.doctor_access_permissions ++ [permission] },
      none)

/-- Go `PatientRepository.RevokeAccess`: `UPDATE ... SET is_active = false,
revoked_at = NOW() WHERE patient_id = $1 AND doctor_id = $2`. -/
def RevokeAccess (env : Env) (db : DB) (patientID doctorID : String) :
    DB × Option DBError :=
  ({ db with doctor_access_permissions := db.doctor_access_permissions.map (fun g =>
      if g.PatientID = patientID ∧ g.DoctorID = doctorID then
        { g with IsActive := false, RevokedAt := some env.now }
      else g) }, none)

/-- Go `PatientRepository.ListPermissions`: the patient's rows, `ORDER BY granted_at DESC`. -/
def ListPermissions (db : DB) (patientID : String) :
    List DoctorAccessPermission × Option DBError :=
  ((db.doctor_access_permissions.filter (fun g => g.PatientID = patientID)).insertionSort
    (fun a b => a.GrantedAt ≥ b.GrantedAt), none)

/-- Go `PatientRepository.CheckAccess`: the error of `db.Get` is returned as it is. -/
def CheckAccess (db : DB) (patientID doctorID : String) : Bool × Option DBError :=
  let (isActive, err) := sqlGet db.doctor_access_permissions
    (fun g => decide (g.PatientID = patientID) && decide (g.DoctorID = doctorID))
    (fun g => g.IsActive)
  if err ≠ none then (false, err) else (isActive, none)

end PatientRepository

/-! ## `services/timeline/repository/timeline_repository.go` -/

namespace TimelineRepository

/-- Go `TimelineRepository.CreateVisit`: the row is inserted with a new id and the
table defaults for `created_at` and `updated_at` (the insertion time), and is returned. -/
def CreateVisit (env : Env) (db : DB) (patientID : String) (visit : HospitalVisit) :
    DB × HospitalVisit × Option DBError :=
  let row : HospitalVisit :=
    { visit with
      ID := env.newUUID, PatientID := patientID, CreatedAt := env.now, UpdatedAt := env.now }
  ({ db with hospital_visits := db.hospital_visits ++ [row] }, row, none)

/-- Go `TimelineRepository.GetVisitByID`. -/
def GetVisitByID (db : DB) (visitID : String) : HospitalVisit × Option DBError :=
  sqlGet db.hospital_visits (fun v => v.ID = visitID) id

/-- Go `TimelineRepository.GetVisitsByPatientID`: `ORDER BY visit_date DESC,
created_at DESC`. -/
def GetVisitsByPatientID (db : DB) (patientID : String) :
    List HospitalVisit × Option DBError :=
  ((db.hospital_visits.filter (fun v => v.PatientID = patientID)).insertionSort
    (fun a b => a.VisitDate > b.VisitDate ∨
      (a.VisitDate = b.VisitDate ∧ a.CreatedAt ≥ b.CreatedAt)), none)

/-- Go `TimelineRepository.UpdateVisit`: `UPDATE ... WHERE id = $5 RETURNING ...`; scanning
the returned row fails with `sql.ErrNoRows` when no row has the id. -/
def UpdateVisit (env : Env) (db : DB) (visitID : String) (visit : HospitalVisit) :
    DB × HospitalVisit × Option DBError :=
  let set := fun (v : HospitalVisit) =>
    { v with
      HospitalName := visit.HospitalName, VisitDate := visit.VisitDate,
      Reason := visit.Reason, Notes := visit.Notes, UpdatedAt := env.now }
  match db.hospital_visits.find? (fun v => v.ID = visitID) with
  | none => (db, visit, some DBError.ErrNoRows)
  | some v =>
    ({ db with hospital_visits := db.hospital_visits.map (fun x =>
        if x.ID = visitID then set x else x) }, set v, none)

/-- Go `TimelineRepository.DeleteVisit`. -/
def DeleteVisit (db : DB) (visitID : String) : DB × Option DBError :=
  ({ db with hospital_visits := db.hospital_visits.filter (fun v => v.ID ≠ visitID) }, none)

/-- Go `TimelineRepository.GetPatientIDByVisitID`. -/
def GetPatientIDByVisitID (db : DB) (visitID : String) : String × Option DBError :=
  sqlGet db.hospital_visits (fun v => v.ID = visitID) (fun v => v.PatientID)

/-- Go `TimelineRepository.GetPatientProfileIDByUserID`. -/
def GetPatientProfileIDByUserID (db : DB) (userID : String) : String × Option DBError :=
  sqlGet db.patient_profiles (fun p => p.UserID = userID) (fun p => p.ID)

/-- Go `TimelineRepository.CheckDoctorAccess`. -/
def CheckDoctorAccess (db : DB) (doctorUserID patientProfileID : String) :
    Bool × Option DBError :=
  -- Get doctor profile ID
  let (doctorProfileID, err) :=
    sqlGet db.doctor_profiles (fun d => d.UserID = doctorUserID) (fun d => d.ID)
  if err ≠ none then (false, err) else
  -- Check access permission
  let (isActive, err) := sqlGet db.doctor_access_permissions
    (fun g => decide (g.DoctorID = doctorProfileID) && decide (g.PatientID = patientProfileID))
    (fun g => g.IsActive)
  if err ≠ none then (false, err) else (isActive, none)

end TimelineRepository

/-! ## `services/timeline/handlers/timeline_handler.go` -/

/-- Go `json.NewDecoder(r.Body).Decode(&req)` for a struct of string fields: the decoded
fields, or `none` when the body is not such a JSON object. -/
def jsonDecode (body : RequestBody) : Option (List (String × String)) :=
  match body with
  | RequestBody.json fields => some fields
  | _ => none

/-- The value decoded into the struct field with the given JSON tag (the zero value
when the object has no such member). -/
def jsonField (fields : List (String × String)) (tag : String) : String :=
  (fields.lookup tag).getD ""

namespace TimelineHandler

open utils TimelineRepository

/-- Go `TimelineHandler.CreateVisit`. -/
def CreateVisit (env : Env) : HandlerFunc := fun r w =>
  let userID := r.Header.Get "X-User-ID"
  let userRole := r.Header.Get "X-User-Role"
  if userID = "" then (SendError 401 "Unauthorized", w) else
  if userRole ≠ "patient" then
    (SendError 403 "Only patients can add hospital visits", w) else
  -- Get patient profile ID
  let (patientProfileID, err) := GetPatientProfileIDByUserID w.db userID
  if err ≠ none then (SendError 404 "Patient profile not found", w) else
  match jsonDecode r.Body with
  | none => (SendError 400 "Invalid request body", w)
  | some req =>
    -- Validate
    if jsonField req "hospital_name" = "" ∨ jsonField req "visit_date" = "" ∨
        jsonField req "reason" = "" then
      (SendError 400 "Hospital name, visit date, and reason are required", w) else
    -- Parse date
    match env.timeParse (jsonField req "visit_date") with
    | none => (SendError 400 "Invalid date format. Use YYYY-MM-DD", w)
    | some visitDate =>
      let visit : HospitalVisit :=
        { (default : HospitalVisit) with
          HospitalName := jsonField req "hospital_name", VisitDate := visitDate,
          Reason := jsonField req "reason", Notes := jsonField req "notes" }
      let (db1, visit1, err) := TimelineRepository.CreateVisit env w.db patientProfileID visit
      if err ≠ none then (SendError 500 "Failed to create visit", w) else
      (SendSuccess 201 "Visit added successfully" (some (Payload.visit visit1)),
        { w with db := db1 })

/-- Go `TimelineHandler.GetMyTimeline`. -/
def GetMyTimeline : HandlerFunc := fun r w =>
  let userID := r.Header.Get "X-User-ID"
  let userRole := r.Header.Get "X-User-Role"
  if userID = "" then (SendError 401 "Unauthorized", w) else
  if userRole ≠ "patient" then
    (SendError 403 "Only patients can view their timeline", w) else
  -- Get patient profile ID
  let (patientProfileID, err) := GetPatientProfileIDByUserID w.db userID
  if err ≠ none then (SendError 404 "Patient profile not found", w) else
  let (visits, err) := GetVisitsByPatientID w.db patientProfileID
  if err ≠ none then (SendError 500 "Failed to retrieve timeline", w) else
  (SendSuccess 200 "Timeline retrieved" (some (Payload.visits visits)), w)

/-- The access check shared by the read handlers of the timeline service: `true` when
the branch for the caller's role answers 403 "Access denied". -/
def accessDenied (db : DB) (userID userRole patientProfileID : String) : Bool :=
  if userRole = "patient" then
    let (myProfileID, err) := GetPatientProfileIDByUserID db userID
    err ≠ none || myProfileID ≠ patientProfileID
  else if userRole = "doctor" then
    -- Check if doctor has access
    let (hasAccess, err) := CheckDoctorAccess db userID patientProfileID
    err ≠ none || !hasAccess
  else true

/-- Go `TimelineHandler.GetPatientTimeline`. -/
def GetPatientTimeline : HandlerFunc := fun r w =>
  let userID := r.Header.Get "X-User-ID"
  let userRole := r.Header.Get "X-User-Role"
  if userID = "" then (SendError 401 "Unauthorized", w) else
  -- Get patient profile ID from query
  let patientProfileID := r.Query.Get "patient_id"
  if patientProfileID = "" then (SendError 400 "Patient ID is required", w) else
  if accessDenied w.db userID userRole patientProfileID then
    (SendError 403 "Access denied", w) else
  let (visits, err) := GetVisitsByPatientID w.db patientProfileID
  if err ≠ none then (SendError 500 "Failed to retrieve timeline", w) else
  (SendSuccess 200 "Timeline retrieved" (some (Payload.visits visits)), w)

/-- Go `TimelineHandler.GetVisit`. -/
def GetVisit : HandlerFunc := fun r w =>
  let userID := r.Header.Get "X-User-ID"
  let userRole := r.Header.Get "X-User-Role"
  if userID = "" then (SendError 401 "Unauthorized", w) else
  let visitID := r.Query.Get "visit_id"
  if visitID = "" then (SendError 400 "Visit ID is required", w) else
  let (visit, err) := GetVisitByID w.db visitID
  if err ≠ none then
    (if err = some DBError.ErrNoRows then (SendError 404 "Visit not found", w)
     else (SendError 500 "Failed to retrieve visit", w)) else
  -- Check if user has access
  if accessDenied w.db userID userRole visit.PatientID then
    (SendError 403 "Access denied", w) else
  (SendSuccess 200 "Visit retrieved" (some (Payload.visit visit)), w)

/-- Go `TimelineHandler.UpdateVisit`. -/
def UpdateVisit (env : Env) : HandlerFunc := fun r w =>
  let userID := r.Header.Get "X-User-ID"
  let userRole := r.Header.Get "X-User-Role"
  if userID = "" then (SendError 401 "Unauthorized", w) else
  if userRole ≠ "patient" then (SendError 403 "Only patients can update visits", w) else
  let visitID := r.Query.Get "visit_id"
  if visitID = "" then (SendError 400 "Visit ID is required", w) else
  -- Check if visit belongs to this patient
  let (patientProfileID, err) := GetPatientProfileIDByUserID w.db userID
  if err ≠ none then (SendError 404 "Patient profile not found", w) else
  let (visitPatientID, err) := GetPatientIDByVisitID w.db visitID
  if err ≠ none then (SendError 404 "Visit not found", w) else
  if visitPatientID ≠ patientProfileID then (SendError 403 "Access denied", w) else
  match jsonDecode r.Body with
  | none => (SendError 400 "Invalid request body", w)
  | some req =>
    -- Parse date
    match env.timeParse (jsonField req "visit_date") with
    | none => (SendError 400 "Invalid date format. Use YYYY-MM-DD", w)
    | some visitDate =>
      let visit : HospitalVisit :=
        { (default : HospitalVisit) with
          HospitalName := jsonField req "hospital_name", VisitDate := visitDate,
          Reason := jsonField req "reason", Notes := jsonField req "notes" }
      let (db1, visit1, err) := TimelineRepository.UpdateVisit env w.db visitID visit
      if err ≠ none then (SendError 500 "Failed to update visit", w) else
      (SendSuccess 200 "Visit updated successfully" (some (Payload.visit visit1)),
        { w with db := db1 })

/-- Go `TimelineHandler.DeleteVisit`. -/
def DeleteVisit : HandlerFunc := fun r w =>
  let userID := r.Header.Get "X-User-ID"
  let userRole := r.Header.Get "X-User-Role"
  if userID = "" then (SendError 401 "Unauthorized", w) else
  if userRole ≠ "patient" then (SendError 403 "Only patients can delete visits", w) else
  let visitID := r.Query.Get "visit_id"
  if visitID = "" then (SendError 400 "Visit ID is required", w) else
  -- Check if visit belongs to this patient
  let (patientProfileID, err) := GetPatientProfileIDByUserID w.db userID
  if err ≠ none then (SendError 404 "Patient profile not found", w) else
  let (visitPatientID, err) := GetPatientIDByVisitID w.db visitID
  if err ≠ none then (SendError 404 "Visit not found", w) else
  if visitPatientID ≠ patientProfileID then (SendError 403 "Access denied", w) else
  let (db1, err) := TimelineRepository.DeleteVisit w.db visitID
  if err ≠ none then (SendError 500 "Failed to delete visit", w) else
  (SendSuccess 200 "Visit deleted successfully" none, { w with db := db1 })

end TimelineHandler

/-! ## `services/prescription/repository/prescription_repository.go` -/

namespace PrescriptionRepository

/-- Go `PrescriptionRepository.CreatePrescription`: `upload_date` is `NOW()`, `created_at`
takes the table default (the insertion time). -/
def CreatePrescription (env : Env) (db : DB) (patientID : String)
    (prescription : Prescription) : DB × Prescription × Option DBError :=
  let row : Prescription :=
    { prescription with
      ID := env.newUUID, PatientID := patientID, UploadDate := env.now, CreatedAt := env.now }
  ({ db with prescriptions := db.prescriptions ++ [row] }, row, none)

/-- Go `PrescriptionRepository.GetPrescriptionByID`. -/
def GetPrescriptionByID (db : DB) (prescriptionID : String) :
    Prescription × Option DBError :=
  sqlGet db.prescriptions (fun p => p.ID = prescriptionID) id

/-- Go `PrescriptionRepository.GetPrescriptionsByPatientID`: `ORDER BY upload_date DESC`. -/
def GetPrescriptionsByPatientID (db : DB) (patientID : String) :
    List Prescription × Option DBError :=
  ((db.prescriptions.filter (fun p => p.PatientID = patientID)).insertionSort
    (fun a b => a.UploadDate ≥ b.UploadDate), none)

/-- Go `PrescriptionRepository.DeletePrescription`. -/
def DeletePrescription (db : DB) (prescriptionID : String) : DB × Option DBError :=
  ({ db with prescriptions := db.prescriptions.filter (fun p => p.ID ≠ prescriptionID) },
    none)

/-- Go `PrescriptionRepository.GetPatientIDByPrescriptionID`. -/
def GetPatientIDByPrescriptionID (db : DB) (prescriptionID : String) :
    String × Option DBError :=
  sqlGet db.prescriptions (fun p => p.ID = prescriptionID) (fun p => p.PatientID)

/-- Go `PrescriptionRepository.GetPatientProfileIDByUserID`. -/
def GetPatientProfileIDByUserID (db : DB) (userID : String) : String × Option DBError :=
  sqlGet db.patient_profiles (fun p => p.UserID = userID) (fun p => p.ID)

/-- Go `PrescriptionRepository.CheckDoctorAccess`. -/
def CheckDoctorAccess (db : DB) (doctorUserID patientProfileID : String) :
    Bool × Option DBError :=
  -- Get doctor profile ID
  let (doctorProfileID, err) :=
    sqlGet db.doctor_profiles (fun d => d.UserID = doctorUserID) (fun d => d.ID)
  if err ≠ none then (false, err) else
  -- Check access permission
  let (isActive, err) := sqlGet db.doctor_access_permissions
    (fun g => decide (g.DoctorID = doctorProfileID) && decide (g.PatientID = patientProfileID))
    (fun g => g.IsActive)
  if err ≠ none then (false, err) else (isActive, none)

end PrescriptionRepository

/-! ## `services/prescription/handlers/prescription_handler.go` -/

/-- Go `strings.ToLower` on the ASCII letters.  (No other letter is lower-cased by Go to
a letter of `.pdf`, `.jpg`, `.jpeg` or `.png`, so the extensions that
`UploadPrescription` accepts and stores are the same.) -/
def stringsToLower (s : String) : String :=
  ⟨s.data.map Char.toLower⟩

/-- Go `filepath.Ext` on the reversed name: the suffix from the last dot of the last path
element, empty when that element has no dot. -/
def extLoop (acc : List Char) : List Char → List Char
  | [] => []
  | c :: cs =>
    if c = '/' then [] else if c = '.' then '.' :: acc else extLoop (c :: acc) cs

/-- Go `filepath.Ext`. -/
def filepathExt (path : String) : String :=
  ⟨extLoop [] path.data.reverse⟩

/-- Go `Request.ParseMultipartForm(maxMemory)` followed by reading `MultipartForm.File`:
`maxMemory` decides which file parts are kept in memory and which are spooled to
temporary files, not which are accepted; the call fails when the body is not a
multipart form. -/
def ParseMultipartForm (body : RequestBody) (_maxMemory : Nat) :
    Option (List (String × FileHeader)) :=
  match body with
  | RequestBody.multipart files => some files
  | _ => none

/-- Go `os.Create` followed by `io.Copy` into the file: the file is created or
truncated and holds the content. -/
def writeFile (uploads : List (String × List Nat)) (name : String) (content : List Nat) :
    List (String × List Nat) :=
  (name, content) :: uploads.filter (fun f => f.1 ≠ name)

/-- Go `os.Remove` in the upload directory. -/
def removeFile (uploads : List (String × List Nat)) (name : String) :
    List (String × List Nat) :=
  uploads.filter (fun f => f.1 ≠ name)

namespace PrescriptionHandler

open utils PrescriptionRepository

/-- Go `getContentType`. -/
def getContentType (fileType : String) : String :=
  if fileType = ".pdf" then "application/pdf"
  else if fileType = ".jpg" ∨ fileType = ".jpeg" then "image/jpeg"
  else if fileType = ".png" then "image/png"
  else "application/octet-stream"

/-- The map `allowedTypes` of `UploadPrescription`. -/
def allowedTypes (fileExt : String) : Bool :=
  fileExt = ".pdf" ∨ fileExt = ".jpg" ∨ fileExt = ".jpeg" ∨ fileExt = ".png"

/-- Go `PrescriptionHandler.UploadPrescription`. -/
def UploadPrescription (env : Env) : HandlerFunc := fun r w =>
  let userID := r.Header.Get "X-User-ID"
  let userRole := r.Header.Get "X-User-Role"
  if userID = "" then (SendError 401 "Unauthorized", w) else
  if userRole ≠ "patient" then
    (SendError 403 "Only patients can upload prescriptions", w) else
  -- Get patient profile ID
  let (patientProfileID, err) := GetPatientProfileIDByUserID w.db userID
  if err ≠ none then (SendError 404 "Patient profile not found", w) else
  -- Parse multipart form (max 10MB)
  match ParseMultipartForm r.Body (10 * 2 ^ 20) with
  | none => (SendError 400 "File too large. Max size is 10MB", w)
  | some form =>
    -- Get file from form
    match form.lookup "file" with
    | none => (SendError 400 "No file uploaded", w)
    | some header =>
      -- Validate file type (PDF or images)
      let fileExt := stringsToLower (filepathExt header.Filename)
      if !allowedTypes fileExt then
        (SendError 400 "Invalid file type. Only PDF, JPG, JPEG, and PNG are allowed", w) else
      -- Generate unique filename
      let uniqueFilename := patientProfileID ++ "_" ++ env.newFileUUID ++ fileExt
      -- Create file on disk, copy uploaded file to destination
      let uploads1 := writeFile w.uploads uniqueFilename header.Content
      let fileSize := header.Content.length
      -- Save to database
      let prescription : Prescription :=
        { (default : Prescription) with
          FileName := header.Filename, FileType := fileExt, FileSize := fileSize,
          FilePath := uniqueFilename }
      let (db1, prescription1, err) :=
        CreatePrescription env w.db patientProfileID prescription
      if err ≠ none then
        -- Delete file if database insert fails
        (SendError 500 "Failed to save prescription record",
          { w with uploads := removeFile uploads1 uniqueFilename }) else
      (SendSuccess 201 "Prescription uploaded successfully"
          (some (Payload.prescription prescription1)),
        { db := db1, uploads := uploads1 })

/-- Go `PrescriptionHandler.GetMyPrescriptions`. -/
def GetMyPrescriptions : HandlerFunc := fun r w =>
  let userID := r.Header.Get "X-User-ID"
  let userRole := r.Header.Get "X-User-Role"
  if userID = "" then (SendError 401 "Unauthorized", w) else
  if userRole ≠ "patient" then
    (SendError 403 "Only patients can view their prescriptions", w) else
  -- Get patient profile ID
  let (patientProfileID, err) := GetPatientProfileIDByUserID w.db userID
  if err ≠ none then (SendError 404 "Patient profile not found", w) else
  let (prescriptions, err) := GetPrescriptionsByPatientID w.db patientProfileID
  if err ≠ none then (SendError 500 "Failed to retrieve prescriptions", w) else
  (SendSuccess 200 "Prescriptions retrieved" (some (Payload.prescriptions prescriptions)), w)

/-- The access check shared by the read handlers of the prescription service: `true`
when the branch for the caller's role answers 403 "Access denied". -/
def accessDenied (db : DB) (userID userRole patientProfileID : String) : Bool :=
  if userRole = "patient" then
    let (myProfileID, err) := GetPatientProfileIDByUserID db userID
    err ≠ none || myProfileID ≠ patientProfileID
  else if userRole = "doctor" then
    let (hasAccess, err) := CheckDoctorAccess db userID patientProfileID
    err ≠ none || !hasAccess
  else true

/-- Go `PrescriptionHandler.GetPatientPrescriptions`. -/
def GetPatientPrescriptions : HandlerFunc := fun r w =>
  let userID := r.Header.Get "X-User-ID"
  let userRole := r.Header.Get "X-User-Role"
  if userID = "" then (SendError 401 "Unauthorized", w) else
  -- Get patient profile ID from query
  let patientProfileID := r.Query.Get "patient_id"
  if patientProfileID = "" then (SendError 400 "Patient ID is required", w) else
  -- Check access
  if accessDenied w.db userID userRole patientProfileID then
    (SendError 403 "Access denied", w) else
  let (prescriptions, err) := GetPrescriptionsByPatientID w.db patientProfileID
  if err ≠ none then (SendError 500 "Failed to retrieve prescriptions", w) else
  (SendSuccess 200 "Prescriptions retrieved" (some (Payload.prescriptions prescriptions)), w)

/-- Go `PrescriptionHandler.DownloadPrescription`: on success the file is streamed with
the implicit status 200. -/
def DownloadPrescription : HandlerFunc := fun r w =>
  let userID := r.Header.Get "X-User-ID"
  let userRole := r.Header.Get "X-User-Role"
  if userID = "" then (SendError 401 "Unauthorized", w) else
  let prescriptionID := r.Query.Get "id"
  if prescriptionID = "" then (SendError 400 "Prescription ID is required", w) else
  -- Get prescription
  let (prescription, err) := GetPrescriptionByID w.db prescriptionID
  if err ≠ none then
    (if err = some DBError.ErrNoRows then (SendError 404 "Prescription not found", w)
     else (SendError 500 "Failed to retrieve prescription", w)) else
  -- Check access
  if accessDenied w.db userID userRole prescription.PatientID then
    (SendError 403 "Access denied", w) else
  -- Open file
  match w.uploads.lookup prescription.FilePath with
  | none => (SendError 404 "File not found", w)
  | some content =>
    -- Set headers for file download, stream file to response
    ({ StatusCode := 200,
       Header := [("Content-Disposition", "attachment; filename=" ++ prescription.FileName),
         ("Content-Type", getContentType prescription.FileType)],
       Body := ResponseBody.bytes content }, w)

/-- Go `PrescriptionHandler.DeletePrescription`. -/
def DeletePrescription : HandlerFunc := fun r w =>
  let userID := r.Header.Get "X-User-ID"
  let userRole := r.Header.Get "X-User-Role"
  if userID = "" then (SendError 401 "Unauthorized", w) else
  if userRole ≠ "patient" then
    (SendError 403 "Only patients can delete prescriptions", w) else
  let prescriptionID := r.Query.Get "id"
  if prescriptionID = "" then (SendError 400 "Prescription ID is required", w) else
  -- Get prescription
  let (prescription, err) := GetPrescriptionByID w.db prescriptionID
  if err ≠ none then (SendError 404 "Prescription not found", w) else
  -- Check if belongs to patient
  let (patientProfileID, err) := GetPatientProfileIDByUserID w.db userID
  if err ≠ none ∨ prescription.PatientID ≠ patientProfileID then
    (SendError 403 "Access denied", w) else
  -- Delete from database
  let (db1, err) := PrescriptionRepository.DeletePrescription w.db prescriptionID
  if err ≠ none then (SendError 500 "Failed to delete prescription", w) else
  -- Delete file from disk
  (SendSuccess 200 "Prescription deleted successfully" none,
    { db := db1, uploads := removeFile w.uploads prescription.FilePath })

end PrescriptionHandler

/-! ## `services/doctor/repository/doctor_repository.go` -/

namespace DoctorRepository

/-- Go `DoctorRepository.GetProfileByUserID`: `nil` (here the zero profile) on error. -/
def GetProfileByUserID (db : DB) (userID : String) : DoctorProfile × Option DBError :=
  sqlGet db.doctor_profiles (fun d => decide (d.UserID = userID)) id

/-- Go `DoctorRepository.GetProfileByID`. -/
def GetProfileByID (db : DB) (profileID : String) : DoctorProfile × Option DBError :=
  sqlGet db.doctor_profiles (fun d => decide (d.ID = profileID)) id

/-- Go `DoctorRepository.CheckAccess`: `sql.ErrNoRows` is turned into "no access"
without error. -/
def CheckAccess (db : DB) (doctorID patientID : String) : Bool × Option DBError :=
  let (isActive, err) := sqlGet db.doctor_access_permissions
    (fun g => decide (g.DoctorID = doctorID) && decide (g.PatientID = patientID))
    (fun g => g.IsActive)
  if err ≠ none then
    (if err = some DBError.ErrNoRows then
      (false, none) -- No permission found = no access
    else (false, err))
  else (isActive, none)

/-- Go `DoctorRepository.GetPatientProfile`. -/
def GetPatientProfile (db : DB) (doctorID patientID : String) :
    PatientProfile × Option DBError :=
  -- First check if doctor has access
  let (hasAccess, err) := CheckAccess db doctorID patientID
  if err ≠ none then (default, err) else
  if !hasAccess then
    (default, some DBError.ErrNoRows) -- Return not found if no access
  else
  -- Get patient profile
  sqlGet db.patient_profiles (fun p => decide (p.ID = patientID)) id

/-- Go `DoctorRepository.ListAccessiblePatients`: the inner join of the profiles with the
doctor's active grants, `ORDER BY p.full_name`. -/
def ListAccessiblePatients (db : DB) (doctorID : String) :
    List PatientProfile × Option DBError :=
  ((db.patient_profiles.flatMap (fun p =>
      (db.doctor_access_permissions.filter (fun dap =>
        decide (p.ID = dap.PatientID) && decide (dap.DoctorID = doctorID) &&
          dap.IsActive)).map (fun _ => p))).insertionSort
    (fun a b => ¬ b.FullName < a.FullName), none)

end DoctorRepository

/-! ## `services/doctor/handlers/doctor_handler.go` -/

namespace DoctorHandler

open utils

/-- Go `DoctorHandler.GetPatientProfile`. -/
def GetPatientProfile : HandlerFunc := fun r w =>
  let userID := r.Header.Get "X-User-ID"
  let userRole := r.Header.Get "X-User-Role"
  if userID = "" then (SendError 401 "Unauthorized", w) else
  if userRole ≠ "doctor" then
    (SendError 403 "Only doctors can view patient profiles", w) else
  -- Get doctor profile
  let (doctorProfile, err) := DoctorRepository.GetProfileByUserID w.db userID
  if err ≠ none then (SendError 404 "Doctor profile not found", w) else
  -- Get patient ID from URL query
  let patientID := r.Query.Get "patient_id"
  if patientID = "" then (SendError 400 "Patient ID is required", w) else
  -- Get patient profile (with permission check)
  let (patientProfile, err) :=
    DoctorRepository.GetPatientProfile w.db doctorProfile.ID patientID
  if err ≠ none then
    (if err = some DBError.ErrNoRows then
      (SendError 403 "Access denied or patient not found", w)
     else (SendError 500 "Failed to retrieve patient profile", w)) else
  (SendSuccess 200 "Patient profile retrieved" (some (Payload.patientProfile patientProfile)),
    w)

/-- Go `DoctorHandler.ListAccessiblePatients`. -/
def ListAccessiblePatients : HandlerFunc := fun r w =>
  let userID := r.Header.Get "X-User-ID"
  let userRole := r.Header.Get "X-User-Role"
  if userID = "" then (SendError 401 "Unauthorized", w) else
  if userRole ≠ "doctor" then (SendError 403 "Only doctors can view patient list", w) else
  -- Get doctor profile
  let (doctorProfile, err) := DoctorRepository.GetProfileByUserID w.db userID
  if err ≠ none then (SendError 404 "Doctor profile not found", w) else
  -- Get accessible patients
  let (patients, err) := DoctorRepository.ListAccessiblePatients w.db doctorProfile.ID
  if err ≠ none then (SendError 500 "Failed to retrieve patients", w) else
  (SendSuccess 200 "Patients retrieved" (some (Payload.patientProfiles patients)), w)

end DoctorHandler

/-! ## Route tables: the `main.go` of the four protected services -/

/-- A route of a `mux.Router`: `router.HandleFunc(path, f).Methods(method)`. -/
structure Route where
  Path : String
  Method : String
  Handler : HandlerFunc

/-- The route a `mux.Router` dispatches to, and its answer when no route fits: 405
when the path is registered for another method, 404 otherwise. -/
def ServeHTTP (routes : List Route) : HandlerFunc := fun r w =>
  match routes.find? (fun rt => rt.Path = r.Path ∧ rt.Method = r.Method) with
  | some rt => rt.Handler r w
  | none =>
    if routes.any (fun rt => rt.Path = r.Path) then
      ({ StatusCode := 405, Header := [], Body := ResponseBody.text "" }, w)
    else (httpError "404 page not found" 404, w)

/-- The methods of `handlers.PatientHandler` that `services/patient/main.go` registers. -/
structure PatientHandlers where
  CreateProfile : HandlerFunc
  GetMyProfile : HandlerFunc
  UpdateProfile : HandlerFunc
  GrantAccess : HandlerFunc
  RevokeAccess : HandlerFunc
  ListPermissions : HandlerFunc

/-- The methods of `handlers.DoctorHandler` that `services/doctor/main.go` registers. -/
structure DoctorHandlers where
  CreateProfile : HandlerFunc
  GetMyProfile : HandlerFunc
  UpdateProfile : HandlerFunc
  ListAccessiblePatients : HandlerFunc
  GetPatientProfile : HandlerFunc

/-- The methods of `handlers.TimelineHandler` that `services/timeline/main.go` registers. -/
structure TimelineHandlers where
  CreateVisit : HandlerFunc
  GetMyTimeline : HandlerFunc
  GetPatientTimeline : HandlerFunc
  GetVisit : HandlerFunc
  UpdateVisit : HandlerFunc
  DeleteVisit : HandlerFunc

/-- The methods of `handlers.PrescriptionHandler` that `services/prescription/main.go`
registers. -/
structure PrescriptionHandlers where
  UploadPrescription : HandlerFunc
  GetMyPrescriptions : HandlerFunc
  GetPatientPrescriptions : HandlerFunc
  DownloadPrescription : HandlerFunc
  DeletePrescription : HandlerFunc

/-- The router of `services/patient/main.go`. -/
def patientRoutes (env : Env) (handler : PatientHandlers) : List Route :=
  [ -- Patient profile routes (protected)
    ⟨"/api/patients/profile", "POST", AuthMiddleware env handler.CreateProfile⟩,
    ⟨"/api/patients/profile", "GET", AuthMiddleware env handler.GetMyProfile⟩,
    ⟨"/api/patients/profile", "PUT", AuthMiddleware env handler.UpdateProfile⟩,
    -- Access permission routes (protected)
    ⟨"/api/patients/permissions/grant", "POST", AuthMiddleware env handler.GrantAccess⟩,
    ⟨"/api/patients/permissions/revoke", "DELETE", AuthMiddleware env handler.RevokeAccess⟩,
    ⟨"/api/patients/permissions", "GET", AuthMiddleware env handler.ListPermissions⟩ ]

/-- The router of `services/doctor/main.go`. -/
def doctorRoutes (env : Env) (handler : DoctorHandlers) : List Route :=
  [ -- Doctor profile routes (protected)
    ⟨"/api/doctors/profile", "POST", AuthMiddleware env handler.CreateProfile⟩,
    ⟨"/api/doctors/profile", "GET", AuthMiddleware env handler.GetMyProfile⟩,
    ⟨"/api/doctors/profile", "PUT", AuthMiddleware env handler.UpdateProfile⟩,
    -- Patient viewing routes (protected)
    ⟨"/api/doctors/patients", "GET", AuthMiddleware env handler.ListAccessiblePatients⟩,
    ⟨"/api/doctors/patients/view", "GET", AuthMiddleware env handler.GetPatientProfile⟩ ]

/-- The router of `services/timeline/main.go`. -/
def timelineRoutes (env : Env) (handler : TimelineHandlers) : List Route :=
  [ ⟨"/api/timeline/visits", "POST", AuthMiddleware env handler.CreateVisit⟩,
    ⟨"/api/timeline/my", "GET", AuthMiddleware env handler.GetMyTimeline⟩,
    ⟨"/api/timeline/patient", "GET", AuthMiddleware env handler.GetPatientTimeline⟩,
    ⟨"/api/timeline/visit", "GET", AuthMiddleware env handler.GetVisit⟩,
    ⟨"/api/timeline/visit", "PUT", AuthMiddleware env handler.UpdateVisit⟩,
    ⟨"/api/timeline/visit", "DELETE", AuthMiddleware env handler.DeleteVisit⟩ ]

/-- The router of `services/prescription/main.go`. -/
def prescriptionRoutes (env : Env) (handler : PrescriptionHandlers) : List Route :=
  [ ⟨"/api/prescriptions/upload", "POST", AuthMiddleware env handler.UploadPrescription⟩,
    ⟨"/api/prescriptions/my", "GET", AuthMiddleware env handler.GetMyPrescriptions⟩,
    ⟨"/api/prescriptions/patient", "GET",
      AuthMiddleware env handler.GetPatientPrescriptions⟩,
    ⟨"/api/prescriptions/download", "GET", AuthMiddleware env handler.DownloadPrescription⟩,
    ⟨"/api/prescriptions", "DELETE", AuthMiddleware env handler.DeletePrescription⟩ ]

/-- Go `handlers.NewTimelineHandler(repo)`: the handler whose methods the timeline
router registers. -/
def NewTimelineHandler (env : Env) : TimelineHandlers :=
  { CreateVisit := TimelineHandler.CreateVisit env,
    GetMyTimeline := TimelineHandler.GetMyTimeline,
    GetPatientTimeline := TimelineHandler.GetPatientTimeline,
    GetVisit := TimelineHandler.GetVisit,
    UpdateVisit := TimelineHandler.UpdateVisit env,
    DeleteVisit := TimelineHandler.DeleteVisit }

/-- Go `handlers.NewPrescriptionHandler(repo, uploadPath)`. -/
def NewPrescriptionHandler (env : Env) : PrescriptionHandlers :=
  { UploadPrescription := PrescriptionHandler.UploadPrescription env,
    GetMyPrescriptions := PrescriptionHandler.GetMyPrescriptions,
    GetPatientPrescriptions := PrescriptionHandler.GetPatientPrescriptions,
    DownloadPrescription := PrescriptionHandler.DownloadPrescription,
    DeletePrescription := PrescriptionHandler.DeletePrescription }

/-- Every route the four services register, for any implementation of the resource
handlers. -/
def protectedRoutes (env : Env) (hp : PatientHandlers) (hd : DoctorHandlers)
    (ht : TimelineHandlers) (hr : PrescriptionHandlers) : List Route :=
  patientRoutes env hp ++ doctorRoutes env hd ++ timelineRoutes env ht ++
    prescriptionRoutes env hr

/-! ## Specification vocabulary -/

/-- The credential of a request: the `Authorization` header with the first `Bearer `
removed, as `AuthMiddleware` hands it to `ValidateToken`. -/
def credential (r : Request) : String :=
  stringsReplace1 (r.Header.Get "Authorization") "Bearer " ""

/-- The request carries a credential that `ValidateToken` accepts with the claims. -/
def Accepted (env : Env) (r : Request) (claims : Claims) : Prop :=
  r.Header.Get "Authorization" ≠ "" ∧ env.ValidateToken (credential r) = Except.ok claims

/-- The request carries no credential that `ValidateToken` accepts. -/
def NoCredential (env : Env) (r : Request) : Prop :=
  r.Header.Get "Authorization" = "" ∨ ∃ e, env.ValidateToken (credential r) = Except.error e

/-- The permission store holds an active grant of the patient to the doctor profile of
the user: `IsActive(p, d)` of the specification, for the doctor `d` of user `userID`. -/
def HasActiveGrant (db : DB) (userID patientID : String) : Prop :=
  ∃ d ∈ db.doctor_profiles, d.UserID = userID ∧
    ∃ g ∈ db.doctor_access_permissions,
      g.PatientID = patientID ∧ g.DoctorID = d.ID ∧ g.IsActive = true

/-- Modelled from the spec: the uniqueness of the owning user of a profile (the
schema, whose migration files are not among the sources): at most one patient profile
and at most one doctor profile per user. -/
def DB.UniqueUsers (db : DB) : Prop :=
  (db.patient_profiles.map (fun p => p.UserID)).Nodup ∧
    (db.doctor_profiles.map (fun d => d.UserID)).Nodup

/-- Modelled from the spec: the primary keys of the visit and prescription tables
(the schema is not among the sources): a row is identified by its id. -/
def DB.PrimaryKeys (db : DB) : Prop :=
  (db.hospital_visits.map (fun v => v.ID)).Nodup ∧
    (db.prescriptions.map (fun p => p.ID)).Nodup

/-- Modelled from the spec: identifiers are 128-bit identifiers rendered as text, so
no stored identifier is the empty string. -/
def DB.IdsNonEmpty (db : DB) : Prop :=
  (∀ p ∈ db.patient_profiles, p.ID ≠ "" ∧ p.UserID ≠ "") ∧
    (∀ d ∈ db.doctor_profiles, d.ID ≠ "" ∧ d.UserID ≠ "") ∧
    (∀ v ∈ db.hospital_visits, v.ID ≠ "") ∧ (∀ p ∈ db.prescriptions, p.ID ≠ "")

instance (db : DB) : Decidable db.UniqueUsers := by
  unfold DB.UniqueUsers; infer_instance

instance (db : DB) : Decidable db.PrimaryKeys := by
  unfold DB.PrimaryKeys; infer_instance

instance (db : DB) : Decidable db.IdsNonEmpty := by
  unfold DB.IdsNonEmpty; infer_instance

instance (db : DB) (userID patientID : String) :
    Decidable (HasActiveGrant db userID patientID) := by
  unfold HasActiveGrant; infer_instance

/-- A grant row with the `granted_at` column blanked. -/
def DoctorAccessPermission.exceptGrantedAt (g : DoctorAccessPermission) :
    DoctorAccessPermission :=
  { g with GrantedAt := 0 }

/-- A grant row with the `revoked_at` column blanked. -/
def DoctorAccessPermission.exceptRevokedAt (g : DoctorAccessPermission) :
    DoctorAccessPermission :=
  { g with RevokedAt := none }

/-- The store with the `granted_at` column of the grant table blanked. -/
def DB.exceptGrantedAt (db : DB) : DB :=
  { db with doctor_access_permissions :=
      db.doctor_access_permissions.map DoctorAccessPermission.exceptGrantedAt }

/-- The store with the `revoked_at` column of the grant table blanked. -/
def DB.exceptRevokedAt (db : DB) : DB :=
  { db with doctor_access_permissions :=
      db.doctor_access_permissions.map DoctorAccessPermission.exceptRevokedAt }

/-- The grant table has a row for the pair (patient, doctor). -/
def DB.hasGrantRow (db : DB) (patientID doctorID : String) : Bool :=
  db.doctor_access_permissions.any
    (fun g => decide (g.PatientID = patientID) && decide (g.DoctorID = doctorID))

/-! ## Concrete states used to evaluate the code -/

/-- A validator that accepts the single credential `tok-alice`. -/
def sampleValidate (token : String) : Except String Claims :=
  if token = "tok-alice" then
    Except.ok { UserID := "u-alice", Email := "alice@x", Role := "patient" }
  else Except.error "invalid token"

/-- An environment with the sample validator. -/
def sampleEnv : Env :=
  { ValidateToken := sampleValidate, now := 7, newUUID := "id-new", newFileUUID := "file-new",
    timeParse := fun _ => none }

/-- A request without headers, query or body. -/
def emptyRequest : Request :=
  { Method := "GET", Path := "/", RawQuery := "", Query := [], Header := { entries := [] },
    RemoteAddr := "10.0.0.1:4000", Body := RequestBody.raw "" }

/-- A world with two patients, one doctor, no grant, and one visit and one prescription
of alice. -/
def sampleWorld : World :=
  { db :=
      { patient_profiles :=
          [{ (default : PatientProfile) with ID := "p-alice", UserID := "u-alice" },
           { (default : PatientProfile) with ID := "p-carol", UserID := "u-carol" }],
        doctor_profiles := [{ (default : DoctorProfile) with ID := "d-bob", UserID := "u-bob" }],
        doctor_access_permissions := [],
        hospital_visits :=
          [{ (default : HospitalVisit) with ID := "v1", PatientID := "p-alice" }],
        prescriptions :=
          [{ (default : Prescription) with
              ID := "rx1", PatientID := "p-alice", FilePath := "p-alice_f1.pdf" }] },
    uploads := [("p-alice_f1.pdf", [37, 80, 68, 70])] }

/-- A request with the credential `tok-alice` after `Bearer `, whose client also supplies
values of its own for the three trusted headers. -/
def spoofingRequest : Request :=
  { emptyRequest with
    Header := { entries :=
      [("Authorization", ["Bearer tok-alice"]), ("X-User-Id", ["u-mallory", "u-eve"]),
       ("X-User-Role", ["doctor"]), ("X-User-Email", [])] } }

/-- A request without credential that claims an identity in the trusted headers. -/
def forgedRequest : Request :=
  { emptyRequest with
    Path := "/api/timeline/my"
    Header := { entries := [("X-User-Id", ["u-alice"]), ("X-User-Role", ["patient"])] } }

/-- A request whose `Authorization` header is the bare credential, without `Bearer `. -/
def bareTokenRequest : Request :=
  { emptyRequest with
    Path := "/api/timeline/my"
    Header := { entries := [("Authorization", ["tok-alice"])] } }

/-- Resource handlers that answer 200 and empty the store, used to observe whether a
route invokes its handler. -/
def wipe : HandlerFunc := fun _ _ =>
  (utils.SendSuccess 200 "wiped" none, { db := default, uploads := [] })

/-- Patient handlers that all wipe the store. -/
def wipePatientHandlers : PatientHandlers :=
  { CreateProfile := wipe, GetMyProfile := wipe, UpdateProfile := wipe, GrantAccess := wipe,
    RevokeAccess := wipe, ListPermissions := wipe }

/-- Doctor handlers that all wipe the store. -/
def wipeDoctorHandlers : DoctorHandlers :=
  { CreateProfile := wipe, GetMyProfile := wipe, UpdateProfile := wipe,
    ListAccessiblePatients := wipe, GetPatientProfile := wipe }

/-- The sample world after alice granted access to doctor bob. -/
def grantedWorld : World :=
  { sampleWorld with
    db := { sampleWorld.db with
      doctor_access_permissions :=
        [{ ID := "g1", PatientID := "p-alice", DoctorID := "d-bob", GrantedAt := 3,
           RevokedAt := none, IsActive := true }] } }

/-- A request of doctor bob, as the middleware hands it to the read handlers, for the
records of alice. -/
def doctorRequest : Request :=
  { emptyRequest with
    Query := [("patient_id", ["p-alice"]), ("visit_id", ["v1"]), ("id", ["rx1"])]
    Header := { entries := [("X-User-Id", ["u-bob"]), ("X-User-Role", ["doctor"])] } }

/-- A request that reaches the read handlers with the given role, no `X-User-ID`, and
the patient id of alice. -/
def anonymousRequest (role : String) : Request :=
  { emptyRequest with
    Query := [("patient_id", ["p-alice"])]
    Header := { entries := [("X-User-Role", [role])] } }

/-- A request of patient alice, as the middleware hands it to the handlers, naming the
given patient id, visit id and prescription id. -/
def patientRequest (patientID visitID prescriptionID : String) : Request :=
  { emptyRequest with
    Query := [("patient_id", [patientID]), ("visit_id", [visitID]), ("id", [prescriptionID])]
    Header := { entries := [("X-User-Id", ["u-alice"]), ("X-User-Role", ["patient"])] } }

/-- The sample world with a visit and a prescription of carol as well. -/
def twoPatientWorld : World :=
  { db := { sampleWorld.db with
      hospital_visits := sampleWorld.db.hospital_visits ++
        [{ (default : HospitalVisit) with ID := "v2", PatientID := "p-carol" }]
      prescriptions := sampleWorld.db.prescriptions ++
        [{ (default : Prescription) with
            ID := "rx2", PatientID := "p-carol", FilePath := "p-carol_f2.png" }] },
    uploads := sampleWorld.uploads ++ [("p-carol_f2.png", [137, 80, 78, 71])] }

/-- The profile of alice in the sample worlds. -/
def aliceProfile : PatientProfile :=
  { (default : PatientProfile) with ID := "p-alice", UserID := "u-alice" }

/-- The visit of carol in `twoPatientWorld`. -/
def carolVisit : HospitalVisit :=
  { (default : HospitalVisit) with ID := "v2", PatientID := "p-carol" }

/-- The sample environment at a later time, with another UUID at hand. -/
def laterEnv : Env :=
  { sampleEnv with now := 9, newUUID := "id-later" }

/-- The profile of doctor bob in the sample worlds. -/
def bobProfile : DoctorProfile :=
  { (default : DoctorProfile) with ID := "d-bob", UserID := "u-bob" }

/-- A request whose `Authorization` header carries a credential the sample validator
rejects. -/
def wrongTokenRequest : Request :=
  { emptyRequest with Header := { entries := [("Authorization", ["Bearer wrong"])] } }

/-! ## Vocabulary of the grant store -/

/-- Modelled from the spec: the uniqueness constraint on `(patient_id, doctor_id)` of
`doctor_access_permissions` that the `ON CONFLICT` clause of `GrantAccess` names (the
schema is not among the sources). -/
def DB.UniqueGrants (db : DB) : Prop :=
  (db.doctor_access_permissions.map (fun g => (g.PatientID, g.DoctorID))).Nodup

instance (db : DB) : Decidable db.UniqueGrants := by
  unfold DB.UniqueGrants; infer_instance

/-- The rows of the grant table for the pair (patient, doctor). -/
def DB.grantRows (db : DB) (patientID doctorID : String) : List DoctorAccessPermission :=
  db.doctor_access_permissions.filter
    (fun g => decide (g.PatientID = patientID) && decide (g.DoctorID = doctorID))

/-- The `(is_active, revoked_at)` pair of a grant row is consistent. -/
def DoctorAccessPermission.Consistent (g : DoctorAccessPermission) : Prop :=
  g.IsActive = true ↔ g.RevokedAt = none

instance (g : DoctorAccessPermission) : Decidable g.Consistent := by
  unfold DoctorAccessPermission.Consistent; infer_instance

/-- A call of the permission store, with the clock and UUID it reads. -/
inductive GrantCall
  | grant (env : Env) (patientID doctorID : String)
  | revoke (env : Env) (patientID doctorID : String)

/-- The store a call of `GrantAccess` or `RevokeAccess` leaves. -/
def GrantCall.run (db : DB) : GrantCall → DB
  | GrantCall.grant env p d => (PatientRepository.GrantAccess env db p d).1
  | GrantCall.revoke env p d => (PatientRepository.RevokeAccess env db p d).1

/-- The store with every table empty. -/
def emptyDB : DB :=
  { patient_profiles := [], doctor_profiles := [], doctor_access_permissions := [],
    hospital_visits := [], prescriptions := [] }

/-- The store reached from `db` by a sequence of calls. -/
def runCalls (db : DB) (calls : List GrantCall) : DB :=
  calls.foldl GrantCall.run db

/-- The sample world without any patient profile. -/
def noPatientWorld : World :=
  { sampleWorld with db := { sampleWorld.db with patient_profiles := [] } }

/-! ## `services/gateway/middleware/rate_limiter.go` -/

namespace Gateway

/-- Modelled from the spec: `rate.Limiter` of `golang.org/x/time/rate`, which is not
among the sources: a token bucket refilled at `limit` tokens per second up to `burst`,
with the token count as of the time `last` (in seconds).  Token counts and times are
exact rationals where the library computes in `float64`. -/
structure Limiter where
  limit : ℚ
  burst : Nat
  tokens : ℚ
  last : ℚ
deriving DecidableEq, Repr

/-- Modelled from the spec: `rate.NewLimiter(r, b)`: the bucket is created full. -/
def NewLimiter (r : ℚ) (b : Nat) : Limiter :=
  { limit := r, burst := b, tokens := b, last := 0 }

/-- Modelled from the spec: the token count of the bucket at time `t` (`advance` of the
library): the tokens as of `last` plus the refill since, capped at `burst`; a time
before `last` counts as `last`. -/
def Limiter.advance (lim : Limiter) (t : ℚ) : ℚ :=
  min (lim.tokens + (t - min lim.last t) * lim.limit) lim.burst

/-- Modelled from the spec: `Limiter.Tokens()` at time `now`. -/
def Limiter.Tokens (lim : Limiter) (now : ℚ) : ℚ :=
  lim.advance now

/-- Modelled from the spec: `Limiter.Allow()` at time `now`: when a whole token is
available it is consumed and the request is admitted; otherwise the bucket is left as
it was. -/
def Limiter.Allow (lim : Limiter) (now : ℚ) : Bool × Limiter :=
  let tokens := lim.advance now - 1
  if 0 ≤ tokens then (true, { lim with last := now, tokens := tokens }) else (false, lim)

/-- Go `IPRateLimiter`.  `limiters` is the heap of the `rate.Limiter` values allocated so
far, a `*rate.Limiter` being the index of one; `ips` is the map from client key to
pointer. -/
structure IPRateLimiter where
  limiters : List Limiter
  ips : List (String × Nat)
  r : ℚ
  b : Nat
deriving DecidableEq, Repr

/-- Go `NewIPRateLimiter`. -/
def NewIPRateLimiter (r : ℚ) (b : Nat) : IPRateLimiter :=
  { limiters := [], ips := [], r := r, b := b }

/-- Go `IPRateLimiter.GetLimiter`: the pointer stored for the key, or a new limiter
that is stored and returned. -/
def IPRateLimiter.GetLimiter (i : IPRateLimiter) (ip : String) : Nat × IPRateLimiter :=
  match i.ips.lookup ip with
  | some limiter => (limiter, i)
  | none =>
    let limiter := i.limiters.length
    (limiter, { i with limiters := i.limiters ++ [NewLimiter i.r i.b],
                       ips := i.ips ++ [(ip, limiter)] })

/-- Go `IPRateLimiter.CleanupOldEntries` at time `now`: every key whose limiter reports
`Tokens() == float64(i.b)` is deleted from the map. -/
def IPRateLimiter.CleanupOldEntries (i : IPRateLimiter) (now : ℚ) : IPRateLimiter :=
  { i with ips := i.ips.filter (fun e =>
      match i.limiters[e.2]? with
      | some limiter => decide (limiter.Tokens now ≠ (i.b : ℚ))
      | none => true) }

/-- The call `rateLimiter.Allow()` through a pointer returned by `GetLimiter`. -/
def IPRateLimiter.Allow (i : IPRateLimiter) (limiter : Nat) (now : ℚ) :
    Bool × IPRateLimiter :=
  match i.limiters[limiter]? with
  | some lim =>
    ((lim.Allow now).1, { i with limiters := i.limiters.set limiter (lim.Allow now).2 })
  | none => (false, i)

/-- Go `getClientIP`. -/
def getClientIP (r : Request) : String :=
  -- Check X-Forwarded-For header (for proxies)
  let forwarded := r.Header.Get "X-Forwarded-For"
  if forwarded ≠ "" then forwarded else
  -- Check X-Real-IP header
  let realIP := r.Header.Get "X-Real-IP"
  if realIP ≠ "" then realIP else
  -- Fall back to RemoteAddr
  r.RemoteAddr

end Gateway

/-! ## `services/gateway/handlers/proxy.go` and `services/gateway/main.go` -/

/-- Go `Header.Add`: the value is appended to the values of the canonicalised key. -/
def Header.Add (h : Header) (key value : String) : Header :=
  if h.entries.any (fun e => decide (e.1 = CanonicalMIMEHeaderKey key)) then
    { entries := h.entries.map (fun e =>
        if e.1 = CanonicalMIMEHeaderKey key then (e.1, e.2 ++ [value]) else e) }
  else { entries := h.entries ++ [(CanonicalMIMEHeaderKey key, [value])] }

namespace Gateway

/-- Go `handlers.ServiceConfig`. -/
structure ServiceConfig where
  AuthServiceURL : String
  PatientServiceURL : String
  DoctorServiceURL : String
  TimelineServiceURL : String
  PrescriptionServiceURL : String
deriving DecidableEq, Repr

/-- Go `url.URL`, as far as `ProxyRequest` and the HTTP client read it.  The user
information and the hints `RawPath` and `RawFragment` for the escaping are left out.
An HTTP client sends the path and the query of the URL to the host; the fragment is
not sent. -/
structure URL where
  Scheme : String
  Opaque : String
  Host : String
  Path : String
  ForceQuery : Bool
  RawQuery : String
  Fragment : String
deriving DecidableEq, Repr

/-- The request `ProxyRequest` builds with `http.NewRequest` and sends; `URL` is the
parsed URL of the request. -/
structure OutgoingRequest where
  Method : String
  URL : URL
  Header : Header
  Body : RequestBody
deriving DecidableEq, Repr

/-- A call the gateway makes to a backend: a request that `client.Do` sends, or a
health probe (`http.Get`). -/
inductive BackendCall
  | forward (req : OutgoingRequest)
  | probe (url : String)
deriving DecidableEq, Repr

/-- What the gateway takes from `net/http`, `net/url` and the network.
`NewRequest method url` is the URL of the request that `http.NewRequest` builds, which
it parses from the string `url`, and `none` when `http.NewRequest` returns an error.
`Do req` is what the one call `client.Do(req)` returns: the response that ends the
exchange, or a transport error.  `Sent req` lists the requests that this call sends,
in order: the client of `ProxyRequest` is a default `http.Client`, which follows
redirects, so the request can be followed by the requests of the redirects.
`Get url` is what `http.Get(url)` returns.  `RedirectURL r p` is the string
`url.String()` of the URL of the request `r` with its path replaced by `p`. -/
structure GatewayEnv where
  NewRequest : String → String → Option URL
  Do : OutgoingRequest → Except String HTTPResponse
  Sent : OutgoingRequest → List OutgoingRequest
  Get : String → Except String HTTPResponse
  RedirectURL : Request → String → String

/-- What serving a request at the gateway produces: the response written and the calls
made to backends, in order. -/
structure Served where
  response : HTTPResponse
  calls : List BackendCall
deriving DecidableEq, Repr

/-- A handler of the gateway. -/
abbrev GatewayHandler := Request → Served

/-- Go `ProxyHandler.getTargetURL`. -/
def getTargetURL (config : ServiceConfig) (path : String) : String :=
  if stringsHasPrefix path "/api/auth" then config.AuthServiceURL
  else if stringsHasPrefix path "/api/patients" then config.PatientServiceURL
  else if stringsHasPrefix path "/api/doctors" then config.DoctorServiceURL
  else if stringsHasPrefix path "/api/timeline" then config.TimelineServiceURL
  else if stringsHasPrefix path "/api/prescriptions" then config.PrescriptionServiceURL
  else ""

/-- The loop of `ProxyRequest` that copies the headers of the original request. -/
def copyHeaders (src : Header) : Header :=
  src.entries.foldl (fun acc e => e.2.foldl (fun acc value => acc.Add e.1 value) acc)
    { entries := [] }

/-- Go `ProxyHandler.ProxyRequest`. -/
def ProxyRequest (env : GatewayEnv) (config : ServiceConfig) : GatewayHandler := fun r =>
  -- Determine target service based on URL path
  let targetURL := getTargetURL config r.Path
  if targetURL = "" then
    { response := httpError "\x7b\"success\":false,\"error\":\"Service not found\"\x7d" 404,
      calls := [] } else
  -- Build full target URL
  let fullURL := targetURL ++ r.Path ++ "?" ++ r.RawQuery
  -- Create new request
  match env.NewRequest r.Method fullURL with
  | none =>
    { response :=
        httpError "\x7b\"success\":false,\"error\":\"Internal server error\"\x7d" 500,
      calls := [] }
  | some url =>
  -- Copy headers from original request, add X-Forwarded-For header
  -- (`http.NewRequest` reads an empty method as GET)
  let proxyReq : OutgoingRequest :=
    { Method := if r.Method = "" then "GET" else r.Method, URL := url,
      Header := (copyHeaders r.Header).Set "X-Forwarded-For" r.RemoteAddr, Body := r.Body }
  -- Send request to target service
  match env.Do proxyReq with
  | Except.error _ =>
    { response := httpError "\x7b\"success\":false,\"error\":\"Service unavailable\"\x7d" 503,
      calls := (env.Sent proxyReq).map BackendCall.forward }
  | Except.ok resp =>
    -- Copy response headers, status code and body
    { response := resp, calls := (env.Sent proxyReq).map BackendCall.forward }

/-- Go `formatJSON`, with the pairs in the order of the list (the order in which Go
iterates over the map is unspecified). -/
def formatJSON (m : List (String × String)) : String :=
  "\x7b" ++ ",".intercalate (m.map (fun kv => "\"" ++ kv.1 ++ "\":\"" ++ kv.2 ++ "\"")) ++
    "\x7d"

/-- The probes of `HealthCheck`: the name of each backend and the URL probed. -/
def healthServices (config : ServiceConfig) : List (String × String) :=
  [("auth", config.AuthServiceURL ++ "/api/auth/login"),
   ("patient", config.PatientServiceURL ++ "/api/patients/profile"),
   ("doctor", config.DoctorServiceURL ++ "/api/doctors/profile"),
   ("timeline", config.TimelineServiceURL ++ "/api/timeline/my"),
   ("prescription", config.PrescriptionServiceURL ++ "/api/prescriptions/my")]

/-- The test of `HealthCheck` on one probe: `err != nil || resp.StatusCode >= 500`. -/
def unhealthy (env : GatewayEnv) (url : String) : Bool :=
  match env.Get url with
  | Except.error _ => true
  | Except.ok resp => decide (resp.StatusCode ≥ 500)

/-- Go `ProxyHandler.HealthCheck`. -/
def HealthCheck (env : GatewayEnv) (config : ServiceConfig) : GatewayHandler := fun _ =>
  -- Check all services
  let services := healthServices config
  let status := services.map (fun s =>
    (s.1, if unhealthy env s.2 then "unhealthy" else "healthy"))
  let allHealthy := services.all (fun s => !unhealthy env s.2)
  let statusCode := if allHealthy then 200 else 503
  { response :=
      { StatusCode := statusCode, Header := [("Content-Type", "application/json")],
        Body := ResponseBody.text ("\x7b\"success\":" ++ toString allHealthy ++
          ",\"services\":" ++ formatJSON status ++ "\x7d") },
    calls := services.map (fun s => BackendCall.probe s.2) }

/-- The body of the API Gateway info endpoint of `main.go`. -/
def gatewayInfo : String :=
  "\x7b\n" ++
    "            \"service\": \"Health Bar API Gateway\",\n" ++
    "            \"version\": \"1.0.0\",\n" ++
    "            \"endpoints\": \x7b\n" ++
    "                \"auth\": \"/api/auth/*\",\n" ++
    "                \"patients\": \"/api/patients/*\",\n" ++
    "                \"doctors\": \"/api/doctors/*\",\n" ++
    "                \"timeline\": \"/api/timeline/*\",\n" ++
    "                \"prescriptions\": \"/api/prescriptions/*\"\n" ++
    "            \x7d,\n" ++
    "            \"rate_limit\": \"10 requests per second, burst 20\"\n" ++
    "        \x7d"

/-- The handler `main.go` registers for `/`. -/
def infoHandler : GatewayHandler := fun _ =>
  { response := { StatusCode := 200, Header := [("Content-Type", "application/json")],
                  Body := ResponseBody.text gatewayInfo },
    calls := [] }

/-- The segments of a path between its slashes. -/
def splitSlash : List Char → List (List Char)
  | [] => [[]]
  | c :: cs =>
    match splitSlash cs with
    | [] => [[]]
    | seg :: rest => if c = '/' then [] :: seg :: rest else (c :: seg) :: rest

/-- The loop of Go `path.Clean` on the segments of a rooted path: empty and `.` segments
are dropped, a `..` segment drops the segment before it. -/
def cleanSegments : List (List Char) → List (List Char) → List (List Char)
  | acc, [] => acc.reverse
  | acc, seg :: rest =>
    if seg = [] ∨ seg = ['.'] then cleanSegments acc rest
    else if seg = ['.', '.'] then cleanSegments (acc.drop 1) rest
    else cleanSegments (seg :: acc) rest

/-- Go `path.Clean` on a rooted path. -/
def pathClean (p : String) : String :=
  ⟨'/' :: List.intercalate ['/'] (cleanSegments [] (splitSlash p.data))⟩

/-- The function `cleanPath` of `gorilla/mux`: the canonical form of a request path. -/
def cleanPath (p : String) : String :=
  if p = "" then "/" else
  let p1 := if p.data.head? ≠ some '/' then "/" ++ p else p
  let np := pathClean p1
  if p1.data.getLast? = some '/' ∧ np ≠ "/" then np ++ "/" else np

/-- The `mux.Router` of `services/gateway/main.go`: a path that is not canonical is
redirected to the URL of the request with the canonical path in place of the path (the
query string is kept); `/health` and `/` are served for GET; every path under `/api/`
goes to `ProxyRequest`; anything else is answered 405 when only the method failed to
match and 404 otherwise. -/
def router (env : GatewayEnv) (config : ServiceConfig) : GatewayHandler := fun r =>
  if cleanPath r.Path ≠ r.Path then
    { response := { StatusCode := 301,
                    Header := [("Location", env.RedirectURL r (cleanPath r.Path))],
                    Body := ResponseBody.text "" },
      calls := [] }
  -- Health check endpoint (no rate limit)
  else if r.Path = "/health" ∧ r.Method = "GET" then HealthCheck env config r
  -- API Gateway info
  else if r.Path = "/" ∧ r.Method = "GET" then infoHandler r
  -- All API routes go through proxy with rate limiting
  else if stringsHasPrefix r.Path "/api/" then ProxyRequest env config r
  else if r.Path = "/health" ∨ r.Path = "/" then
    { response := { StatusCode := 405, Header := [], Body := ResponseBody.text "" },
      calls := [] }
  else { response := httpError "404 page not found" 404, calls := [] }

/-- Go `LoggingMiddleware`: the request is passed on and the response is the one of the
wrapped handler; the log line is not part of the model. -/
def LoggingMiddleware (next : GatewayHandler) : GatewayHandler := fun r =>
  next r

/-- Go `RateLimitMiddleware(limiter)(next)` serving a request at time `now`: the
response and backend calls, and the limiter after the request. -/
def RateLimitMiddleware (next : GatewayHandler) (r : Request) (now : ℚ)
    (limiter : IPRateLimiter) : Served × IPRateLimiter :=
  -- Get client IP
  let ip := getClientIP r
  -- Get rate limiter for this IP
  let (rateLimiter, limiter1) := limiter.GetLimiter ip
  -- Check if request is allowed
  let (allowed, limiter2) := limiter1.Allow rateLimiter now
  if !allowed then
    ({ response := httpError
        "\x7b\"success\":false,\"error\":\"Rate limit exceeded. Too many requests.\"\x7d" 429,
       calls := [] }, limiter2)
  else (next r, limiter2)

/-- The handler chain of `services/gateway/main.go` behind the CORS wrapper:
`RateLimitMiddleware(rateLimiter)(LoggingMiddleware(router))`. -/
def handler (env : GatewayEnv) (config : ServiceConfig) (r : Request) (now : ℚ)
    (limiter : IPRateLimiter) : Served × IPRateLimiter :=
  RateLimitMiddleware (LoggingMiddleware (router env config)) r now limiter

/-- What the gateway takes from `github.com/rs/cors` with the options of `main.go`.
`preflight r` is the response that the library writes itself to a request that it
treats as a CORS preflight (an `OPTIONS` request with an
`Access-Control-Request-Method` header), and `none` for every other request.
`actualHeaders r` are the headers that the library sets on the response to a request
that is not a preflight. -/
structure Cors where
  preflight : Request → Option HTTPResponse
  actualHeaders : Request → List (String × String)

/-- The response with the headers `headers` set before the handler wrote it. -/
def Served.addHeaders (headers : List (String × String)) (s : Served) : Served :=
  { s with response := { s.response with Header := headers ++ s.response.Header } }

/-- The handler `c.Handler(h)` of `github.com/rs/cors` with `OptionsPassthrough` off,
as in `main.go`: a preflight request is answered by the library and the wrapped handler
is not called; for every other request the library sets its headers and calls the
wrapped handler. -/
def Cors.Handler (c : Cors) (h : Request → ℚ → IPRateLimiter → Served × IPRateLimiter)
    (r : Request) (now : ℚ) (limiter : IPRateLimiter) : Served × IPRateLimiter :=
  match c.preflight r with
  | some resp => ({ response := resp, calls := [] }, limiter)
  | none => (Served.addHeaders (c.actualHeaders r) (h r now limiter).1, (h r now limiter).2)

/-- What the server of `main.go` does with a request:
`http.ListenAndServe(":"+port, c.Handler(handler))`. -/
def ListenAndServe (c : Cors) (env : GatewayEnv) (config : ServiceConfig) (r : Request)
    (now : ℚ) (limiter : IPRateLimiter) : Served × IPRateLimiter :=
  c.Handler (handler env config) r now limiter

end Gateway

/-! ## Vocabulary and sample states of the gateway -/

namespace Gateway

/-- The header is present in the request: its key has at least one value. -/
def present (r : Request) (key : String) : Prop :=
  r.Header.Values key ≠ []

instance (r : Request) (key : String) : Decidable (present r key) := by
  unfold present; infer_instance

/-- The first value of the header (the empty string when it has none). -/
def firstValue (r : Request) (key : String) : String :=
  (r.Header.Values key).headD ""

/-- The routing table of the specification read as a reference definition: the backend
of the first row whose pattern `/api/<service>/*` the path matches, and no backend (the
empty string) when it matches none. -/
def routingTable (config : ServiceConfig) (path : String) : String :=
  if stringsHasPrefix path "/api/auth/" then config.AuthServiceURL
  else if stringsHasPrefix path "/api/patients/" then config.PatientServiceURL
  else if stringsHasPrefix path "/api/doctors/" then config.DoctorServiceURL
  else if stringsHasPrefix path "/api/timeline/" then config.TimelineServiceURL
  else if stringsHasPrefix path "/api/prescriptions/" then config.PrescriptionServiceURL
  else ""

/-- The service configuration with the defaults of `main.go`. -/
def defaultConfig : ServiceConfig :=
  { AuthServiceURL := "http://healthbar-auth-service:8001",
    PatientServiceURL := "http://healthbar-patient-service:8002",
    DoctorServiceURL := "http://healthbar-doctor-service:8003",
    TimelineServiceURL := "http://healthbar-timeline-service:8004",
    PrescriptionServiceURL := "http://healthbar-prescription-service:8005" }

/-- Go `strings.Cut` at a single character: the part before its first occurrence, and
the part after it when it occurs. -/
def cutChar (sep : Char) : List Char → List Char × Option (List Char)
  | [] => ([], none)
  | c :: cs =>
    if c = sep then ([], some cs)
    else (c :: (cutChar sep cs).1, (cutChar sep cs).2)

/-- The value of a hexadecimal digit (`ishex` and `unhex` of `net/url`). -/
def unhex (c : Char) : Option Nat :=
  if 48 ≤ c.toNat ∧ c.toNat ≤ 57 then some (c.toNat - 48)
  else if 97 ≤ c.toNat ∧ c.toNat ≤ 102 then some (c.toNat - 87)
  else if 65 ≤ c.toNat ∧ c.toNat ≤ 70 then some (c.toNat - 55)
  else none

/-- The bytes of a character in a Go string (UTF-8). -/
def utf8Bytes (c : Char) : List Nat :=
  if c.toNat < 128 then [c.toNat]
  else if c.toNat < 2048 then [192 + c.toNat / 64, 128 + c.toNat % 64]
  else if c.toNat < 65536 then
    [224 + c.toNat / 4096, 128 + c.toNat / 64 % 64, 128 + c.toNat % 64]
  else [240 + c.toNat / 262144, 128 + c.toNat / 4096 % 64, 128 + c.toNat / 64 % 64,
    128 + c.toNat % 64]

/-- The character that the bytes of a Go string begin with and the number of its bytes;
a byte that begins no UTF-8 encoding is read as U+FFFD, as by `utf8.DecodeRune`. -/
def decodeRune (bytes : List Nat) : Char × Nat :=
  let cont := fun (b : Nat) => decide (128 ≤ b ∧ b < 192)
  match bytes with
  | [] => (Char.ofNat 65533, 1)
  | b :: rest =>
    if b < 128 then (Char.ofNat b, 1)
    else if 194 ≤ b ∧ b < 224 ∧ (rest.take 1).length = 1 ∧ (rest.take 1).all cont then
      (Char.ofNat ((b - 192) * 64 + (rest.getD 0 0 - 128)), 2)
    else if 224 ≤ b ∧ b < 240 ∧ (rest.take 2).length = 2 ∧ (rest.take 2).all cont ∧
        2048 ≤ (b - 224) * 4096 + (rest.getD 0 0 - 128) * 64 + (rest.getD 1 0 - 128) ∧
        ¬ (55296 ≤ (b - 224) * 4096 + (rest.getD 0 0 - 128) * 64 + (rest.getD 1 0 - 128) ∧
          (b - 224) * 4096 + (rest.getD 0 0 - 128) * 64 + (rest.getD 1 0 - 128) < 57344) then
      (Char.ofNat ((b - 224) * 4096 + (rest.getD 0 0 - 128) * 64 + (rest.getD 1 0 - 128)), 3)
    else if 240 ≤ b ∧ b < 245 ∧ (rest.take 3).length = 3 ∧ (rest.take 3).all cont ∧
        65536 ≤ (b - 240) * 262144 + (rest.getD 0 0 - 128) * 4096 +
          (rest.getD 1 0 - 128) * 64 + (rest.getD 2 0 - 128) ∧
        (b - 240) * 262144 + (rest.getD 0 0 - 128) * 4096 +
          (rest.getD 1 0 - 128) * 64 + (rest.getD 2 0 - 128) < 1114112 then
      (Char.ofNat ((b - 240) * 262144 + (rest.getD 0 0 - 128) * 4096 +
        (rest.getD 1 0 - 128) * 64 + (rest.getD 2 0 - 128)), 4)
    else (Char.ofNat 65533, 1)

/-- The characters of a Go string with the given bytes (`fuel` bounds their number). -/
def runes : Nat → List Nat → List Char
  | 0, _ => []
  | fuel + 1, bytes =>
    if bytes = [] then []
    else (decodeRune bytes).1 :: runes fuel (bytes.drop (decodeRune bytes).2)

/-- The loop of `unescape` of `net/url` on a path or a fragment: the bytes of the string
with every `%XX` replaced by the byte `XX`; `none` is the `EscapeError` for a `%` that is
not followed by two hexadecimal digits. -/
def unescapeBytes : Nat → List Char → Option (List Nat)
  | 0, _ => some []
  | fuel + 1, s =>
    match s with
    | [] => some []
    | c :: rest =>
      if c = '%' then
        match unhex (rest.getD 0 '%'), unhex (rest.getD 1 '%'),
            unescapeBytes fuel (rest.drop 2) with
        | some x, some y, some bytes => some ((16 * x + y) :: bytes)
        | _, _, _ => none
      else (unescapeBytes fuel rest).map (fun bytes => utf8Bytes c ++ bytes)

/-- Go `unescape` of `net/url` on a path or a fragment. -/
def unescape (s : List Char) : Option (List Char) :=
  (unescapeBytes s.length s).map (fun bytes => runes bytes.length bytes)

/-- Go `getScheme` of `net/url`: the scheme and what follows its colon; `none` is the
error `missing protocol scheme`. -/
def getScheme (rawURL : List Char) : Option (List Char × List Char) :=
  match rawURL with
  | [] => some ([], [])
  | c :: _ =>
    if c = ':' then none
    else if !c.isAlpha then some ([], rawURL)
    else
      let scheme := rawURL.takeWhile
        (fun c => c.isAlpha || c.isDigit || c = '+' || c = '-' || c = '.')
      match rawURL.drop scheme.length with
      | d :: rest => if d = ':' then some (scheme, rest) else some ([], rawURL)
      | [] => some ([], rawURL)

/-- Go `url.Parse`, modelled from `net/url`: the fragment is what follows the first `#`;
a control character before the fragment is an error; the query is what follows the
first `?`; the path is what is left after the scheme and the authority, unescaped.  The
authority is taken as the host as it stands: the user information and the checks of
`net/url` on the host and the port are left out (in `ProxyRequest` the authority is the
one of the configured base URL). -/
def urlParse (rawURL : String) : Option URL :=
  -- Cut off #frag
  let u := (cutChar '#' rawURL.data).1
  let frag := ((cutChar '#' rawURL.data).2).getD []
  if u.any (fun c => decide (c.toNat < 32 ∨ c.toNat = 127)) then none else
  -- Split off possible leading "http:", "mailto:", etc.
  match getScheme u with
  | none => none
  | some (scheme1, rest0) =>
    let scheme := scheme1.map Char.toLower
    let forceQuery := decide (rest0.getLast? = some '?' ∧ rest0.count '?' = 1)
    let rest1 := if forceQuery then rest0.dropLast else (cutChar '?' rest0).1
    let rawQuery := if forceQuery then [] else ((cutChar '?' rest0).2).getD []
    if rest1.head? ≠ some '/' ∧ scheme ≠ [] then
      -- We consider rootless paths per RFC 3986 as opaque.
      (unescape frag).map (fun fragment =>
        { Scheme := ⟨scheme⟩, Opaque := ⟨rest1⟩, Host := "", Path := "",
          ForceQuery := forceQuery, RawQuery := ⟨rawQuery⟩, Fragment := ⟨fragment⟩ })
    else if rest1.head? ≠ some '/' ∧ (cutChar '/' rest1).1.contains ':' then
      -- First path segment has colon. Not allowed in relative URL.
      none
    else
      let hasAuthority := decide ((scheme ≠ [] ∨ ¬ "///".data.isPrefixOf rest1) ∧
        "//".data.isPrefixOf rest1)
      let authority := if hasAuthority then (cutChar '/' (rest1.drop 2)).1 else []
      let rest2 :=
        if hasAuthority then
          match (cutChar '/' (rest1.drop 2)).2 with
          | some p => '/' :: p
          | none => []
        else rest1
      match unescape rest2, unescape frag with
      | some path, some fragment =>
        some { Scheme := ⟨scheme⟩, Opaque := "", Host := ⟨authority⟩, Path := ⟨path⟩,
               ForceQuery := forceQuery, RawQuery := ⟨rawQuery⟩, Fragment := ⟨fragment⟩ }
      | _, _ => none

/-- Go `http.NewRequest(method, url, body)`, modelled from `net/http`: the URL of the
request built.  The method is a token or empty, the URL is parsed with `url.Parse`, and
an empty port is removed from the host. -/
def httpNewRequest (method url : String) : Option URL :=
  if method ≠ "" ∧ ¬ method.data.all validHeaderFieldByte then none
  else (urlParse url).map (fun u =>
    { u with Host := if u.Host.data.getLast? = some ':' then ⟨u.Host.data.dropLast⟩
                     else u.Host })

/-- Go `shouldEscape` of `net/url` on a byte of a path. -/
def shouldEscapePath (b : Nat) : Bool :=
  !(decide (48 ≤ b ∧ b ≤ 57) || decide (65 ≤ b ∧ b ≤ 90) || decide (97 ≤ b ∧ b ≤ 122) ||
    [45, 95, 46, 126].contains b || [36, 38, 43, 44, 47, 58, 59, 61, 64].contains b)

/-- Go `escape` of `net/url` on a path: every byte that `shouldEscape` names is written
as `%XX`. -/
def escapePath (p : String) : String :=
  ⟨p.data.flatMap (fun c => (utf8Bytes c).flatMap (fun b =>
    if shouldEscapePath b then
      ['%', "0123456789ABCDEF".data.getD (b / 16) '0',
        "0123456789ABCDEF".data.getD (b % 16) '0']
    else [Char.ofNat b]))⟩

/-- The string `url.String()` that `gorilla/mux` writes to `Location` for the URL of the
request with the path `p`, for a request target in origin form (a path and a query, no
scheme and no host): the escaped path, followed by `?` and the raw query when the
request has one. -/
def redirectURL (r : Request) (p : String) : String :=
  escapePath p ++ (if r.RawQuery ≠ "" then "?" ++ r.RawQuery else "")

/-- Backends that answer every forwarded request and every probe with an empty 200,
without a redirect. -/
def sampleBackends : GatewayEnv :=
  { NewRequest := httpNewRequest,
    Do := fun _ => Except.ok { StatusCode := 200, Header := [], Body := ResponseBody.text "" },
    Sent := fun req => [req],
    Get := fun _ => Except.ok { StatusCode := 200, Header := [], Body := ResponseBody.text "" },
    RedirectURL := redirectURL }

/-- A request that sends an empty `X-Forwarded-For` header and an `X-Real-IP`. -/
def emptyForwardedRequest : Request :=
  { emptyRequest with
    Header := { entries := [("X-Forwarded-For", [""]), ("X-Real-Ip", ["203.0.113.9"])] } }

end Gateway

namespace Gateway

/-- The limiter admits the request at time `now`: `Allow()` on the bucket that
`GetLimiter` returns for the client key of the request succeeds. -/
def admits (limiter : IPRateLimiter) (r : Request) (now : ℚ) : Bool :=
  ((limiter.GetLimiter (getClientIP r)).2.Allow
    (limiter.GetLimiter (getClientIP r)).1 now).1

/-- The limiter after the request was looked up and `Allow()` was called. -/
def afterRequest (limiter : IPRateLimiter) (r : Request) (now : ℚ) : IPRateLimiter :=
  ((limiter.GetLimiter (getClientIP r)).2.Allow
    (limiter.GetLimiter (getClientIP r)).1 now).2

/-- The 429 answer of `RateLimitMiddleware`. -/
def tooManyRequests : Served :=
  { response := httpError
      "\x7b\"success\":false,\"error\":\"Rate limit exceeded. Too many requests.\"\x7d" 429,
    calls := [] }

end Gateway

namespace Gateway

/-- Every pointer stored in the map points into the heap of limiters. -/
def IPRateLimiter.ValidPointers (i : IPRateLimiter) : Prop :=
  ∀ e ∈ i.ips, e.2 < i.limiters.length

instance (i : IPRateLimiter) : Decidable i.ValidPointers := by
  unfold IPRateLimiter.ValidPointers; infer_instance

/-- A wrapped handler that contacts a backend, used to observe whether it is invoked. -/
def probingHandler : GatewayHandler := fun _ =>
  { response := { StatusCode := 200, Header := [], Body := ResponseBody.text "ok" },
    calls := [BackendCall.probe "http://backend"] }

end Gateway

namespace Gateway

/-- The state of the buckets in the map when the last request was served no later than
`T`: each pointer of the map points to a limiter with the rate and burst of the
`IPRateLimiter`, a token count that is not negative, and a last update no later than
`T`. -/
def IPRateLimiter.Inv (i : IPRateLimiter) (T : ℚ) : Prop :=
  ∀ e ∈ i.ips, ∃ lim, i.limiters[e.2]? = some lim ∧ lim.limit = i.r ∧ lim.burst = i.b ∧
    0 ≤ lim.tokens ∧ lim.last ≤ T

/-- A request with the given `X-Forwarded-For` value. -/
def requestFrom (ip : String) : Request :=
  { emptyRequest with
    Path := "/api/auth/login", Header := { entries := [("X-Forwarded-For", [ip])] } }

end Gateway

namespace Gateway

/-- One step of the goroutines that share an `IPRateLimiter`.  A request served by
`RateLimitMiddleware` takes two steps: the call `limiter.GetLimiter(ip)`, which holds the
mutex of the map until it returns, and the call `rateLimiter.Allow()` on the pointer it
received.  The goroutine of `StartCleanup` takes the step `CleanupOldEntries`, which
holds the mutex of the map as well.  Times are seconds. -/
inductive Event where
  | getLimiter (request : Nat) (ip : String)
  | allow (request : Nat) (now : ℚ)
  | cleanup (now : ℚ)
  deriving DecidableEq

/-- The shared limiter, the pointer that each request in flight received from
`GetLimiter` (with its client key), and the log of the admitted requests (client key and
time of the `Allow()` call). -/
structure Run where
  limiter : IPRateLimiter
  held : List (Nat × String × Nat)
  admitted : List (String × ℚ)

/-- The effect of one step.  An `allow` step of a request that holds no pointer does
nothing; after its `allow` step a request is finished. -/
def Run.step (run : Run) : Event → Run
  | Event.getLimiter request ip =>
    { run with
      limiter := (run.limiter.GetLimiter ip).2,
      held := (request, ip, (run.limiter.GetLimiter ip).1) :: run.held }
  | Event.allow request now =>
    match run.held.lookup request with
    | none => run
    | some (ip, limiter) =>
      { limiter := (run.limiter.Allow limiter now).2,
        held := run.held.filter (fun h => decide (h.1 ≠ request)),
        admitted :=
          if (run.limiter.Allow limiter now).1 then (ip, now) :: run.admitted
          else run.admitted }
  | Event.cleanup now => { run with limiter := run.limiter.CleanupOldEntries now }

/-- The run of `main.go` at its start: `NewIPRateLimiter(r, b)`, no request in flight. -/
def start (r : ℚ) (b : Nat) : Run :=
  { limiter := NewIPRateLimiter r b, held := [], admitted := [] }

/-- The steps of a schedule, taken in order. -/
def exec (run : Run) (events : List Event) : Run := events.foldl Run.step run

/-- The number of requests of the client key admitted at a time in `[s, s + t]`. -/
def Run.admittedWithin (run : Run) (key : String) (s t : ℚ) : Nat :=
  (run.admitted.filter
    (fun a => decide (a.1 = key) && decide (s ≤ a.2) && decide (a.2 ≤ s + t))).length

/-- No `Allow()` call of the step happens later than `T`. -/
def Event.noAllowAfter (T : ℚ) : Event → Prop
  | Event.allow _ now => now ≤ T
  | _ => True

instance (T : ℚ) (ev : Event) : Decidable (ev.noAllowAfter T) := by
  cases ev <;> unfold Event.noAllowAfter <;> infer_instance

/-- A schedule on which the sweep runs between the two steps of request 1: request 1
receives the pointer of the bucket of `"k"`, the sweep finds that bucket full and deletes
it from the map, request 1 calls `Allow()` on the bucket it holds, and request 2 finds no
bucket for `"k"`. -/
def racingSchedule : List Event :=
  [Event.getLimiter 1 "k", Event.cleanup (10 + 1 / 100), Event.allow 1 (10 + 2 / 100),
   Event.getLimiter 2 "k", Event.allow 2 (10 + 3 / 100)]

/-- The same race with the parameters of `main.go` (rate 10, burst 20): twenty requests
in flight hold the pointer of the bucket when the sweep deletes it; twenty more requests
follow.  All `Allow()` calls happen at second 10. -/
def racingBurst : List Event :=
  (List.range 20).map (fun n => Event.getLimiter n "k") ++ [Event.cleanup 10] ++
  (List.range 20).map (fun n => Event.allow n 10) ++
  (List.range 20).flatMap
    (fun n => [Event.getLimiter (20 + n) "k", Event.allow (20 + n) 10])

/-- A schedule of three requests from two clients and a sweep in the first second. -/
def quietSchedule : List Event :=
  [Event.getLimiter 1 "k", Event.allow 1 (1 / 2), Event.cleanup (3 / 4),
   Event.getLimiter 2 "j", Event.allow 2 1, Event.getLimiter 3 "k", Event.allow 3 1]

end Gateway

namespace Gateway

/-- One event of a schedule on which every request performs its two steps, the lookup
and the `Allow()` call, with no step of the sweep or of another request in between. -/
inductive Arrival where
  | request (request : Nat) (ip : String) (now : ℚ)
  | sweep (now : ℚ)

/-- The time of an event. -/
def Arrival.time : Arrival → ℚ
  | Arrival.request _ _ now => now
  | Arrival.sweep now => now

/-- The steps of an event. -/
def Arrival.events : Arrival → List Event
  | Arrival.request n ip now => [Event.getLimiter n ip, Event.allow n now]
  | Arrival.sweep now => [Event.cleanup now]

/-- The steps of a schedule of events. -/
def atomic (arrivals : List Arrival) : List Event := arrivals.flatMap Arrival.events

/-- The bucket that decides the next request of the key: the one the map points to, or
a new one when the map has none. -/
def IPRateLimiter.bucket (i : IPRateLimiter) (key : String) : Limiter :=
  match i.ips.lookup key with
  | none => NewLimiter i.r i.b
  | some limiter => (i.limiters[limiter]?).getD (NewLimiter i.r i.b)

/-- The shape of the states that the steps produce: the pointers of the map point into
the heap, two keys never share a pointer, and every limiter of the heap has the rate and
the burst of the `IPRateLimiter` and a token count that is not negative. -/
def IPRateLimiter.WellFormed (i : IPRateLimiter) : Prop :=
  (∀ e ∈ i.ips, e.2 < i.limiters.length) ∧
  (∀ e ∈ i.ips, ∀ f ∈ i.ips, e.2 = f.2 → e.1 = f.1) ∧
  (∀ lim ∈ i.limiters, lim.limit = i.r ∧ lim.burst = i.b ∧ 0 ≤ lim.tokens)

/-- The number of requests of the key in the log admitted at time `s` or later. -/
def admittedSince (log : List (String × ℚ)) (key : String) (s : ℚ) : Nat :=
  (log.filter (fun a => decide (a.1 = key) && decide (s ≤ a.2))).length

end Gateway

namespace Gateway

/-- The state of a run at time `now`, seen from one key: the limiter has the shape of
the reachable states, no request of the log was admitted later than `now`, the requests
of the key admitted since any time `s` and the tokens that its bucket holds at `now`
add up to no more than the burst and the refill since `s`, and the requests of the key
admitted in any interval of length `t` are no more than the burst and the refill of the
interval. -/
def Run.Within (run : Run) (key : String) (now : ℚ) : Prop :=
  run.limiter.WellFormed ∧
  (∀ a ∈ run.admitted, a.2 ≤ now) ∧
  (∀ s, s ≤ now →
    (admittedSince run.admitted key s : ℚ) + (run.limiter.bucket key).advance now ≤
      run.limiter.b + run.limiter.r * (now - s)) ∧
  (∀ s t, 0 ≤ t → (run.admittedWithin key s t : ℚ) ≤ run.limiter.b + run.limiter.r * t)

end Gateway

namespace Gateway

/-- A `GET /health` request. -/
def healthRequest : Request :=
  { emptyRequest with Method := "GET", Path := "/health" }

/-- The limiter after the handler chain of `main.go` served the requests, in order, all
at time `now`. -/
def afterRequests (env : GatewayEnv) (config : ServiceConfig) (limiter : IPRateLimiter)
    (requests : List Request) (now : ℚ) : IPRateLimiter :=
  requests.foldl (fun l r => (handler env config r now l).2) limiter

/-- The keys of the bucket map are distinct, as the keys of a Go map are. -/
def IPRateLimiter.DistinctKeys (i : IPRateLimiter) : Prop :=
  (i.ips.map Prod.fst).Nodup

instance (i : IPRateLimiter) : Decidable i.DistinctKeys := by
  unfold IPRateLimiter.DistinctKeys; infer_instance

/-- A bucket map with a full bucket for `"a"` and a bucket for `"b"` that was used at
second 1. -/
def twoBuckets : IPRateLimiter :=
  { limiters := [NewLimiter 10 20, { limit := 10, burst := 20, tokens := 3, last := 1 }],
    ips := [("a", 0), ("b", 1)], r := 10, b := 20 }

end Gateway

namespace Gateway

/-- The names under which `HealthCheck` reports the backends. -/
def healthNames : List String := ["auth", "patient", "doctor", "timeline", "prescription"]

/-- The map `status` of `HealthCheck` after the probes of the given services. -/
def healthStatus (env : GatewayEnv) (services : List (String × String)) :
    List (String × String) :=
  services.map (fun s => (s.1, if unhealthy env s.2 then "unhealthy" else "healthy"))

/-- Go `ProxyHandler.HealthCheck` with the orders in which Go ranges over its two maps
made explicit: `visited` is the order in which the loop of `HealthCheck` ranges over
`services`, and `pairs` is the order in which `formatJSON` ranges over `status`. -/
def HealthCheckIn (env : GatewayEnv) (visited pairs : List (String × String)) : Served :=
  let allHealthy := visited.all (fun s => !unhealthy env s.2)
  let statusCode := if allHealthy then 200 else 503
  { response :=
      { StatusCode := statusCode, Header := [("Content-Type", "application/json")],
        Body := ResponseBody.text ("\x7b\"success\":" ++ toString allHealthy ++
          ",\"services\":" ++ formatJSON pairs ++ "\x7d") },
    calls := visited.map (fun s => BackendCall.probe s.2) }

/-- Backends of which the doctor service answers 500 and the timeline service cannot be
reached; the others answer 401. -/
def failingBackends : GatewayEnv :=
  { NewRequest := httpNewRequest,
    Do := fun _ => Except.ok { StatusCode := 200, Header := [], Body := ResponseBody.text "" },
    Sent := fun req => [req],
    RedirectURL := redirectURL,
    Get := fun url =>
      if url = "http://healthbar-doctor-service:8003/api/doctors/profile" then
        Except.ok { StatusCode := 500, Header := [], Body := ResponseBody.text "" }
      else if url = "http://healthbar-timeline-service:8004/api/timeline/my" then
        Except.error "connection refused"
      else Except.ok { StatusCode := 401, Header := [], Body := ResponseBody.text "" } }

end Gateway

/-- The shape of the header map of a request read by the `net/http` server: the keys are
distinct, as the keys of a Go map are, and in canonical form. -/
def Header.WellFormed (h : Header) : Prop :=
  (h.entries.map Prod.fst).Nodup ∧ ∀ e ∈ h.entries, CanonicalMIMEHeaderKey e.1 = e.1

instance (h : Header) : Decidable h.WellFormed := by
  unfold Header.WellFormed; infer_instance

namespace Gateway

/-- Backends that cannot be reached: the one request of `client.Do` fails. -/
def downBackends : GatewayEnv :=
  { NewRequest := httpNewRequest,
    Do := fun _ => Except.error "connection refused",
    Sent := fun req => [req],
    Get := fun _ => Except.error "connection refused",
    RedirectURL := redirectURL }

/-- Backends of which the auth service answers the request `GET /api/auth/old?` with a
302 redirect to `/api/auth/new` and every other request with an empty 200: `client.Do`
follows the redirect with a second request, which carries the headers of the first and
a `Referer` (the URL of the first request, unless the first request has a `Referer`),
and returns the 200 that answers it. -/
def redirectingBackends : GatewayEnv :=
  { NewRequest := httpNewRequest,
    Do := fun _ => Except.ok { StatusCode := 200, Header := [], Body := ResponseBody.text "" },
    Sent := fun req =>
      if req.Method = "GET" ∧
          req.URL = { Scheme := "http", Opaque := "", Host := "healthbar-auth-service:8001",
                      Path := "/api/auth/old", ForceQuery := true, RawQuery := "",
                      Fragment := "" } then
        [req,
         { Method := "GET",
           URL := { req.URL with Path := "/api/auth/new", ForceQuery := false },
           Header := req.Header.Set "Referer"
             (if req.Header.Get "Referer" ≠ "" then req.Header.Get "Referer"
              else "http://healthbar-auth-service:8001/api/auth/old?"),
           Body := RequestBody.raw "" }]
      else [req],
    Get := fun _ => Except.ok { StatusCode := 200, Header := [], Body := ResponseBody.text "" },
    RedirectURL := redirectURL }

/-- The CORS wrapper of `main.go`: an `OPTIONS` request with an
`Access-Control-Request-Method` header is a preflight, answered by the library with an
empty 204; the CORS headers of its answers, which depend on the `Origin` of the request,
are left out but for `Vary`. -/
def sampleCors : Cors :=
  { preflight := fun r =>
      if r.Method = "OPTIONS" ∧ r.Header.Get "Access-Control-Request-Method" ≠ "" then
        some { StatusCode := 204, Header := [], Body := ResponseBody.text "" }
      else none,
    actualHeaders := fun _ => [("Vary", "Origin")] }

/-- The preflight request a browser sends from `http://localhost:3000` before a login. -/
def preflightRequest : Request :=
  { emptyRequest with
    Method := "OPTIONS", Path := "/api/auth/login",
    Header := { entries := [("Origin", ["http://localhost:3000"]),
      ("Access-Control-Request-Method", ["POST"]),
      ("Access-Control-Request-Headers", ["content-type"])] } }

/-- The request `GET /api/auth/a%23b?x=1`: its decoded path has a `#`. -/
def fragmentRequest : Request :=
  { emptyRequest with Path := "/api/auth/a#b", RawQuery := "x=1", Query := [("x", ["1"])] }

/-- The request `GET /api/auth/old`. -/
def movedRequest : Request :=
  { emptyRequest with Path := "/api/auth/old" }

/-- A login request that supplies an `X-Forwarded-For` header of its own and an `Accept`
header with two values. -/
def loginRequest : Request :=
  { Method := "POST", Path := "/api/auth/login", RawQuery := "next=home", Query := [("next", ["home"])],
    Header := { entries := [("Accept", ["text/html", "application/json"]),
      ("X-Forwarded-For", ["1.2.3.4", "5.6.7.8"]), ("Content-Type", ["application/json"])] },
    RemoteAddr := "10.0.0.1:4000",
    Body := RequestBody.json [("email", "alice@x"), ("password", "secret")] }

/-- A request whose decoded path ends in a line feed, as `GET /api/auth/%0A` gives. -/
def lineFeedRequest : Request :=
  { emptyRequest with Path := "/api/auth/\n" }

end Gateway

/-- A request of patient alice, as the middleware hands it to `UploadPrescription`, with
one file part `file` of the given name and content. -/
def uploadRequest (filename : String) (content : List Nat) : Request :=
  { emptyRequest with
    Method := "POST", Path := "/api/prescriptions/upload"
    Header := { entries := [("X-User-Id", ["u-alice"]), ("X-User-Role", ["patient"])] }
    Body := RequestBody.multipart [("file", { Filename := filename, Content := content })] }

/-- A file content of 12 MiB. -/
def twelveMiB : List Nat := List.replicate (12 * 2 ^ 20) 0

/-! ## The profile operations of the patient and doctor services -/

/-- Go `error.Error()` of a database error. -/
def DBError.Error : DBError → String
  | DBError.ErrNoRows => "sql: no rows in result set"
  | DBError.other msg => msg

/-- Go `strings.Contains`. -/
def stringsContains (s substr : String) : Bool :=
  s.data.tails.any (fun t => substr.data.isPrefixOf t)

/-- Modelled from the spec: the error with which the database rejects an insertion that
violates a uniqueness constraint (user email, owning user of a profile); the migration
files that declare the constraints are not among the sources. -/
def uniqueViolation (constraintName : String) : DBError :=
  DBError.other
    ("pq: duplicate key value violates unique constraint \"" ++ constraintName ++ "\"")

namespace PatientRepository

/-- Go `PatientRepository.CreateProfile`: the row is inserted with a new id and the table
defaults for `created_at` and `updated_at`, and is returned; a second profile of the same
user is rejected by the database. -/
def CreateProfile (env : Env) (db : DB) (userID : String) (profile : PatientProfile) :
    DB × PatientProfile × Option DBError :=
  let profile1 : PatientProfile := { profile with ID := env.newUUID, UserID := userID }
  if db.patient_profiles.any (fun p => decide (p.UserID = userID)) then
    (db, profile1, some (uniqueViolation "patient_profiles_user_id_key"))
  else
    let row : PatientProfile := { profile1 with CreatedAt := env.now, UpdatedAt := env.now }
    ({ db with patient_profiles := db.patient_profiles ++ [row] }, row, none)

/-- Go `PatientRepository.UpdateProfile`: `UPDATE ... WHERE user_id = $6 RETURNING ...`
scanned into the profile; `sql.ErrNoRows` when the user has no profile. -/
def UpdateProfile (env : Env) (db : DB) (userID : String) (profile : PatientProfile) :
    DB × PatientProfile × Option DBError :=
  let updated := fun (p : PatientProfile) =>
    { p with
      FullName := profile.FullName, DateOfBirth := profile.DateOfBirth,
      Gender := profile.Gender, Phone := profile.Phone, Address := profile.Address,
      UpdatedAt := env.now }
  match db.patient_profiles.find? (fun p => decide (p.UserID = userID)) with
  | none => (db, profile, some DBError.ErrNoRows)
  | some p =>
    ({ db with patient_profiles := db.patient_profiles.map (fun q =>
        if q.UserID = userID then updated q else q) }, updated p, none)

end PatientRepository

namespace PatientHandler

open utils

/-- Go `PatientHandler.CreateProfile`. -/
def CreateProfile (env : Env) : HandlerFunc := fun r w =>
  let userID := r.Header.Get "X-User-ID"
  let userRole := r.Header.Get "X-User-Role"
  if userID = "" then (SendError 401 "Unauthorized", w) else
  if userRole ≠ "patient" then
    (SendError 403 "Only patients can create patient profiles", w) else
  match jsonDecode r.Body with
  | none => (SendError 400 "Invalid request body", w)
  | some req =>
    -- Validate
    if jsonField req "full_name" = "" ∨ jsonField req "date_of_birth" = "" then
      (SendError 400 "Full name and date of birth are required", w) else
    -- Parse date
    match env.timeParse (jsonField req "date_of_birth") with
    | none => (SendError 400 "Invalid date format. Use YYYY-MM-DD", w)
    | some dob =>
      let profile : PatientProfile :=
        { (default : PatientProfile) with
          FullName := jsonField req "full_name", DateOfBirth := dob,
          Gender := jsonField req "gender", Phone := jsonField req "phone",
          Address := jsonField req "address" }
      let (db1, profile1, err) := PatientRepository.CreateProfile env w.db userID profile
      match err with
      | some e =>
        if stringsContains e.Error "duplicate" || stringsContains e.Error "unique" then
          (SendError 409 "Profile already exists", w)
        else (SendError 500 "Failed to create profile", w)
      | none =>
        (SendSuccess 201 "Profile created successfully"
          (some (Payload.patientProfile profile1)), { w with db := db1 })

/-- Go `PatientHandler.GetMyProfile`. -/
def GetMyProfile : HandlerFunc := fun r w =>
  let userID := r.Header.Get "X-User-ID"
  let userRole := r.Header.Get "X-User-Role"
  if userID = "" then (SendError 401 "Unauthorized", w) else
  if userRole ≠ "patient" then (SendError 403 "Only patients can view their profile", w) else
  let (profile, err) := PatientRepository.GetProfileByUserID w.db userID
  if err ≠ none then
    (if err = some DBError.ErrNoRows then (SendError 404 "Profile not found", w)
     else (SendError 500 "Failed to retrieve profile", w)) else
  (SendSuccess 200 "Profile retrieved" (some (Payload.patientProfile profile)), w)

/-- Go `PatientHandler.UpdateProfile`. -/
def UpdateProfile (env : Env) : HandlerFunc := fun r w =>
  let userID := r.Header.Get "X-User-ID"
  let userRole := r.Header.Get "X-User-Role"
  if userID = "" then (SendError 401 "Unauthorized", w) else
  if userRole ≠ "patient" then
    (SendError 403 "Only patients can update their profile", w) else
  match jsonDecode r.Body with
  | none => (SendError 400 "Invalid request body", w)
  | some req =>
    -- Parse date
    match env.timeParse (jsonField req "date_of_birth") with
    | none => (SendError 400 "Invalid date format. Use YYYY-MM-DD", w)
    | some dob =>
      let profile : PatientProfile :=
        { (default : PatientProfile) with
          FullName := jsonField req "full_name", DateOfBirth := dob,
          Gender := jsonField req "gender", Phone := jsonField req "phone",
          Address := jsonField req "address" }
      let (db1, profile1, err) := PatientRepository.UpdateProfile env w.db userID profile
      if err ≠ none then
        (if err = some DBError.ErrNoRows then (SendError 404 "Profile not found", w)
         else (SendError 500 "Failed to update profile", w)) else
      (SendSuccess 200 "Profile updated successfully"
        (some (Payload.patientProfile profile1)), { w with db := db1 })

/-- Go `PatientHandler.GrantAccess`. -/
def GrantAccess (env : Env) : HandlerFunc := fun r w =>
  let userID := r.Header.Get "X-User-ID"
  let userRole := r.Header.Get "X-User-Role"
  if userID = "" then (SendError 401 "Unauthorized", w) else
  if userRole ≠ "patient" then (SendError 403 "Only patients can grant access", w) else
  -- Get patient profile ID
  let (profile, err) := PatientRepository.GetProfileByUserID w.db userID
  if err ≠ none then (SendError 404 "Patient profile not found", w) else
  match jsonDecode r.Body with
  | none => (SendError 400 "Invalid request body", w)
  | some req =>
    if jsonField req "doctor_id" = "" then (SendError 400 "Doctor ID is required", w) else
    let (db1, err) :=
      PatientRepository.GrantAccess env w.db profile.ID (jsonField req "doctor_id")
    if err ≠ none then (SendError 500 "Failed to grant access", w) else
    (SendSuccess 200 "Access granted successfully" none, { w with db := db1 })

/-- Go `PatientHandler.RevokeAccess`. -/
def RevokeAccess (env : Env) : HandlerFunc := fun r w =>
  let userID := r.Header.Get "X-User-ID"
  let userRole := r.Header.Get "X-User-Role"
  if userID = "" then (SendError 401 "Unauthorized", w) else
  if userRole ≠ "patient" then (SendError 403 "Only patients can revoke access", w) else
  -- Get patient profile ID
  let (profile, err) := PatientRepository.GetProfileByUserID w.db userID
  if err ≠ none then (SendError 404 "Patient profile not found", w) else
  -- Get doctor ID from URL
  let doctorID := r.Query.Get "doctor_id"
  if doctorID = "" then (SendError 400 "Doctor ID is required", w) else
  let (db1, err) := PatientRepository.RevokeAccess env w.db profile.ID doctorID
  if err ≠ none then (SendError 500 "Failed to revoke access", w) else
  (SendSuccess 200 "Access revoked successfully" none, { w with db := db1 })

/-- Go `PatientHandler.ListPermissions`. -/
def ListPermissions : HandlerFunc := fun r w =>
  let userID := r.Header.Get "X-User-ID"
  let userRole := r.Header.Get "X-User-Role"
  if userID = "" then (SendError 401 "Unauthorized", w) else
  if userRole ≠ "patient" then (SendError 403 "Only patients can view permissions", w) else
  -- Get patient profile ID
  let (profile, err) := PatientRepository.GetProfileByUserID w.db userID
  if err ≠ none then (SendError 404 "Patient profile not found", w) else
  let (permissions, err) := PatientRepository.ListPermissions w.db profile.ID
  if err ≠ none then (SendError 500 "Failed to retrieve permissions", w) else
  (SendSuccess 200 "Permissions retrieved" (some (Payload.permissions permissions)), w)

end PatientHandler

namespace DoctorRepository

/-- Go `DoctorRepository.CreateProfile`: as `PatientRepository.CreateProfile`. -/
def CreateProfile (env : Env) (db : DB) (userID : String) (profile : DoctorProfile) :
    DB × DoctorProfile × Option DBError :=
  let profile1 : DoctorProfile := { profile with ID := env.newUUID, UserID := userID }
  if db.doctor_profiles.any (fun d => decide (d.UserID = userID)) then
    (db, profile1, some (uniqueViolation "doctor_profiles_user_id_key"))
  else
    let row : DoctorProfile := { profile1 with CreatedAt := env.now, UpdatedAt := env.now }
    ({ db with doctor_profiles := db.doctor_profiles ++ [row] }, row, none)

/-- Go `DoctorRepository.UpdateProfile`: as `PatientRepository.UpdateProfile`. -/
def UpdateProfile (env : Env) (db : DB) (userID : String) (profile : DoctorProfile) :
    DB × DoctorProfile × Option DBError :=
  let updated := fun (d : DoctorProfile) =>
    { d with
      FullName := profile.FullName, Specialization := profile.Specialization,
      LicenseNumber := profile.LicenseNumber, Phone := profile.Phone,
      UpdatedAt := env.now }
  match db.doctor_profiles.find? (fun d => decide (d.UserID = userID)) with
  | none => (db, profile, some DBError.ErrNoRows)
  | some d =>
    ({ db with doctor_profiles := db.doctor_profiles.map (fun q =>
        if q.UserID = userID then updated q else q) }, updated d, none)

end DoctorRepository

namespace DoctorHandler

open utils

/-- Go `DoctorHandler.CreateProfile`. -/
def CreateProfile (env : Env) : HandlerFunc := fun r w =>
  let userID := r.Header.Get "X-User-ID"
  let userRole := r.Header.Get "X-User-Role"
  if userID = "" then (SendError 401 "Unauthorized", w) else
  if userRole ≠ "doctor" then
    (SendError 403 "Only doctors can create doctor profiles", w) else
  match jsonDecode r.Body with
  | none => (SendError 400 "Invalid request body", w)
  | some req =>
    -- Validate
    if jsonField req "full_name" = "" then (SendError 400 "Full name is required", w) else
    let profile : DoctorProfile :=
      { (default : DoctorProfile) with
        FullName := jsonField req "full_name",
        Specialization := jsonField req "specialization",
        LicenseNumber := jsonField req "license_number", Phone := jsonField req "phone" }
    let (db1, profile1, err) := DoctorRepository.CreateProfile env w.db userID profile
    match err with
    | some e =>
      if stringsContains e.Error "duplicate" || stringsContains e.Error "unique" then
        (SendError 409 "Profile already exists", w)
      else (SendError 500 "Failed to create profile", w)
    | none =>
      (SendSuccess 201 "Profile created successfully"
        (some (Payload.doctorProfile profile1)), { w with db := db1 })

/-- Go `DoctorHandler.GetMyProfile`. -/
def GetMyProfile : HandlerFunc := fun r w =>
  let userID := r.Header.Get "X-User-ID"
  let userRole := r.Header.Get "X-User-Role"
  if userID = "" then (SendError 401 "Unauthorized", w) else
  if userRole ≠ "doctor" then (SendError 403 "Only doctors can view their profile", w) else
  let (profile, err) := DoctorRepository.GetProfileByUserID w.db userID
  if err ≠ none then
    (if err = some DBError.ErrNoRows then (SendError 404 "Profile not found", w)
     else (SendError 500 "Failed to retrieve profile", w)) else
  (SendSuccess 200 "Profile retrieved" (some (Payload.doctorProfile profile)), w)

/-- Go `DoctorHandler.UpdateProfile`. -/
def UpdateProfile (env : Env) : HandlerFunc := fun r w =>
  let userID := r.Header.Get "X-User-ID"
  let userRole := r.Header.Get "X-User-Role"
  if userID = "" then (SendError 401 "Unauthorized", w) else
  if userRole ≠ "doctor" then
    (SendError 403 "Only doctors can update their profile", w) else
  match jsonDecode r.Body with
  | none => (SendError 400 "Invalid request body", w)
  | some req =>
    let profile : DoctorProfile :=
      { (default : DoctorProfile) with
        FullName := jsonField req "full_name",
        Specialization := jsonField req "specialization",
        LicenseNumber := jsonField req "license_number", Phone := jsonField req "phone" }
    let (db1, profile1, err) := DoctorRepository.UpdateProfile env w.db userID profile
    if err ≠ none then
      (if err = some DBError.ErrNoRows then (SendError 404 "Profile not found", w)
       else (SendError 500 "Failed to update profile", w)) else
    (SendSuccess 200 "Profile updated successfully"
      (some (Payload.doctorProfile profile1)), { w with db := db1 })

end DoctorHandler

/-! ## `services/auth` -/

/-- What the auth service reads from outside its table: `utils.ValidateToken`,
`utils.GenerateToken`, `utils.HashPassword` and `utils.CheckPasswordHash`, whose files
are not among the sources, the clock and the UUID generator. -/
structure AuthEnv where
  ValidateToken : String → Except String Claims
  GenerateToken : String → String → String → Except String String
  HashPassword : String → Except String String
  CheckPasswordHash : String → String → Bool
  now : Time
  newUUID : String

/-- A handler of the auth service: the response written, and the `users` table it
leaves. -/
abbrev AuthHandlerFunc := Request → List User → HTTPResponse × List User

namespace AuthRepository

/-- Go `AuthRepository.CreateUser`: the row is inserted and returned; a second user with
the same email is rejected by the database. -/
def CreateUser (env : AuthEnv) (users : List User) (email passwordHash role : String) :
    List User × User × Option DBError :=
  if users.any (fun u => decide (u.Email = email)) then
    (users, default, some (uniqueViolation "users_email_key"))
  else
    let user : User :=
      { ID := env.newUUID, Email := email, PasswordHash := passwordHash, Role := role,
        CreatedAt := env.now, UpdatedAt := env.now }
    (users ++ [user], user, none)

/-- Go `AuthRepository.GetUserByEmail`. -/
def GetUserByEmail (users : List User) (email : String) : User × Option DBError :=
  sqlGet users (fun u => decide (u.Email = email)) id

/-- Go `AuthRepository.GetUserByID`: the query does not select `password_hash`. -/
def GetUserByID (users : List User) (id : String) : User × Option DBError :=
  sqlGet users (fun u => decide (u.ID = id)) (fun u => { u with PasswordHash := "" })

end AuthRepository

namespace AuthHandler

open utils

/-- Go `AuthHandler.Register`. -/
def Register (env : AuthEnv) : AuthHandlerFunc := fun r users =>
  match jsonDecode r.Body with
  | none => (SendError 400 "Invalid request body", users)
  | some req =>
    -- Validate
    if jsonField req "email" = "" ∨ jsonField req "password" = "" then
      (SendError 400 "Email and password are required", users) else
    if jsonField req "role" ≠ "patient" ∧ jsonField req "role" ≠ "doctor" then
      (SendError 400 "Role must be 'patient' or 'doctor'", users) else
    -- Hash password
    match env.HashPassword (jsonField req "password") with
    | Except.error _ => (SendError 500 "Failed to hash password", users)
    | Except.ok passwordHash =>
      -- Create user
      let (users1, user, err) := AuthRepository.CreateUser env users (jsonField req "email")
        passwordHash (jsonField req "role")
      match err with
      | some e =>
        if stringsContains e.Error "duplicate" || stringsContains e.Error "unique" then
          (SendError 409 "Email already exists", users)
        else (SendError 500 "Failed to create user", users)
      | none =>
        -- Generate token
        match env.GenerateToken user.ID user.Email user.Role with
        | Except.error _ => (SendError 500 "Failed to generate token", users1)
        | Except.ok token =>
          (SendSuccess 201 "User registered successfully"
            (some (Payload.authResponse token user)), users1)

/-- Go `AuthHandler.Login`. -/
def Login (env : AuthEnv) : AuthHandlerFunc := fun r users =>
  match jsonDecode r.Body with
  | none => (SendError 400 "Invalid request body", users)
  | some req =>
    -- Get user
    let (user, err) := AuthRepository.GetUserByEmail users (jsonField req "email")
    if err ≠ none then (SendError 401 "Invalid credentials", users) else
    -- Check password
    if !env.CheckPasswordHash (jsonField req "password") user.PasswordHash then
      (SendError 401 "Invalid credentials", users) else
    -- Generate token
    match env.GenerateToken user.ID user.Email user.Role with
    | Except.error _ => (SendError 500 "Failed to generate token", users)
    | Except.ok token =>
      (SendSuccess 200 "Login successful" (some (Payload.authResponse token user)), users)

/-- Go `AuthHandler.GetCurrentUser`. -/
def GetCurrentUser (env : AuthEnv) : AuthHandlerFunc := fun r users =>
  -- Get token from header
  let authHeader := r.Header.Get "Authorization"
  if authHeader = "" then (SendError 401 "Authorization header required", users) else
  let tokenString := stringsReplace1 authHeader "Bearer " ""
  match env.ValidateToken tokenString with
  | Except.error _ => (SendError 401 "Invalid token", users)
  | Except.ok claims =>
    -- Get user
    let (user, err) := AuthRepository.GetUserByID users claims.UserID
    if err ≠ none then (SendError 404 "User not found", users) else
    (SendSuccess 200 "User retrieved" (some (Payload.user user)), users)

end AuthHandler

/-- A world in which carol has granted doctor bob access and alice has not. -/
def carolGrantWorld : World :=
  { sampleWorld with
    db := { sampleWorld.db with
      doctor_access_permissions :=
        [{ ID := "g-carol", PatientID := "p-carol", DoctorID := "d-bob", GrantedAt := 3,
           RevokedAt := none, IsActive := true }] } }

/-- A request of patient alice, as the middleware hands it to the grant handlers, that
names doctor bob, and names carol's profile in a `patient_id` of its own in the body and
in the query string. -/
def grantRequest : Request :=
  { emptyRequest with
    Method := "POST", Path := "/api/patients/permissions/grant"
    RawQuery := "doctor_id=d-bob&patient_id=p-carol"
    Query := [("doctor_id", ["d-bob"]), ("patient_id", ["p-carol"])]
    Header := { entries := [("X-User-Id", ["u-alice"]), ("X-User-Role", ["patient"])] }
    Body := RequestBody.json [("doctor_id", "d-bob"), ("patient_id", "p-carol")] }

/-! ## JSON documents and the envelope of a response -/

/-- A JSON value (RFC 8259); a number keeps its literal. -/
inductive JSON
  | null
  | bool (b : Bool)
  | number (literal : String)
  | string (s : String)
  | array (items : List JSON)
  | object (members : List (String × JSON))
deriving Repr

/-- JSON whitespace is skipped. -/
def skipWS : List Char → List Char
  | [] => []
  | c :: cs => if c = ' ' ∨ c = '\n' ∨ c = '\t' ∨ c = '\r' then skipWS cs else c :: cs

/-- The characters of a JSON string after its opening quote, up to the closing quote,
and the rest of the input; a character after a backslash is taken as it is. -/
def parseChars : List Char → List Char → Option (List Char × List Char)
  | _, [] => none
  | acc, '"' :: rest => some (acc.reverse, rest)
  | _, ['\\'] => none
  | acc, '\\' :: c :: rest => parseChars (c :: '\\' :: acc) rest
  | acc, c :: rest => if c.toNat < 32 then none else parseChars (c :: acc) rest

/-- The characters of a JSON number and the rest of the input. -/
def spanNumber (cs : List Char) : List Char × List Char :=
  cs.span (fun c => c.isDigit || c = '-' || c = '+' || c = '.' || c = 'e' || c = 'E')

/-- What the parser is reading: a value, the elements of an array after its first
bracket or a comma, or the members of an object after its first brace or a comma. -/
inductive JSONTask
  | value
  | elements (acc : List JSON)
  | members (acc : List (String × JSON))

/-- A recursive-descent parser of JSON with a bound on the number of steps: the value
read and the rest of the input. -/
def parseJSON : Nat → JSONTask → List Char → Option (JSON × List Char)
  | 0, _, _ => none
  | fuel + 1, JSONTask.value, cs =>
    match skipWS cs with
    | '{' :: rest =>
      match skipWS rest with
      | '}' :: rest1 => some (JSON.object [], rest1)
      | _ => parseJSON fuel (JSONTask.members []) rest
    | '[' :: rest =>
      match skipWS rest with
      | ']' :: rest1 => some (JSON.array [], rest1)
      | _ => parseJSON fuel (JSONTask.elements []) rest
    | '"' :: rest =>
      match parseChars [] rest with
      | some (s, rest1) => some (JSON.string ⟨s⟩, rest1)
      | none => none
    | 't' :: 'r' :: 'u' :: 'e' :: rest => some (JSON.bool true, rest)
    | 'f' :: 'a' :: 'l' :: 's' :: 'e' :: rest => some (JSON.bool false, rest)
    | 'n' :: 'u' :: 'l' :: 'l' :: rest => some (JSON.null, rest)
    | c :: rest =>
      if c.isDigit ∨ c = '-' then
        some (JSON.number ⟨(spanNumber (c :: rest)).1⟩, (spanNumber (c :: rest)).2)
      else none
    | [] => none
  | fuel + 1, JSONTask.elements acc, cs =>
    match parseJSON fuel JSONTask.value cs with
    | some (v, rest) =>
      match skipWS rest with
      | ',' :: rest1 => parseJSON fuel (JSONTask.elements (acc ++ [v])) rest1
      | ']' :: rest1 => some (JSON.array (acc ++ [v]), rest1)
      | _ => none
    | none => none
  | fuel + 1, JSONTask.members acc, cs =>
    match skipWS cs with
    | '"' :: rest =>
      match parseChars [] rest with
      | some (k, rest1) =>
        match skipWS rest1 with
        | ':' :: rest2 =>
          match parseJSON fuel JSONTask.value rest2 with
          | some (v, rest3) =>
            match skipWS rest3 with
            | ',' :: rest4 => parseJSON fuel (JSONTask.members (acc ++ [(⟨k⟩, v)])) rest4
            | '}' :: rest4 => some (JSON.object (acc ++ [(⟨k⟩, v)]), rest4)
            | _ => none
          | none => none
        | _ => none
      | none => none
    | _ => none

/-- The JSON document that a text is, if it is one. -/
def parseDocument (s : String) : Option JSON :=
  match parseJSON (s.data.length + 1) JSONTask.value s.data with
  | some (v, rest) => if skipWS rest = [] then some v else none
  | none => none

/-- The boolean `success` member of the JSON object that a text is; `none` when the text
is not a JSON object or has no boolean member `success`. -/
def successField (s : String) : Option Bool :=
  match parseDocument s with
  | some (JSON.object members) =>
    match members.lookup "success" with
    | some (JSON.bool b) => some b
    | _ => none
  | _ => none

/-- The `success` field of the body of a response read as a JSON object.  The body that
`json.Encoder` writes for a `utils.Response` is an object whose member `success` is the
boolean field `Success`; a text or a file is parsed. -/
def HTTPResponse.success (resp : HTTPResponse) : Option Bool :=
  match resp.Body with
  | ResponseBody.json r => some r.Success
  | ResponseBody.text s => successField s
  | ResponseBody.bytes content => successField ⟨content.map Char.ofNat⟩

/-- The response is an envelope: its body is a JSON object with a boolean `success`
field, which is true with a 2xx status or false with a status of 400 or more. -/
def HTTPResponse.Enveloped (resp : HTTPResponse) : Prop :=
  (resp.success = some true ∧ 200 ≤ resp.StatusCode ∧ resp.StatusCode < 300) ∨
    (resp.success = some false ∧ 400 ≤ resp.StatusCode)

instance (resp : HTTPResponse) : Decidable resp.Enveloped := by
  unfold HTTPResponse.Enveloped; infer_instance

/-- The handlers of the patient, doctor, timeline and prescription services that answer
through `utils.SendSuccess` and `utils.SendError` only: all of them but
`DownloadPrescription`. -/
def backendHandlers (env : Env) : List HandlerFunc :=
  [PatientHandler.CreateProfile env, PatientHandler.GetMyProfile,
   PatientHandler.UpdateProfile env, PatientHandler.GrantAccess env,
   PatientHandler.RevokeAccess env, PatientHandler.ListPermissions,
   DoctorHandler.CreateProfile env, DoctorHandler.GetMyProfile,
   DoctorHandler.UpdateProfile env, DoctorHandler.GetPatientProfile,
   DoctorHandler.ListAccessiblePatients,
   TimelineHandler.CreateVisit env, TimelineHandler.GetMyTimeline,
   TimelineHandler.GetPatientTimeline, TimelineHandler.GetVisit,
   TimelineHandler.UpdateVisit env, TimelineHandler.DeleteVisit,
   PrescriptionHandler.UploadPrescription env, PrescriptionHandler.GetMyPrescriptions,
   PrescriptionHandler.GetPatientPrescriptions, PrescriptionHandler.DeletePrescription]

/-- The handlers of the auth service. -/
def authHandlers (env : AuthEnv) : List AuthHandlerFunc :=
  [AuthHandler.Register env, AuthHandler.Login env, AuthHandler.GetCurrentUser env]

/-! # Theorems -/

/-! ## The trust propagator -/

theorem lookup_filter_ne (l : Values) (k c : String) (h : k ≠ c) :
    List.lookup k (l.filter (fun e => decide (e.1 ≠ c))) = List.lookup k l := by
  induction l with
  | nil => rfl
  | cons e l ih =>
    obtain ⟨k1, v1⟩ := e
    by_cases hc : k1 = c
    · subst hc
      have hk : (k == k1) = false := by simpa using h
      rw [List.filter_cons_of_neg (by simp), ih, List.lookup_cons, hk]
    · by_cases hk : k = k1
      · subst hk
        rw [List.filter_cons_of_pos (by simpa using hc)]
        simp [List.lookup_cons]
      · have hk1 : (k == k1) = false := by simpa using hk
        rw [List.filter_cons_of_pos (by simpa using hc), List.lookup_cons, hk1, ih,
          List.lookup_cons, hk1]

theorem Header.Values_Set_same (h : Header) (key value : String) :
    (h.Set key value).Values key = [value] := by
  simp [Header.Values, Header.Set, Values.All, List.lookup_cons]

theorem Header.Get_Set_same (h : Header) (key value : String) :
    (h.Set key value).Get key = value := by
  simp [Header.Get, Header.Set, Values.Get, List.lookup_cons]

theorem Header.Values_Set_other (h : Header) (key key1 value : String)
    (hne : CanonicalMIMEHeaderKey key1 ≠ CanonicalMIMEHeaderKey key) :
    (h.Set key value).Values key1 = h.Values key1 := by
  have hk : (CanonicalMIMEHeaderKey key1 == CanonicalMIMEHeaderKey key) = false := by
    simpa using hne
  simp only [Header.Values, Header.Set, Values.All, List.lookup_cons, hk]
  rw [lookup_filter_ne _ _ _ hne]

theorem Header.Get_Set_other (h : Header) (key key1 value : String)
    (hne : CanonicalMIMEHeaderKey key1 ≠ CanonicalMIMEHeaderKey key) :
    (h.Set key value).Get key1 = h.Get key1 := by
  have hk : (CanonicalMIMEHeaderKey key1 == CanonicalMIMEHeaderKey key) = false := by
    simpa using hne
  simp only [Header.Get, Header.Set, Values.Get, List.lookup_cons, hk]
  rw [lookup_filter_ne _ _ _ hne]

theorem canonical_id_ne_email :
    CanonicalMIMEHeaderKey "X-User-ID" ≠ CanonicalMIMEHeaderKey "X-User-Email" := by decide

theorem canonical_id_ne_role :
    CanonicalMIMEHeaderKey "X-User-ID" ≠ CanonicalMIMEHeaderKey "X-User-Role" := by decide

theorem canonical_email_ne_role :
    CanonicalMIMEHeaderKey "X-User-Email" ≠ CanonicalMIMEHeaderKey "X-User-Role" := by decide

/-- A request without an accepted credential is answered 401 by the middleware itself,
whatever the wrapped handler is. -/
theorem AuthMiddleware_reject (env : Env) (next : HandlerFunc) (r : Request) (w : World)
    (h : NoCredential env r) :
    AuthMiddleware env next r w = (httpError "Authorization header required" 401, w) ∨
      AuthMiddleware env next r w = (httpError "Invalid token" 401, w) := by
  unfold AuthMiddleware
  by_cases h0 : r.Header.Get "Authorization" = ""
  · left; simp [h0]
  · right
    rcases h with h | ⟨e, he⟩
    · exact absurd h h0
    · simp only [credential] at he
      simp [h0, he]

/-- A request with an accepted credential is dispatched with the three trusted headers
overwritten by the claims. -/
theorem AuthMiddleware_accept (env : Env) (next : HandlerFunc) (r : Request) (w : World)
    (claims : Claims) (h : Accepted env r claims) :
    AuthMiddleware env next r w =
      next { r with Header := ((r.Header.Set "X-User-ID" claims.UserID).Set
        "X-User-Email" claims.Email).Set "X-User-Role" claims.Role } w := by
  obtain ⟨h0, hv⟩ := h
  simp only [credential] at hv
  unfold AuthMiddleware
  simp [h0, hv]

theorem protectedRoutes_wrapped (env : Env) (hp : PatientHandlers) (hd : DoctorHandlers)
    (ht : TimelineHandlers) (hr : PrescriptionHandlers) (rt : Route)
    (hrt : rt ∈ protectedRoutes env hp hd ht hr) :
    ∃ next : HandlerFunc, rt.Handler = AuthMiddleware env next := by
  simp only [protectedRoutes, patientRoutes, doctorRoutes, timelineRoutes,
    prescriptionRoutes, List.mem_append, List.mem_cons, List.mem_singleton,
    List.not_mem_nil, or_false] at hrt
  casesm* _ ∨ _ <;> subst rt <;> exact ⟨_, rfl⟩

/-- C2: for a request whose credential `ValidateToken` accepts with claims
(user_id, email, role), the handler that `AuthMiddleware` dispatches receives a request
in which each of `X-User-ID`, `X-User-Email`, `X-User-Role` has exactly one value, the
corresponding claim, whatever the client supplied for these headers. -/
theorem C2_trusted_headers_are_the_claims (env : Env) (r : Request) (claims : Claims)
    (h : Accepted env r claims) :
    ∃ r1 : Request,
      (∀ (next : HandlerFunc) (w : World), AuthMiddleware env next r w = next r1 w) ∧
      r1.Header.Values "X-User-ID" = [claims.UserID] ∧
      r1.Header.Values "X-User-Email" = [claims.Email] ∧
      r1.Header.Values "X-User-Role" = [claims.Role] ∧
      r1.Header.Get "X-User-ID" = claims.UserID ∧
      r1.Header.Get "X-User-Email" = claims.Email ∧
      r1.Header.Get "X-User-Role" = claims.Role := by
  refine ⟨_, fun next w => AuthMiddleware_accept env next r w claims h, ?_, ?_, ?_, ?_, ?_, ?_⟩
  · simp only []
    rw [Header.Values_Set_other _ _ _ _ canonical_id_ne_role,
      Header.Values_Set_other _ _ _ _ canonical_id_ne_email, Header.Values_Set_same]
  · simp only []
    rw [Header.Values_Set_other _ _ _ _ canonical_email_ne_role, Header.Values_Set_same]
  · simp only []
    rw [Header.Values_Set_same]
  · simp only []
    rw [Header.Get_Set_other _ _ _ _ canonical_id_ne_role,
      Header.Get_Set_other _ _ _ _ canonical_id_ne_email, Header.Get_Set_same]
  · simp only []
    rw [Header.Get_Set_other _ _ _ _ canonical_email_ne_role, Header.Get_Set_same]
  · simp only []
    rw [Header.Get_Set_same]

/-- Witness of C2: the credential `tok-alice` is accepted, and the handler sees the
claims of alice although the client sent two `X-User-ID` values and the role doctor. -/
theorem C2_trusted_headers_witness :
    Accepted sampleEnv spoofingRequest
        { UserID := "u-alice", Email := "alice@x", Role := "patient" } ∧
      spoofingRequest.Header.Values "X-User-ID" = ["u-mallory", "u-eve"] ∧
      ∃ r1 : Request,
        (∀ (next : HandlerFunc) (w : World),
          AuthMiddleware sampleEnv next spoofingRequest w = next r1 w) ∧
        r1.Header.Values "X-User-ID" = ["u-alice"] ∧
        r1.Header.Values "X-User-Email" = ["alice@x"] ∧
        r1.Header.Values "X-User-Role" = ["patient"] ∧
        r1.Header.Get "X-User-ID" = "u-alice" ∧
        r1.Header.Get "X-User-Email" = "alice@x" ∧
        r1.Header.Get "X-User-Role" = "patient" :=
  ⟨⟨by decide, rfl⟩, by decide,
    C2_trusted_headers_are_the_claims sampleEnv spoofingRequest
      { UserID := "u-alice", Email := "alice@x", Role := "patient" } ⟨by decide, rfl⟩⟩

/-- C3: on every route registered by the patient, doctor, timeline and prescription
services, a request without a credential that `ValidateToken` accepts is answered 401
by the middleware and the world is unchanged.  The statement holds for every
implementation of the resource handlers, so no handler is invoked; the headers of the
request, `X-User-ID` and `X-User-Role` included, are arbitrary.  The routers as a
whole leave the world unchanged as well. -/
theorem C3_protected_routes_need_credential (env : Env) (hp : PatientHandlers)
    (hd : DoctorHandlers) (ht : TimelineHandlers) (hr : PrescriptionHandlers)
    (r : Request) (w : World) (h : NoCredential env r) :
    (∀ rt ∈ protectedRoutes env hp hd ht hr,
      (rt.Handler r w).1.StatusCode = 401 ∧ (rt.Handler r w).2 = w ∧
      (rt.Handler r w = (httpError "Authorization header required" 401, w) ∨
        rt.Handler r w = (httpError "Invalid token" 401, w))) ∧
    (ServeHTTP (protectedRoutes env hp hd ht hr) r w).2 = w := by
  have key : ∀ rt ∈ protectedRoutes env hp hd ht hr,
      (rt.Handler r w = (httpError "Authorization header required" 401, w) ∨
        rt.Handler r w = (httpError "Invalid token" 401, w)) := by
    intro rt hrt
    obtain ⟨next, hn⟩ := protectedRoutes_wrapped env hp hd ht hr rt hrt
    rw [hn]
    exact AuthMiddleware_reject env next r w h
  refine ⟨fun rt hrt => ?_, ?_⟩
  · rcases key rt hrt with e | e <;> rw [e] <;> simp [httpError]
  · unfold ServeHTTP
    cases hf : (protectedRoutes env hp hd ht hr).find?
        (fun rt => decide (rt.Path = r.Path ∧ rt.Method = r.Method)) with
    | none =>
      simp only []
      split <;> rfl
    | some rt =>
      simp only []
      rcases key rt (List.mem_of_find?_eq_some hf) with e | e <;> rw [e]

/-- Witness of C3: a request that forges `X-User-ID` and `X-User-Role` but carries no
`Authorization` header is answered 401 on every route; the handlers (the real ones of
the timeline and prescription services, store-wiping ones elsewhere) do not run. -/
theorem C3_protected_routes_witness :
    NoCredential sampleEnv forgedRequest ∧
      forgedRequest.Header.Get "X-User-ID" = "u-alice" ∧
      ((∀ rt ∈ protectedRoutes sampleEnv wipePatientHandlers wipeDoctorHandlers
            (NewTimelineHandler sampleEnv) (NewPrescriptionHandler sampleEnv),
          (rt.Handler forgedRequest sampleWorld).1.StatusCode = 401 ∧
          (rt.Handler forgedRequest sampleWorld).2 = sampleWorld ∧
          (rt.Handler forgedRequest sampleWorld =
              (httpError "Authorization header required" 401, sampleWorld) ∨
            rt.Handler forgedRequest sampleWorld =
              (httpError "Invalid token" 401, sampleWorld))) ∧
        (ServeHTTP (protectedRoutes sampleEnv wipePatientHandlers wipeDoctorHandlers
            (NewTimelineHandler sampleEnv) (NewPrescriptionHandler sampleEnv))
          forgedRequest sampleWorld).2 = sampleWorld) :=
  ⟨Or.inl (by decide), by decide,
    C3_protected_routes_need_credential sampleEnv wipePatientHandlers wipeDoctorHandlers
      (NewTimelineHandler sampleEnv) (NewPrescriptionHandler sampleEnv) forgedRequest
      sampleWorld (Or.inl (by decide))⟩

/-- C4, as stated, fails: the `Authorization` header `tok-alice` does not begin with
`Bearer `, yet the middleware dispatches the request: the timeline handler answers 200
with alice's visits, and a store-wiping handler runs. -/
theorem C4_bare_token_is_dispatched :
    stringsHasPrefix (bareTokenRequest.Header.Get "Authorization") "Bearer " = false ∧
      (AuthMiddleware sampleEnv TimelineHandler.GetMyTimeline bareTokenRequest
        sampleWorld).1.StatusCode = 200 ∧
      (AuthMiddleware sampleEnv TimelineHandler.GetMyTimeline bareTokenRequest
        sampleWorld).1.carriesData = true ∧
      (AuthMiddleware sampleEnv wipe bareTokenRequest sampleWorld).2 ≠ sampleWorld := by
  refine ⟨by decide, by decide, by decide, by decide⟩

/-- C4, amended: a request whose `Authorization` header is absent (empty), or whose
header value with the first `Bearer ` removed is rejected by `ValidateToken`, is
answered 401 and the wrapped handler, whatever it is, is not invoked; the prefix is
stripped when present and is not required: every non-empty header whose value
`ValidateToken` accepts after the stripping is dispatched to the handler. -/
theorem C4_rejected_without_valid_credential (env : Env) (r : Request) (w : World) :
    ((r.Header.Get "Authorization" = "" ∨
        ∃ e, env.ValidateToken
          (stringsReplace1 (r.Header.Get "Authorization") "Bearer " "") = Except.error e) →
      ∀ next : HandlerFunc,
        (AuthMiddleware env next r w).1.StatusCode = 401 ∧
        (AuthMiddleware env next r w).2 = w ∧
        (AuthMiddleware env next r w = (httpError "Authorization header required" 401, w) ∨
          AuthMiddleware env next r w = (httpError "Invalid token" 401, w))) ∧
    (∀ claims, r.Header.Get "Authorization" ≠ "" →
      env.ValidateToken (stringsReplace1 (r.Header.Get "Authorization") "Bearer " "") =
        Except.ok claims →
      ∃ r1 : Request, ∀ next : HandlerFunc, AuthMiddleware env next r w = next r1 w) := by
  refine ⟨fun h next => ?_, fun claims h0 hv => ⟨_, fun next =>
    AuthMiddleware_accept env next r w claims ⟨h0, hv⟩⟩⟩
  have key := AuthMiddleware_reject env next r w h
  rcases key with e | e <;> rw [e] <;> simp [httpError]

/-- Witness of C4 amended: the header `Bearer wrong` is rejected by the validator, and
the request is answered 401 whatever the handler. -/
theorem C4_rejected_witness :
    (∃ e, sampleEnv.ValidateToken (stringsReplace1
        (wrongTokenRequest.Header.Get "Authorization") "Bearer " "") = Except.error e) ∧
      ∀ next : HandlerFunc,
        (AuthMiddleware sampleEnv next wrongTokenRequest sampleWorld).1.StatusCode = 401 ∧
        (AuthMiddleware sampleEnv next wrongTokenRequest sampleWorld).2 = sampleWorld ∧
        (AuthMiddleware sampleEnv next wrongTokenRequest sampleWorld =
            (httpError "Authorization header required" 401, sampleWorld) ∨
          AuthMiddleware sampleEnv next wrongTokenRequest sampleWorld =
            (httpError "Invalid token" 401, sampleWorld)) :=
  ⟨⟨"invalid token", rfl⟩,
    (C4_rejected_without_valid_credential sampleEnv wrongTokenRequest sampleWorld).1
      (Or.inr ⟨"invalid token", rfl⟩)⟩

/-! ## The access check of the read handlers -/

theorem sqlGet_of_find_none {α β : Type} [Inhabited β] (rows : List α) (cond : α → Bool)
    (col : α → β) (h : rows.find? cond = none) :
    sqlGet rows cond col = (default, some DBError.ErrNoRows) := by
  simp [sqlGet, h]

theorem sqlGet_of_find_some {α β : Type} [Inhabited β] (rows : List α) (cond : α → Bool)
    (col : α → β) (row : α) (h : rows.find? cond = some row) :
    sqlGet rows cond col = (col row, none) := by
  simp [sqlGet, h]

/-- In a table whose key column has no duplicates, the query by key finds the row. -/
theorem find_of_nodup_key {α κ : Type} [DecidableEq κ] (key : α → κ) (rows : List α)
    (hnd : (rows.map key).Nodup) (row : α) (hmem : row ∈ rows) :
    rows.find? (fun x => decide (key x = key row)) = some row := by
  induction rows with
  | nil => cases hmem
  | cons a l ih =>
    rw [List.map_cons, List.nodup_cons] at hnd
    rcases List.mem_cons.mp hmem with rfl | hin
    · simp
    · have hne : key a ≠ key row := by
        intro e
        exact hnd.1 (e ▸ List.mem_map_of_mem key hin)
      rw [List.find?_cons_of_neg _ (by simpa using hne)]
      exact ih hnd.2 hin

theorem TimelineRepository.CheckDoctorAccess_iff (db : DB) (u p : String) :
    (TimelineRepository.CheckDoctorAccess db u p).1 = true ↔
      ∃ d, db.doctor_profiles.find? (fun d => decide (d.UserID = u)) = some d ∧
        ∃ g, db.doctor_access_permissions.find?
            (fun g => decide (g.DoctorID = d.ID) && decide (g.PatientID = p)) = some g ∧
          g.IsActive = true := by
  unfold TimelineRepository.CheckDoctorAccess
  cases hd : db.doctor_profiles.find? (fun d => decide (d.UserID = u)) with
  | none => simp [sqlGet, hd]
  | some d =>
    cases hg : db.doctor_access_permissions.find?
        (fun g => decide (g.DoctorID = d.ID) && decide (g.PatientID = p)) with
    | none => simp [sqlGet, hd, hg]
    | some g => simp [sqlGet, hd, hg]

/-- The two services carry the same access check. -/
theorem PrescriptionRepository.CheckDoctorAccess_eq (db : DB) (u p : String) :
    PrescriptionRepository.CheckDoctorAccess db u p =
      TimelineRepository.CheckDoctorAccess db u p := rfl

theorem PrescriptionHandler.accessDenied_eq (db : DB) (u role p : String) :
    PrescriptionHandler.accessDenied db u role p = TimelineHandler.accessDenied db u role p :=
  rfl

/-- A doctor passes the access check only with an active grant. -/
theorem accessDenied_doctor_sound (db : DB) (u p : String)
    (h : TimelineHandler.accessDenied db u "doctor" p = false) : HasActiveGrant db u p := by
  have hacc : (TimelineRepository.CheckDoctorAccess db u p).1 = true := by
    simp only [TimelineHandler.accessDenied] at h
    rw [if_neg (by decide)] at h
    simp at h
    exact h.2
  obtain ⟨d, hd, g, hg, hact⟩ := (TimelineRepository.CheckDoctorAccess_iff db u p).mp hacc
  have hd1 := List.find?_some hd
  have hg1 := List.find?_some hg
  simp only [decide_eq_true_eq, Bool.and_eq_true] at hd1 hg1
  exact ⟨d, List.mem_of_find?_eq_some hd, hd1, g, List.mem_of_find?_eq_some hg, hg1.2,
    hg1.1, hact⟩

/-- `GetPatientTimeline` answers 200 or returns data only past its three guards, and
then with the visits of the requested patient. -/
theorem TimelineHandler.GetPatientTimeline_served (r : Request) (w : World)
    (h : (TimelineHandler.GetPatientTimeline r w).1.StatusCode = 200 ∨
      (TimelineHandler.GetPatientTimeline r w).1.carriesData = true) :
    r.Header.Get "X-User-ID" ≠ "" ∧ r.Query.Get "patient_id" ≠ "" ∧
      TimelineHandler.accessDenied w.db (r.Header.Get "X-User-ID")
        (r.Header.Get "X-User-Role") (r.Query.Get "patient_id") = false ∧
      TimelineHandler.GetPatientTimeline r w =
        (utils.SendSuccess 200 "Timeline retrieved" (some (Payload.visits
          (TimelineRepository.GetVisitsByPatientID w.db (r.Query.Get "patient_id")).1)), w) := by
  unfold TimelineHandler.GetPatientTimeline at h ⊢
  by_cases hu : r.Header.Get "X-User-ID" = ""
  · simp [hu, utils.SendError, utils.SendJSON, HTTPResponse.carriesData] at h
  by_cases ht : r.Query.Get "patient_id" = ""
  · simp [hu, ht, utils.SendError, utils.SendJSON, HTTPResponse.carriesData] at h
  by_cases hd : TimelineHandler.accessDenied w.db (r.Header.Get "X-User-ID")
      (r.Header.Get "X-User-Role") (r.Query.Get "patient_id") = true
  · simp [hu, ht, hd, utils.SendError, utils.SendJSON, HTTPResponse.carriesData] at h
  · simp only [Bool.not_eq_true] at hd
    refine ⟨hu, ht, hd, ?_⟩
    simp [hu, ht, hd, TimelineRepository.GetVisitsByPatientID]

/-- `GetVisit` answers 200 or returns data only past its guards, and then with the
visit found under the requested id. -/
theorem TimelineHandler.GetVisit_served (r : Request) (w : World)
    (h : (TimelineHandler.GetVisit r w).1.StatusCode = 200 ∨
      (TimelineHandler.GetVisit r w).1.carriesData = true) :
    ∃ v ∈ w.db.hospital_visits, v.ID = r.Query.Get "visit_id" ∧
      r.Header.Get "X-User-ID" ≠ "" ∧
      TimelineHandler.accessDenied w.db (r.Header.Get "X-User-ID")
        (r.Header.Get "X-User-Role") v.PatientID = false ∧
      TimelineHandler.GetVisit r w =
        (utils.SendSuccess 200 "Visit retrieved" (some (Payload.visit v)), w) := by
  unfold TimelineHandler.GetVisit at h ⊢
  by_cases hu : r.Header.Get "X-User-ID" = ""
  · simp [hu, utils.SendError, utils.SendJSON, HTTPResponse.carriesData] at h
  by_cases ht : r.Query.Get "visit_id" = ""
  · simp [hu, ht, utils.SendError, utils.SendJSON, HTTPResponse.carriesData] at h
  cases hf : w.db.hospital_visits.find? (fun v => decide (v.ID = r.Query.Get "visit_id")) with
  | none =>
    simp [hu, ht, TimelineRepository.GetVisitByID, sqlGet, hf, utils.SendError,
      utils.SendJSON, HTTPResponse.carriesData] at h
  | some v =>
    have hv := List.find?_some hf
    simp only [decide_eq_true_eq] at hv
    by_cases hd : TimelineHandler.accessDenied w.db (r.Header.Get "X-User-ID")
        (r.Header.Get "X-User-Role") v.PatientID = true
    · simp [hu, ht, TimelineRepository.GetVisitByID, sqlGet, hf, hd, utils.SendError,
        utils.SendJSON, HTTPResponse.carriesData] at h
    · simp only [Bool.not_eq_true] at hd
      refine ⟨v, List.mem_of_find?_eq_some hf, hv, hu, hd, ?_⟩
      simp [hu, ht, TimelineRepository.GetVisitByID, sqlGet, hf, hd]

/-- `GetPatientPrescriptions` answers 200 or returns data only past its three guards. -/
theorem PrescriptionHandler.GetPatientPrescriptions_served (r : Request) (w : World)
    (h : (PrescriptionHandler.GetPatientPrescriptions r w).1.StatusCode = 200 ∨
      (PrescriptionHandler.GetPatientPrescriptions r w).1.carriesData = true) :
    r.Header.Get "X-User-ID" ≠ "" ∧ r.Query.Get "patient_id" ≠ "" ∧
      PrescriptionHandler.accessDenied w.db (r.Header.Get "X-User-ID")
        (r.Header.Get "X-User-Role") (r.Query.Get "patient_id") = false ∧
      PrescriptionHandler.GetPatientPrescriptions r w =
        (utils.SendSuccess 200 "Prescriptions retrieved" (some (Payload.prescriptions
          (PrescriptionRepository.GetPrescriptionsByPatientID w.db
            (r.Query.Get "patient_id")).1)), w) := by
  unfold PrescriptionHandler.GetPatientPrescriptions at h ⊢
  by_cases hu : r.Header.Get "X-User-ID" = ""
  · simp [hu, utils.SendError, utils.SendJSON, HTTPResponse.carriesData] at h
  by_cases ht : r.Query.Get "patient_id" = ""
  · simp [hu, ht, utils.SendError, utils.SendJSON, HTTPResponse.carriesData] at h
  by_cases hd : PrescriptionHandler.accessDenied w.db (r.Header.Get "X-User-ID")
      (r.Header.Get "X-User-Role") (r.Query.Get "patient_id") = true
  · simp [hu, ht, hd, utils.SendError, utils.SendJSON, HTTPResponse.carriesData] at h
  · simp only [Bool.not_eq_true] at hd
    refine ⟨hu, ht, hd, ?_⟩
    simp [hu, ht, hd, PrescriptionRepository.GetPrescriptionsByPatientID]

/-- `DownloadPrescription` answers 200 or returns data only past its guards, and then
with the stored file of the prescription found under the requested id. -/
theorem PrescriptionHandler.DownloadPrescription_served (r : Request) (w : World)
    (h : (PrescriptionHandler.DownloadPrescription r w).1.StatusCode = 200 ∨
      (PrescriptionHandler.DownloadPrescription r w).1.carriesData = true) :
    ∃ p ∈ w.db.prescriptions, p.ID = r.Query.Get "id" ∧
      r.Header.Get "X-User-ID" ≠ "" ∧
      PrescriptionHandler.accessDenied w.db (r.Header.Get "X-User-ID")
        (r.Header.Get "X-User-Role") p.PatientID = false ∧
      ∃ content, w.uploads.lookup p.FilePath = some content ∧
        (PrescriptionHandler.DownloadPrescription r w).1.Body = ResponseBody.bytes content ∧
        (PrescriptionHandler.DownloadPrescription r w).2 = w := by
  unfold PrescriptionHandler.DownloadPrescription at h ⊢
  by_cases hu : r.Header.Get "X-User-ID" = ""
  · simp [hu, utils.SendError, utils.SendJSON, HTTPResponse.carriesData] at h
  by_cases ht : r.Query.Get "id" = ""
  · simp [hu, ht, utils.SendError, utils.SendJSON, HTTPResponse.carriesData] at h
  cases hf : w.db.prescriptions.find? (fun p => decide (p.ID = r.Query.Get "id")) with
  | none =>
    simp [hu, ht, PrescriptionRepository.GetPrescriptionByID, sqlGet, hf, utils.SendError,
      utils.SendJSON, HTTPResponse.carriesData] at h
  | some p =>
    have hp := List.find?_some hf
    simp only [decide_eq_true_eq] at hp
    by_cases hd : PrescriptionHandler.accessDenied w.db (r.Header.Get "X-User-ID")
        (r.Header.Get "X-User-Role") p.PatientID = true
    · simp [hu, ht, PrescriptionRepository.GetPrescriptionByID, sqlGet, hf, hd,
        utils.SendError, utils.SendJSON, HTTPResponse.carriesData] at h
    · simp only [Bool.not_eq_true] at hd
      cases hl : w.uploads.lookup p.FilePath with
      | none =>
        simp [hu, ht, PrescriptionRepository.GetPrescriptionByID, sqlGet, hf, hd, hl,
          utils.SendError, utils.SendJSON, HTTPResponse.carriesData] at h
      | some content =>
        refine ⟨p, List.mem_of_find?_eq_some hf, hp, hu, hd, content, hl, ?_, ?_⟩
        · simp [hu, ht, PrescriptionRepository.GetPrescriptionByID, sqlGet, hf, hd, hl]
        · simp [hu, ht, PrescriptionRepository.GetPrescriptionByID, sqlGet, hf, hd, hl]

/-- C1: for a request whose trusted role is doctor, each read endpoint for patient-owned
data (`GetPatientTimeline`, `GetVisit`, `GetPatientPrescriptions`,
`DownloadPrescription`) answers 200, or returns any data at all, only if a doctor
profile of the trusted user exists and the grant row of the owning patient to that
profile exists with `is_active = true` in the state the request reads; the data are
then rows (or the file) of that patient. -/
theorem C1_doctor_reads_only_with_active_grant (r : Request) (w : World)
    (hrole : r.Header.Get "X-User-Role" = "doctor") :
    (((TimelineHandler.GetPatientTimeline r w).1.StatusCode = 200 ∨
        (TimelineHandler.GetPatientTimeline r w).1.carriesData = true) →
      HasActiveGrant w.db (r.Header.Get "X-User-ID") (r.Query.Get "patient_id") ∧
      ∃ vs, TimelineHandler.GetPatientTimeline r w =
          (utils.SendSuccess 200 "Timeline retrieved" (some (Payload.visits vs)), w) ∧
        ∀ v ∈ vs, v ∈ w.db.hospital_visits ∧ v.PatientID = r.Query.Get "patient_id") ∧
    (((TimelineHandler.GetVisit r w).1.StatusCode = 200 ∨
        (TimelineHandler.GetVisit r w).1.carriesData = true) →
      ∃ v ∈ w.db.hospital_visits, v.ID = r.Query.Get "visit_id" ∧
        HasActiveGrant w.db (r.Header.Get "X-User-ID") v.PatientID ∧
        TimelineHandler.GetVisit r w =
          (utils.SendSuccess 200 "Visit retrieved" (some (Payload.visit v)), w)) ∧
    (((PrescriptionHandler.GetPatientPrescriptions r w).1.StatusCode = 200 ∨
        (PrescriptionHandler.GetPatientPrescriptions r w).1.carriesData = true) →
      HasActiveGrant w.db (r.Header.Get "X-User-ID") (r.Query.Get "patient_id") ∧
      ∃ ps, PrescriptionHandler.GetPatientPrescriptions r w =
          (utils.SendSuccess 200 "Prescriptions retrieved"
            (some (Payload.prescriptions ps)), w) ∧
        ∀ p ∈ ps, p ∈ w.db.prescriptions ∧ p.PatientID = r.Query.Get "patient_id") ∧
    (((PrescriptionHandler.DownloadPrescription r w).1.StatusCode = 200 ∨
        (PrescriptionHandler.DownloadPrescription r w).1.carriesData = true) →
      ∃ p ∈ w.db.prescriptions, p.ID = r.Query.Get "id" ∧
        HasActiveGrant w.db (r.Header.Get "X-User-ID") p.PatientID ∧
        ∃ content, w.uploads.lookup p.FilePath = some content ∧
          (PrescriptionHandler.DownloadPrescription r w).1.Body =
            ResponseBody.bytes content) := by
  refine ⟨fun h => ?_, fun h => ?_, fun h => ?_, fun h => ?_⟩
  · obtain ⟨_, _, hd, he⟩ := TimelineHandler.GetPatientTimeline_served r w h
    rw [hrole] at hd
    refine ⟨accessDenied_doctor_sound _ _ _ hd, _, he, fun v hv => ?_⟩
    simp only [TimelineRepository.GetVisitsByPatientID] at hv
    have hv1 := (List.perm_insertionSort _ _).subset hv
    simpa using hv1
  · obtain ⟨v, hv, hid, _, hd, he⟩ := TimelineHandler.GetVisit_served r w h
    rw [hrole] at hd
    exact ⟨v, hv, hid, accessDenied_doctor_sound _ _ _ hd, he⟩
  · obtain ⟨_, _, hd, he⟩ := PrescriptionHandler.GetPatientPrescriptions_served r w h
    rw [hrole, PrescriptionHandler.accessDenied_eq] at hd
    refine ⟨accessDenied_doctor_sound _ _ _ hd, _, he, fun p hp => ?_⟩
    simp only [PrescriptionRepository.GetPrescriptionsByPatientID] at hp
    have hp1 := (List.perm_insertionSort _ _).subset hp
    simpa using hp1
  · obtain ⟨p, hp, hid, _, hd, content, hl, hb, _⟩ :=
      PrescriptionHandler.DownloadPrescription_served r w h
    rw [hrole, PrescriptionHandler.accessDenied_eq] at hd
    exact ⟨p, hp, hid, accessDenied_doctor_sound _ _ _ hd, content, hl, hb⟩

/-- Witness of C1: doctor bob reads alice's timeline and downloads her prescription in
the world where her grant to him is active, and the theorem yields that grant. -/
theorem C1_doctor_reads_witness :
    doctorRequest.Header.Get "X-User-Role" = "doctor" ∧
      (TimelineHandler.GetPatientTimeline doctorRequest grantedWorld).1.StatusCode = 200 ∧
      (PrescriptionHandler.DownloadPrescription doctorRequest grantedWorld).1.StatusCode
        = 200 ∧
      HasActiveGrant grantedWorld.db (doctorRequest.Header.Get "X-User-ID")
        (doctorRequest.Query.Get "patient_id") ∧
      (TimelineHandler.GetPatientTimeline doctorRequest sampleWorld).1.StatusCode = 403 :=
  ⟨by decide, by decide, by decide,
    ((C1_doctor_reads_only_with_active_grant doctorRequest grantedWorld (by decide)).1
      (Or.inl (by decide))).1, by decide⟩

/-! ## The patient-self rule and the other roles -/

/-- Past the guards on the user id and the patient id, `GetPatientTimeline` is decided
by the access check. -/
theorem TimelineHandler.GetPatientTimeline_eq (r : Request) (w : World)
    (hu : r.Header.Get "X-User-ID" ≠ "") (ht : r.Query.Get "patient_id" ≠ "") :
    TimelineHandler.GetPatientTimeline r w =
      if TimelineHandler.accessDenied w.db (r.Header.Get "X-User-ID")
          (r.Header.Get "X-User-Role") (r.Query.Get "patient_id") = true then
        (utils.SendError 403 "Access denied", w)
      else (utils.SendSuccess 200 "Timeline retrieved" (some (Payload.visits
        (TimelineRepository.GetVisitsByPatientID w.db (r.Query.Get "patient_id")).1)), w) := by
  unfold TimelineHandler.GetPatientTimeline
  simp [hu, ht, TimelineRepository.GetVisitsByPatientID]

/-- Past the guards on the user id and the patient id, `GetPatientPrescriptions` is
decided by the access check. -/
theorem PrescriptionHandler.GetPatientPrescriptions_eq (r : Request) (w : World)
    (hu : r.Header.Get "X-User-ID" ≠ "") (ht : r.Query.Get "patient_id" ≠ "") :
    PrescriptionHandler.GetPatientPrescriptions r w =
      if TimelineHandler.accessDenied w.db (r.Header.Get "X-User-ID")
          (r.Header.Get "X-User-Role") (r.Query.Get "patient_id") = true then
        (utils.SendError 403 "Access denied", w)
      else (utils.SendSuccess 200 "Prescriptions retrieved" (some (Payload.prescriptions
        (PrescriptionRepository.GetPrescriptionsByPatientID w.db
          (r.Query.Get "patient_id")).1)), w) := by
  unfold PrescriptionHandler.GetPatientPrescriptions
  simp [hu, ht, PrescriptionRepository.GetPrescriptionsByPatientID,
    PrescriptionHandler.accessDenied_eq]

/-- With at most one profile per user, a patient passes the access check exactly for
the id of the profile that carries the user id. -/
theorem accessDenied_patient_iff (db : DB) (huniq : db.UniqueUsers) (u t : String) :
    TimelineHandler.accessDenied db u "patient" t = false ↔
      ∃ pp ∈ db.patient_profiles, pp.UserID = u ∧ pp.ID = t := by
  simp only [TimelineHandler.accessDenied, if_pos,
    TimelineRepository.GetPatientProfileIDByUserID]
  constructor
  · intro h
    cases hf : db.patient_profiles.find? (fun p => decide (p.UserID = u)) with
    | none => simp [sqlGet, hf] at h
    | some pp =>
      have hpp := List.find?_some hf
      simp only [decide_eq_true_eq] at hpp
      simp [sqlGet, hf] at h
      exact ⟨pp, List.mem_of_find?_eq_some hf, hpp, h⟩
  · rintro ⟨pp, hmem, hpu, hpt⟩
    have hf := find_of_nodup_key (fun p : PatientProfile => p.UserID) db.patient_profiles
      huniq.1 pp hmem
    simp only [hpu] at hf
    simp [sqlGet, hf, hpt]

theorem accessDenied_other_role (db : DB) (u role t : String) (hp : role ≠ "patient")
    (hd : role ≠ "doctor") : TimelineHandler.accessDenied db u role t = true := by
  simp [TimelineHandler.accessDenied, hp, hd]

/-- C5, as stated, fails: with a non-empty `patient_id` and an empty trusted `X-User-ID`
the list endpoints answer 401, not 403, both for a caller of role patient (no profile
has the empty user id) and for a caller whose role is neither patient nor doctor. -/
theorem C5_empty_user_id_is_answered_401 :
    (anonymousRequest "nurse").Query.Get "patient_id" = "p-alice" ∧
      (anonymousRequest "nurse").Header.Get "X-User-Role" = "nurse" ∧
      (TimelineHandler.GetPatientTimeline (anonymousRequest "nurse") sampleWorld).1.StatusCode
        = 401 ∧
      (PrescriptionHandler.GetPatientPrescriptions (anonymousRequest "nurse")
        sampleWorld).1.StatusCode = 401 ∧
      (anonymousRequest "patient").Header.Get "X-User-Role" = "patient" ∧
      (∀ pp ∈ sampleWorld.db.patient_profiles,
        pp.UserID ≠ (anonymousRequest "patient").Header.Get "X-User-ID") ∧
      (TimelineHandler.GetPatientTimeline (anonymousRequest "patient")
        sampleWorld).1.StatusCode = 401 ∧
      (PrescriptionHandler.GetPatientPrescriptions (anonymousRequest "patient")
        sampleWorld).1.StatusCode = 401 := by
  refine ⟨by decide, by decide, by decide, by decide, by decide, by decide, by decide,
    by decide⟩

/-- C5, amended: for `GetPatientTimeline` and `GetPatientPrescriptions` with a
non-empty `patient_id` parameter `t`, in a store with at most one profile per user.
With a non-empty trusted `X-User-ID`: a caller of role patient is answered 200 if and
only if a patient profile with the trusted user id exists and its id is `t`, and 403
otherwise; a caller whose role is neither patient nor doctor is answered 403.  With an
empty `X-User-ID` both endpoints answer 401.  The world is unchanged in each case. -/
theorem C5_patient_self_rule (r : Request) (w : World)
    (ht : r.Query.Get "patient_id" ≠ "") (huniq : w.db.UniqueUsers) :
    (r.Header.Get "X-User-ID" ≠ "" → r.Header.Get "X-User-Role" = "patient" →
      (((TimelineHandler.GetPatientTimeline r w).1.StatusCode = 200 ↔
          ∃ pp ∈ w.db.patient_profiles,
            pp.UserID = r.Header.Get "X-User-ID" ∧ pp.ID = r.Query.Get "patient_id") ∧
        ((TimelineHandler.GetPatientTimeline r w).1.StatusCode = 403 ↔
          ¬ ∃ pp ∈ w.db.patient_profiles,
            pp.UserID = r.Header.Get "X-User-ID" ∧ pp.ID = r.Query.Get "patient_id") ∧
        ((PrescriptionHandler.GetPatientPrescriptions r w).1.StatusCode = 200 ↔
          ∃ pp ∈ w.db.patient_profiles,
            pp.UserID = r.Header.Get "X-User-ID" ∧ pp.ID = r.Query.Get "patient_id") ∧
        ((PrescriptionHandler.GetPatientPrescriptions r w).1.StatusCode = 403 ↔
          ¬ ∃ pp ∈ w.db.patient_profiles,
            pp.UserID = r.Header.Get "X-User-ID" ∧ pp.ID = r.Query.Get "patient_id"))) ∧
    (r.Header.Get "X-User-ID" ≠ "" → r.Header.Get "X-User-Role" ≠ "patient" →
      r.Header.Get "X-User-Role" ≠ "doctor" →
      TimelineHandler.GetPatientTimeline r w = (utils.SendError 403 "Access denied", w) ∧
      PrescriptionHandler.GetPatientPrescriptions r w =
        (utils.SendError 403 "Access denied", w)) ∧
    (r.Header.Get "X-User-ID" = "" →
      TimelineHandler.GetPatientTimeline r w = (utils.SendError 401 "Unauthorized", w) ∧
      PrescriptionHandler.GetPatientPrescriptions r w =
        (utils.SendError 401 "Unauthorized", w)) ∧
    (TimelineHandler.GetPatientTimeline r w).2 = w ∧
    (PrescriptionHandler.GetPatientPrescriptions r w).2 = w := by
  have h401 : r.Header.Get "X-User-ID" = "" →
      TimelineHandler.GetPatientTimeline r w = (utils.SendError 401 "Unauthorized", w) ∧
      PrescriptionHandler.GetPatientPrescriptions r w =
        (utils.SendError 401 "Unauthorized", w) := by
    intro hu
    constructor
    · unfold TimelineHandler.GetPatientTimeline; simp [hu]
    · unfold PrescriptionHandler.GetPatientPrescriptions; simp [hu]
  refine ⟨fun hu hrole => ?_, fun hu hp hd => ?_, h401, ?_, ?_⟩
  · have hT := TimelineHandler.GetPatientTimeline_eq r w hu ht
    have hP := PrescriptionHandler.GetPatientPrescriptions_eq r w hu ht
    have hiff := accessDenied_patient_iff w.db huniq (r.Header.Get "X-User-ID")
      (r.Query.Get "patient_id")
    rw [hrole] at hT hP
    by_cases hden : TimelineHandler.accessDenied w.db (r.Header.Get "X-User-ID") "patient"
        (r.Query.Get "patient_id") = true
    · have hno : ¬ ∃ pp ∈ w.db.patient_profiles,
          pp.UserID = r.Header.Get "X-User-ID" ∧ pp.ID = r.Query.Get "patient_id" := by
        intro hex
        rw [hiff.mpr hex] at hden
        exact Bool.false_ne_true hden
      rw [if_pos hden] at hT hP
      rw [hT, hP]
      simp [utils.SendError, utils.SendJSON, hno]
    · simp only [Bool.not_eq_true] at hden
      have hyes := hiff.mp hden
      rw [if_neg (by simp [hden])] at hT hP
      rw [hT, hP]
      simp [utils.SendSuccess, utils.SendJSON, hyes]
  · have hT := TimelineHandler.GetPatientTimeline_eq r w hu ht
    have hP := PrescriptionHandler.GetPatientPrescriptions_eq r w hu ht
    have hden := accessDenied_other_role w.db (r.Header.Get "X-User-ID")
      (r.Header.Get "X-User-Role") (r.Query.Get "patient_id") hp hd
    rw [if_pos hden] at hT hP
    exact ⟨hT, hP⟩
  · by_cases hu : r.Header.Get "X-User-ID" = ""
    · rw [(h401 hu).1]
    · rw [TimelineHandler.GetPatientTimeline_eq r w hu ht]; split <;> rfl
  · by_cases hu : r.Header.Get "X-User-ID" = ""
    · rw [(h401 hu).2]
    · rw [PrescriptionHandler.GetPatientPrescriptions_eq r w hu ht]; split <;> rfl

/-- Witness of C5 amended: alice reads her own timeline (200), is refused carol's (403),
and the hypotheses hold of the sample world. -/
theorem C5_patient_self_rule_witness :
    (patientRequest "p-alice" "v1" "rx1").Query.Get "patient_id" ≠ "" ∧
      sampleWorld.db.UniqueUsers ∧
      (TimelineHandler.GetPatientTimeline (patientRequest "p-alice" "v1" "rx1")
        sampleWorld).1.StatusCode = 200 ∧
      (TimelineHandler.GetPatientTimeline (patientRequest "p-carol" "v1" "rx1")
        sampleWorld).1.StatusCode = 403 ∧
      (∃ pp ∈ sampleWorld.db.patient_profiles,
        pp.UserID = (patientRequest "p-alice" "v1" "rx1").Header.Get "X-User-ID" ∧
          pp.ID = (patientRequest "p-alice" "v1" "rx1").Query.Get "patient_id") :=
  ⟨by decide, by decide, by decide, by decide,
    ((C5_patient_self_rule (patientRequest "p-alice" "v1" "rx1") sampleWorld (by decide)
      (by decide)).1 (by decide) (by decide)).1.mp (by decide)⟩

/-! ## Writes to patient-owned resources -/

/-- C6: for a request with a non-empty `X-User-ID` whose trusted role is not patient
(a doctor in particular), `CreateVisit`, `UpdateVisit`, `DeleteVisit`,
`UploadPrescription` and `DeletePrescription` answer 403 and leave the world (the
tables and the upload directory) as it was, whatever grants the store holds. -/
theorem C6_non_patients_cannot_write (env : Env) (r : Request) (w : World)
    (hu : r.Header.Get "X-User-ID" ≠ "") (hrole : r.Header.Get "X-User-Role" ≠ "patient") :
    TimelineHandler.CreateVisit env r w =
        (utils.SendError 403 "Only patients can add hospital visits", w) ∧
      TimelineHandler.UpdateVisit env r w =
        (utils.SendError 403 "Only patients can update visits", w) ∧
      TimelineHandler.DeleteVisit r w =
        (utils.SendError 403 "Only patients can delete visits", w) ∧
      PrescriptionHandler.UploadPrescription env r w =
        (utils.SendError 403 "Only patients can upload prescriptions", w) ∧
      PrescriptionHandler.DeletePrescription r w =
        (utils.SendError 403 "Only patients can delete prescriptions", w) := by
  refine ⟨?_, ?_, ?_, ?_, ?_⟩
  · unfold TimelineHandler.CreateVisit; simp [hu, hrole]
  · unfold TimelineHandler.UpdateVisit; simp [hu, hrole]
  · unfold TimelineHandler.DeleteVisit; simp [hu, hrole]
  · unfold PrescriptionHandler.UploadPrescription; simp [hu, hrole]
  · unfold PrescriptionHandler.DeletePrescription; simp [hu, hrole]

/-- Witness of C6: doctor bob, holding an active grant of alice, is refused each write. -/
theorem C6_non_patients_witness :
    doctorRequest.Header.Get "X-User-ID" ≠ "" ∧
      doctorRequest.Header.Get "X-User-Role" ≠ "patient" ∧
      (TimelineHandler.CreateVisit sampleEnv doctorRequest grantedWorld =
          (utils.SendError 403 "Only patients can add hospital visits", grantedWorld) ∧
        TimelineHandler.UpdateVisit sampleEnv doctorRequest grantedWorld =
          (utils.SendError 403 "Only patients can update visits", grantedWorld) ∧
        TimelineHandler.DeleteVisit doctorRequest grantedWorld =
          (utils.SendError 403 "Only patients can delete visits", grantedWorld) ∧
        PrescriptionHandler.UploadPrescription sampleEnv doctorRequest grantedWorld =
          (utils.SendError 403 "Only patients can upload prescriptions", grantedWorld) ∧
        PrescriptionHandler.DeletePrescription doctorRequest grantedWorld =
          (utils.SendError 403 "Only patients can delete prescriptions", grantedWorld)) :=
  ⟨by decide, by decide,
    C6_non_patients_cannot_write sampleEnv doctorRequest grantedWorld (by decide) (by decide)⟩

/-- Filtering by `q` forgets an earlier filter by `p` that keeps every row `q` keeps. -/
theorem filter_filter_of_imp {α : Type} (p q : α → Bool) (l : List α)
    (h : ∀ x ∈ l, q x = true → p x = true) :
    (l.filter p).filter q = l.filter q := by
  induction l with
  | nil => rfl
  | cons a l ih =>
    have ih1 := ih (fun x hx => h x (List.mem_cons_of_mem a hx))
    by_cases hq : q a = true
    · have hp := h a (List.mem_cons_self a l) hq
      rw [List.filter_cons_of_pos hp, List.filter_cons_of_pos hq, List.filter_cons_of_pos hq,
        ih1]
    · by_cases hp : p a = true
      · rw [List.filter_cons_of_pos hp, List.filter_cons_of_neg hq,
          List.filter_cons_of_neg hq, ih1]
      · rw [List.filter_cons_of_neg hp, List.filter_cons_of_neg hq, ih1]

/-- Rewriting rows that `q` drops, into rows that `q` drops, does not show under `q`. -/
theorem filter_map_of_dropped {α : Type} (c : α → Prop) [DecidablePred c] (q : α → Bool)
    (f : α → α) (l : List α) (h : ∀ x ∈ l, c x → q x = false ∧ q (f x) = false) :
    (l.map (fun x => if c x then f x else x)).filter q = l.filter q := by
  induction l with
  | nil => rfl
  | cons a l ih =>
    have ih1 := ih (fun x hx => h x (List.mem_cons_of_mem a hx))
    rw [List.map_cons]
    by_cases hc : c a
    · obtain ⟨h1, h2⟩ := h a (List.mem_cons_self a l) hc
      rw [if_pos hc, List.filter_cons_of_neg (by simp [h2]),
        List.filter_cons_of_neg (by simp [h1]), ih1]
    · rw [if_neg hc]
      by_cases hq : q a = true
      · rw [List.filter_cons_of_pos hq, List.filter_cons_of_pos hq, ih1]
      · rw [List.filter_cons_of_neg hq, List.filter_cons_of_neg hq, ih1]

/-- What `UpdateVisit` does to the world: nothing, or the repository update of the
visit whose id was asked, after both ownership lookups succeeded and agreed. -/
theorem TimelineHandler.UpdateVisit_world (env : Env) (r : Request) (w : World) :
    (TimelineHandler.UpdateVisit env r w).2 = w ∨
      ∃ pp v visit,
        w.db.patient_profiles.find? (fun p => decide (p.UserID = r.Header.Get "X-User-ID"))
          = some pp ∧
        w.db.hospital_visits.find? (fun v => decide (v.ID = r.Query.Get "visit_id"))
          = some v ∧
        v.PatientID = pp.ID ∧
        (TimelineHandler.UpdateVisit env r w).2 =
          { w with db := (TimelineRepository.UpdateVisit env w.db (r.Query.Get "visit_id")
              visit).1 } := by
  unfold TimelineHandler.UpdateVisit
  by_cases hu : r.Header.Get "X-User-ID" = ""
  · left; simp [hu]
  by_cases hrole : r.Header.Get "X-User-Role" = "patient"
  swap
  · left; simp [hu, hrole]
  by_cases hv : r.Query.Get "visit_id" = ""
  · left; simp [hu, hrole, hv]
  cases hfp : w.db.patient_profiles.find?
      (fun p => decide (p.UserID = r.Header.Get "X-User-ID")) with
  | none =>
    left; simp [hu, hrole, hv, TimelineRepository.GetPatientProfileIDByUserID, sqlGet, hfp]
  | some pp =>
    cases hfv : w.db.hospital_visits.find?
        (fun v => decide (v.ID = r.Query.Get "visit_id")) with
    | none =>
      left
      simp [hu, hrole, hv, TimelineRepository.GetPatientProfileIDByUserID,
        TimelineRepository.GetPatientIDByVisitID, sqlGet, hfp, hfv]
    | some v =>
      by_cases hown : v.PatientID = pp.ID
      swap
      · left
        simp [hu, hrole, hv, TimelineRepository.GetPatientProfileIDByUserID,
          TimelineRepository.GetPatientIDByVisitID, sqlGet, hfp, hfv, hown]
      cases hj : jsonDecode r.Body with
      | none =>
        left
        simp [hu, hrole, hv, TimelineRepository.GetPatientProfileIDByUserID,
          TimelineRepository.GetPatientIDByVisitID, sqlGet, hfp, hfv, hown, hj]
      | some req =>
        cases htp : env.timeParse (jsonField req "visit_date") with
        | none =>
          left
          simp [hu, hrole, hv, TimelineRepository.GetPatientProfileIDByUserID,
            TimelineRepository.GetPatientIDByVisitID, sqlGet, hfp, hfv, hown, hj, htp]
        | some visitDate =>
          right
          refine ⟨pp, v,
            { (default : HospitalVisit) with
              HospitalName := jsonField req "hospital_name", VisitDate := visitDate,
              Reason := jsonField req "reason", Notes := jsonField req "notes" },
            rfl, rfl, hown, ?_⟩
          simp [hu, hrole, hv, TimelineRepository.GetPatientProfileIDByUserID,
            TimelineRepository.GetPatientIDByVisitID, sqlGet, hfp, hfv, hown, hj, htp,
            TimelineRepository.UpdateVisit]

/-- What `DeleteVisit` does to the world: nothing, or the repository deletion of the
visit whose id was asked, after both ownership lookups succeeded and agreed. -/
theorem TimelineHandler.DeleteVisit_world (r : Request) (w : World) :
    (TimelineHandler.DeleteVisit r w).2 = w ∨
      ∃ pp v,
        w.db.patient_profiles.find? (fun p => decide (p.UserID = r.Header.Get "X-User-ID"))
          = some pp ∧
        w.db.hospital_visits.find? (fun v => decide (v.ID = r.Query.Get "visit_id"))
          = some v ∧
        v.PatientID = pp.ID ∧
        (TimelineHandler.DeleteVisit r w).2 =
          { w with db := (TimelineRepository.DeleteVisit w.db (r.Query.Get "visit_id")).1 } := by
  unfold TimelineHandler.DeleteVisit
  by_cases hu : r.Header.Get "X-User-ID" = ""
  · left; simp [hu]
  by_cases hrole : r.Header.Get "X-User-Role" = "patient"
  swap
  · left; simp [hu, hrole]
  by_cases hv : r.Query.Get "visit_id" = ""
  · left; simp [hu, hrole, hv]
  cases hfp : w.db.patient_profiles.find?
      (fun p => decide (p.UserID = r.Header.Get "X-User-ID")) with
  | none =>
    left; simp [hu, hrole, hv, TimelineRepository.GetPatientProfileIDByUserID, sqlGet, hfp]
  | some pp =>
    cases hfv : w.db.hospital_visits.find?
        (fun v => decide (v.ID = r.Query.Get "visit_id")) with
    | none =>
      left
      simp [hu, hrole, hv, TimelineRepository.GetPatientProfileIDByUserID,
        TimelineRepository.GetPatientIDByVisitID, sqlGet, hfp, hfv]
    | some v =>
      by_cases hown : v.PatientID = pp.ID
      · right
        refine ⟨pp, v, rfl, rfl, hown, ?_⟩
        simp [hu, hrole, hv, TimelineRepository.GetPatientProfileIDByUserID,
          TimelineRepository.GetPatientIDByVisitID, sqlGet, hfp, hfv, hown,
          TimelineRepository.DeleteVisit]
      · left
        simp [hu, hrole, hv, TimelineRepository.GetPatientProfileIDByUserID,
          TimelineRepository.GetPatientIDByVisitID, sqlGet, hfp, hfv, hown]

/-- What `DeletePrescription` does to the world: nothing, or the repository deletion of
the prescription whose id was asked together with its file, after both ownership
lookups succeeded and agreed. -/
theorem PrescriptionHandler.DeletePrescription_world (r : Request) (w : World) :
    (PrescriptionHandler.DeletePrescription r w).2 = w ∨
      ∃ pp p,
        w.db.patient_profiles.find? (fun p => decide (p.UserID = r.Header.Get "X-User-ID"))
          = some pp ∧
        w.db.prescriptions.find? (fun p => decide (p.ID = r.Query.Get "id")) = some p ∧
        p.PatientID = pp.ID ∧
        (PrescriptionHandler.DeletePrescription r w).2 =
          { db := (PrescriptionRepository.DeletePrescription w.db (r.Query.Get "id")).1,
            uploads := removeFile w.uploads p.FilePath } := by
  unfold PrescriptionHandler.DeletePrescription
  by_cases hu : r.Header.Get "X-User-ID" = ""
  · left; simp [hu]
  by_cases hrole : r.Header.Get "X-User-Role" = "patient"
  swap
  · left; simp [hu, hrole]
  by_cases hv : r.Query.Get "id" = ""
  · left; simp [hu, hrole, hv]
  cases hfv : w.db.prescriptions.find? (fun p => decide (p.ID = r.Query.Get "id")) with
  | none =>
    left; simp [hu, hrole, hv, PrescriptionRepository.GetPrescriptionByID, sqlGet, hfv]
  | some p =>
    cases hfp : w.db.patient_profiles.find?
        (fun p => decide (p.UserID = r.Header.Get "X-User-ID")) with
    | none =>
      left
      simp [hu, hrole, hv, PrescriptionRepository.GetPatientProfileIDByUserID,
        PrescriptionRepository.GetPrescriptionByID, sqlGet, hfp, hfv]
    | some pp =>
      by_cases hown : p.PatientID = pp.ID
      · right
        refine ⟨pp, p, rfl, rfl, hown, ?_⟩
        simp [hu, hrole, hv, PrescriptionRepository.GetPatientProfileIDByUserID,
          PrescriptionRepository.GetPrescriptionByID, sqlGet, hfp, hfv, hown,
          PrescriptionRepository.DeletePrescription]
      · left
        simp [hu, hrole, hv, PrescriptionRepository.GetPatientProfileIDByUserID,
          PrescriptionRepository.GetPrescriptionByID, sqlGet, hfp, hfv, hown]

/-- C7: for a patient caller with profile `pp`, in a store that satisfies the schema
(one profile per user, ids as primary keys, no empty identifier): `UpdateVisit` and
`DeleteVisit` on a visit, and `DeletePrescription` on a prescription, whose
`patient_id` is not `pp.ID` answer 403 and leave the whole world unchanged; and
whatever the request, the rows whose `patient_id` is not `pp.ID` are the same before
and after each of the three handlers, so a row is modified or deleted only when its
`patient_id` is the caller's own profile id. -/
theorem C7_patients_write_only_their_rows (env : Env) (r : Request) (w : World)
    (pp : PatientProfile) (hrole : r.Header.Get "X-User-Role" = "patient")
    (hpp : pp ∈ w.db.patient_profiles) (hcaller : pp.UserID = r.Header.Get "X-User-ID")
    (huniq : w.db.UniqueUsers) (hpk : w.db.PrimaryKeys) (hids : w.db.IdsNonEmpty) :
    (∀ v ∈ w.db.hospital_visits, v.ID = r.Query.Get "visit_id" → v.PatientID ≠ pp.ID →
      TimelineHandler.UpdateVisit env r w = (utils.SendError 403 "Access denied", w) ∧
      TimelineHandler.DeleteVisit r w = (utils.SendError 403 "Access denied", w)) ∧
    (∀ p ∈ w.db.prescriptions, p.ID = r.Query.Get "id" → p.PatientID ≠ pp.ID →
      PrescriptionHandler.DeletePrescription r w =
        (utils.SendError 403 "Access denied", w)) ∧
    (TimelineHandler.UpdateVisit env r w).2.db.hospital_visits.filter
        (fun v => decide (v.PatientID ≠ pp.ID)) =
      w.db.hospital_visits.filter (fun v => decide (v.PatientID ≠ pp.ID)) ∧
    (TimelineHandler.DeleteVisit r w).2.db.hospital_visits.filter
        (fun v => decide (v.PatientID ≠ pp.ID)) =
      w.db.hospital_visits.filter (fun v => decide (v.PatientID ≠ pp.ID)) ∧
    (PrescriptionHandler.DeletePrescription r w).2.db.prescriptions.filter
        (fun p => decide (p.PatientID ≠ pp.ID)) =
      w.db.prescriptions.filter (fun p => decide (p.PatientID ≠ pp.ID)) := by
  have hu : r.Header.Get "X-User-ID" ≠ "" := hcaller ▸ (hids.1 pp hpp).2
  have hfp : w.db.patient_profiles.find?
      (fun p => decide (p.UserID = r.Header.Get "X-User-ID")) = some pp := by
    have := find_of_nodup_key (fun p : PatientProfile => p.UserID) w.db.patient_profiles
      huniq.1 pp hpp
    simpa only [hcaller] using this
  have hvis : ∀ v ∈ w.db.hospital_visits, v.ID = r.Query.Get "visit_id" →
      w.db.hospital_visits.find? (fun x => decide (x.ID = r.Query.Get "visit_id")) = some v := by
    intro v hv hid
    have := find_of_nodup_key (fun x : HospitalVisit => x.ID) w.db.hospital_visits hpk.1 v hv
    simpa only [hid] using this
  have hpre : ∀ p ∈ w.db.prescriptions, p.ID = r.Query.Get "id" →
      w.db.prescriptions.find? (fun x => decide (x.ID = r.Query.Get "id")) = some p := by
    intro p hp hid
    have := find_of_nodup_key (fun x : Prescription => x.ID) w.db.prescriptions hpk.2 p hp
    simpa only [hid] using this
  refine ⟨fun v hv hid hne => ?_, fun p hp hid hne => ?_, ?_, ?_, ?_⟩
  · have hq : r.Query.Get "visit_id" ≠ "" := hid ▸ hids.2.2.1 v hv
    have hfv := hvis v hv hid
    constructor
    · unfold TimelineHandler.UpdateVisit
      simp [hu, hrole, hq, TimelineRepository.GetPatientProfileIDByUserID,
        TimelineRepository.GetPatientIDByVisitID, sqlGet, hfp, hfv, hne]
    · unfold TimelineHandler.DeleteVisit
      simp [hu, hrole, hq, TimelineRepository.GetPatientProfileIDByUserID,
        TimelineRepository.GetPatientIDByVisitID, sqlGet, hfp, hfv, hne]
  · have hq : r.Query.Get "id" ≠ "" := hid ▸ hids.2.2.2 p hp
    have hfv := hpre p hp hid
    unfold PrescriptionHandler.DeletePrescription
    simp [hu, hrole, hq, PrescriptionRepository.GetPatientProfileIDByUserID,
      PrescriptionRepository.GetPrescriptionByID, sqlGet, hfp, hfv, hne]
  · rcases TimelineHandler.UpdateVisit_world env r w with h | ⟨pp1, v, visit, h1, h2, h3, h4⟩
    · rw [h]
    · rw [hfp] at h1
      cases h1
      have hown : ∀ x ∈ w.db.hospital_visits, x.ID = r.Query.Get "visit_id" →
          x.PatientID = pp.ID := by
        intro x hx hid
        have := hvis x hx hid
        rw [h2] at this
        cases this
        exact h3
      rw [h4]
      simp only [TimelineRepository.UpdateVisit, h2]
      exact filter_map_of_dropped (fun x : HospitalVisit => x.ID = r.Query.Get "visit_id")
        _ _ _ (fun x hx hc => by
          have := hown x hx hc
          simp [this])
  · rcases TimelineHandler.DeleteVisit_world r w with h | ⟨pp1, v, h1, h2, h3, h4⟩
    · rw [h]
    · rw [hfp] at h1
      cases h1
      have hown : ∀ x ∈ w.db.hospital_visits, x.ID = r.Query.Get "visit_id" →
          x.PatientID = pp.ID := by
        intro x hx hid
        have := hvis x hx hid
        rw [h2] at this
        cases this
        exact h3
      rw [h4]
      simp only [TimelineRepository.DeleteVisit]
      exact filter_filter_of_imp _ _ _ (fun x hx hq => by
        simp only [decide_eq_true_eq] at hq ⊢
        exact fun hid => hq (hown x hx hid))
  · rcases PrescriptionHandler.DeletePrescription_world r w with
      h | ⟨pp1, p, h1, h2, h3, h4⟩
    · rw [h]
    · rw [hfp] at h1
      cases h1
      have hown : ∀ x ∈ w.db.prescriptions, x.ID = r.Query.Get "id" →
          x.PatientID = pp.ID := by
        intro x hx hid
        have := hpre x hx hid
        rw [h2] at this
        cases this
        exact h3
      rw [h4]
      simp only [PrescriptionRepository.DeletePrescription]
      exact filter_filter_of_imp _ _ _ (fun x hx hq => by
        simp only [decide_eq_true_eq] at hq ⊢
        exact fun hid => hq (hown x hx hid))

/-- Witness of C7: alice asks to update carol's visit `v2`; the hypotheses hold of the
two-patient world, and the answer is 403 with the world unchanged. -/
theorem C7_patients_write_witness :
    (patientRequest "p-carol" "v2" "rx2").Header.Get "X-User-Role" = "patient" ∧
      aliceProfile ∈ twoPatientWorld.db.patient_profiles ∧
      aliceProfile.UserID = (patientRequest "p-carol" "v2" "rx2").Header.Get "X-User-ID" ∧
      twoPatientWorld.db.UniqueUsers ∧ twoPatientWorld.db.PrimaryKeys ∧
      twoPatientWorld.db.IdsNonEmpty ∧
      TimelineHandler.UpdateVisit sampleEnv (patientRequest "p-carol" "v2" "rx2")
        twoPatientWorld = (utils.SendError 403 "Access denied", twoPatientWorld) :=
  ⟨by decide, by decide, by decide, by decide, by decide, by decide,
    ((C7_patients_write_only_their_rows sampleEnv (patientRequest "p-carol" "v2" "rx2")
      twoPatientWorld aliceProfile (by decide) (by decide) (by decide) (by decide)
      (by decide) (by decide)).1 carolVisit (by decide) (by decide) (by decide)).1⟩

/-! ## The permission store -/

theorem GrantAccess_tables (env : Env) (db : DB) (p d : String) :
    (PatientRepository.GrantAccess env db p d).2 = none ∧
      (PatientRepository.GrantAccess env db p d).1.patient_profiles = db.patient_profiles ∧
      (PatientRepository.GrantAccess env db p d).1.doctor_profiles = db.doctor_profiles ∧
      (PatientRepository.GrantAccess env db p d).1.hospital_visits = db.hospital_visits ∧
      (PatientRepository.GrantAccess env db p d).1.prescriptions = db.prescriptions := by
  unfold PatientRepository.GrantAccess
  simp only []
  split <;> exact ⟨rfl, rfl, rfl, rfl, rfl⟩

/-- After `GrantAccess(p, d)` every row of the pair is active with `revoked_at` NULL. -/
theorem GrantAccess_rows_active (env : Env) (db : DB) (p d : String) :
    ∀ g ∈ (PatientRepository.GrantAccess env db p d).1.doctor_access_permissions,
      g.PatientID = p → g.DoctorID = d → g.IsActive = true ∧ g.RevokedAt = none := by
  intro g hg hp hd
  unfold PatientRepository.GrantAccess at hg
  simp only [] at hg
  split at hg
  · simp only [List.mem_map] at hg
    obtain ⟨g0, _, hg0⟩ := hg
    by_cases hc : (decide (g0.PatientID = p) && decide (g0.DoctorID = d)) = true
    · rw [if_pos hc] at hg0
      subst hg0
      exact ⟨rfl, rfl⟩
    · rw [if_neg hc] at hg0
      subst hg0
      exact absurd (by simp [hp, hd]) hc
  · simp only [List.mem_append, List.mem_singleton] at hg
    rcases hg with hg | hg
    · rename_i hno
      exfalso
      apply hno
      simp only [List.any_eq_true]
      exact ⟨g, hg, by simp [hp, hd]⟩
    · subst hg
      exact ⟨rfl, rfl⟩

/-- After `GrantAccess(p, d)` the pair has a row. -/
theorem GrantAccess_hasGrantRow (env : Env) (db : DB) (p d : String) :
    (PatientRepository.GrantAccess env db p d).1.hasGrantRow p d = true := by
  unfold PatientRepository.GrantAccess DB.hasGrantRow
  simp only []
  split
  · rename_i hany
    simp only [List.any_eq_true] at hany ⊢
    obtain ⟨g, hg, hc⟩ := hany
    refine ⟨_, List.mem_map_of_mem _ hg, ?_⟩
    rw [if_pos hc]
    simpa using hc
  · simp

/-- The query of the access checks on a pair that has rows, all of them with the same
`is_active`, finds a row and returns that value. -/
theorem sqlGet_isActive (db : DB) (p d : String) (b : Bool) (hrow : db.hasGrantRow p d = true)
    (hall : ∀ g ∈ db.doctor_access_permissions, g.PatientID = p → g.DoctorID = d →
      g.IsActive = b) :
    sqlGet db.doctor_access_permissions
        (fun g => decide (g.PatientID = p) && decide (g.DoctorID = d)) (fun g => g.IsActive)
        = (b, none) ∧
      sqlGet db.doctor_access_permissions
        (fun g => decide (g.DoctorID = d) && decide (g.PatientID = p)) (fun g => g.IsActive)
        = (b, none) := by
  simp only [DB.hasGrantRow, List.any_eq_true] at hrow
  obtain ⟨g0, hg0, hc0⟩ := hrow
  constructor
  · cases hf : db.doctor_access_permissions.find?
        (fun g => decide (g.PatientID = p) && decide (g.DoctorID = d)) with
    | none =>
      rw [List.find?_eq_none] at hf
      exact absurd hc0 (hf g0 hg0)
    | some g =>
      have hc := List.find?_some hf
      simp only [Bool.and_eq_true, decide_eq_true_eq] at hc
      rw [sqlGet_of_find_some _ _ _ g hf, hall g (List.mem_of_find?_eq_some hf) hc.1 hc.2]
  · cases hf : db.doctor_access_permissions.find?
        (fun g => decide (g.DoctorID = d) && decide (g.PatientID = p)) with
    | none =>
      rw [List.find?_eq_none] at hf
      exact absurd (by simpa [and_comm] using hc0) (hf g0 hg0)
    | some g =>
      have hc := List.find?_some hf
      simp only [Bool.and_eq_true, decide_eq_true_eq] at hc
      rw [sqlGet_of_find_some _ _ _ g hf, hall g (List.mem_of_find?_eq_some hf) hc.2 hc.1]

theorem RevokeAccess_tables (env : Env) (db : DB) (p d : String) :
    (PatientRepository.RevokeAccess env db p d).2 = none ∧
      (PatientRepository.RevokeAccess env db p d).1.patient_profiles = db.patient_profiles ∧
      (PatientRepository.RevokeAccess env db p d).1.doctor_profiles = db.doctor_profiles ∧
      (PatientRepository.RevokeAccess env db p d).1.hospital_visits = db.hospital_visits ∧
      (PatientRepository.RevokeAccess env db p d).1.prescriptions = db.prescriptions :=
  ⟨rfl, rfl, rfl, rfl, rfl⟩

/-- After `RevokeAccess(p, d)` every row of the pair is inactive. -/
theorem RevokeAccess_rows_inactive (env : Env) (db : DB) (p d : String) :
    ∀ g ∈ (PatientRepository.RevokeAccess env db p d).1.doctor_access_permissions,
      g.PatientID = p → g.DoctorID = d → g.IsActive = false := by
  intro g hg hp hd
  simp only [PatientRepository.RevokeAccess, List.mem_map] at hg
  obtain ⟨g0, _, hg0⟩ := hg
  by_cases hc : g0.PatientID = p ∧ g0.DoctorID = d
  · rw [if_pos hc] at hg0
    subst hg0
    rfl
  · rw [if_neg hc] at hg0
    subst hg0
    exact absurd ⟨hp, hd⟩ hc

/-- The rows of a pair are kept by `RevokeAccess`. -/
theorem RevokeAccess_hasGrantRow (env : Env) (db : DB) (p d : String)
    (h : db.hasGrantRow p d = true) :
    (PatientRepository.RevokeAccess env db p d).1.hasGrantRow p d = true := by
  simp only [DB.hasGrantRow, List.any_eq_true] at h ⊢
  obtain ⟨g, hg, hc⟩ := h
  simp only [Bool.and_eq_true, decide_eq_true_eq] at hc
  refine ⟨_, List.mem_map_of_mem _ hg, ?_⟩
  rw [if_pos hc]
  simp [hc]

/-- Without a row of the pair `RevokeAccess` changes nothing. -/
theorem RevokeAccess_no_row (env : Env) (db : DB) (p d : String)
    (h : db.hasGrantRow p d = false) :
    (PatientRepository.RevokeAccess env db p d).1 = db := by
  have hmap : db.doctor_access_permissions.map (fun g =>
      if g.PatientID = p ∧ g.DoctorID = d then
        { g with IsActive := false, RevokedAt := some env.now }
      else g) = db.doctor_access_permissions := by
    conv_rhs => rw [← List.map_id db.doctor_access_permissions]
    apply List.map_congr_left
    intro g hg
    have hno : ¬ (g.PatientID = p ∧ g.DoctorID = d) := by
      intro hc
      have : db.hasGrantRow p d = true := by
        simp only [DB.hasGrantRow, List.any_eq_true]
        exact ⟨g, hg, by simp [hc]⟩
      rw [h] at this
      exact Bool.false_ne_true this
    rw [if_neg hno]
    rfl
  simp only [PatientRepository.RevokeAccess, hmap]

/-- The doctor's access check on a store where the user's profile is `d` and the pair
has rows that all carry the same `is_active`. -/
theorem CheckDoctorAccess_of_rows (db : DB) (d : DoctorProfile) (p : String) (b : Bool)
    (hd : d ∈ db.doctor_profiles) (hnd : (db.doctor_profiles.map (fun x => x.UserID)).Nodup)
    (hrow : db.hasGrantRow p d.ID = true)
    (hall : ∀ g ∈ db.doctor_access_permissions, g.PatientID = p → g.DoctorID = d.ID →
      g.IsActive = b) :
    TimelineRepository.CheckDoctorAccess db d.UserID p = (b, none) := by
  have hf := find_of_nodup_key (fun x : DoctorProfile => x.UserID) db.doctor_profiles hnd d hd
  unfold TimelineRepository.CheckDoctorAccess
  rw [sqlGet_of_find_some _ _ _ d hf]
  simp only [ne_eq, not_true_eq_false, if_false]
  rw [(sqlGet_isActive db p d.ID b hrow hall).2]
  simp

/-- C8: in a store that satisfies the schema (one profile per user, no empty
identifier) where patient profile `pp` exists and the user of the request has doctor
profile `d`: after `GrantAccess(pp.ID, d.ID)`, which succeeds, `GetPatientTimeline` by
that user with role doctor and `patient_id = pp.ID` is answered 200 (with the visits
of the patient), and after a subsequent `RevokeAccess(pp.ID, d.ID)`, which succeeds,
the same request is answered 403. -/
theorem C8_grant_then_revoke (env1 env2 : Env) (r : Request) (w : World)
    (pp : PatientProfile) (d : DoctorProfile)
    (hpp : pp ∈ w.db.patient_profiles) (hd : d ∈ w.db.doctor_profiles)
    (hu : r.Header.Get "X-User-ID" = d.UserID) (hrole : r.Header.Get "X-User-Role" = "doctor")
    (hq : r.Query.Get "patient_id" = pp.ID)
    (huniq : w.db.UniqueUsers) (hids : w.db.IdsNonEmpty) :
    (PatientRepository.GrantAccess env1 w.db pp.ID d.ID).2 = none ∧
      (TimelineHandler.GetPatientTimeline r
        { w with db := (PatientRepository.GrantAccess env1 w.db pp.ID d.ID).1 }).1.StatusCode
        = 200 ∧
      (TimelineHandler.GetPatientTimeline r
        { w with db := (PatientRepository.GrantAccess env1 w.db pp.ID d.ID).1 }).1.carriesData
        = true ∧
      (PatientRepository.RevokeAccess env2
        (PatientRepository.GrantAccess env1 w.db pp.ID d.ID).1 pp.ID d.ID).2 = none ∧
      (TimelineHandler.GetPatientTimeline r
        { w with db := (PatientRepository.RevokeAccess env2
          (PatientRepository.GrantAccess env1 w.db pp.ID d.ID).1 pp.ID d.ID).1 }).1
        = utils.SendError 403 "Access denied" := by
  have hune : r.Header.Get "X-User-ID" ≠ "" := hu ▸ (hids.2.1 d hd).2
  have hqne : r.Query.Get "patient_id" ≠ "" := hq ▸ (hids.1 pp hpp).1
  obtain ⟨hg0, _, hg2, _, _⟩ := GrantAccess_tables env1 w.db pp.ID d.ID
  obtain ⟨hr0, _, hr2, _, _⟩ := RevokeAccess_tables env2
    (PatientRepository.GrantAccess env1 w.db pp.ID d.ID).1 pp.ID d.ID
  have hrow1 := GrantAccess_hasGrantRow env1 w.db pp.ID d.ID
  have hacc1 := CheckDoctorAccess_of_rows
    (PatientRepository.GrantAccess env1 w.db pp.ID d.ID).1 d pp.ID true
    (by rw [hg2]; exact hd) (by rw [hg2]; exact huniq.2) hrow1
    (fun g hg h1 h2 => (GrantAccess_rows_active env1 w.db pp.ID d.ID g hg h1 h2).1)
  have hacc2 := CheckDoctorAccess_of_rows
    (PatientRepository.RevokeAccess env2
      (PatientRepository.GrantAccess env1 w.db pp.ID d.ID).1 pp.ID d.ID).1 d pp.ID false
    (by rw [hr2, hg2]; exact hd) (by rw [hr2, hg2]; exact huniq.2)
    (RevokeAccess_hasGrantRow env2 _ pp.ID d.ID hrow1)
    (RevokeAccess_rows_inactive env2 _ pp.ID d.ID)
  refine ⟨hg0, ?_, ?_, hr0, ?_⟩
  · rw [TimelineHandler.GetPatientTimeline_eq r _ hune hqne]
    simp [TimelineHandler.accessDenied, hrole, hu, hq, hacc1, utils.SendSuccess,
      utils.SendJSON]
  · rw [TimelineHandler.GetPatientTimeline_eq r _ hune hqne]
    simp [TimelineHandler.accessDenied, hrole, hu, hq, hacc1, utils.SendSuccess,
      utils.SendJSON, HTTPResponse.carriesData]
  · rw [TimelineHandler.GetPatientTimeline_eq r _ hune hqne]
    simp [TimelineHandler.accessDenied, hrole, hu, hq, hacc2]

/-- Witness of C8: in the sample world alice grants bob, bob reads her timeline (200),
alice revokes, bob is refused (403). -/
theorem C8_grant_then_revoke_witness :
    aliceProfile ∈ sampleWorld.db.patient_profiles ∧
      bobProfile ∈ sampleWorld.db.doctor_profiles ∧
      doctorRequest.Header.Get "X-User-ID" = bobProfile.UserID ∧
      doctorRequest.Header.Get "X-User-Role" = "doctor" ∧
      doctorRequest.Query.Get "patient_id" = aliceProfile.ID ∧
      sampleWorld.db.UniqueUsers ∧ sampleWorld.db.IdsNonEmpty ∧
      (TimelineHandler.GetPatientTimeline doctorRequest
        { sampleWorld with db := (PatientRepository.GrantAccess sampleEnv sampleWorld.db
            aliceProfile.ID bobProfile.ID).1 }).1.StatusCode = 200 ∧
      (TimelineHandler.GetPatientTimeline doctorRequest
        { sampleWorld with db := (PatientRepository.RevokeAccess laterEnv
          (PatientRepository.GrantAccess sampleEnv sampleWorld.db aliceProfile.ID
            bobProfile.ID).1 aliceProfile.ID bobProfile.ID).1 }).1
        = utils.SendError 403 "Access denied" :=
  ⟨by decide, by decide, by decide, by decide, by decide, by decide, by decide,
    (C8_grant_then_revoke sampleEnv laterEnv doctorRequest sampleWorld aliceProfile
      bobProfile (by decide) (by decide) (by decide) (by decide) (by decide) (by decide)
      (by decide)).2.1,
    (C8_grant_then_revoke sampleEnv laterEnv doctorRequest sampleWorld aliceProfile
      bobProfile (by decide) (by decide) (by decide) (by decide) (by decide) (by decide)
      (by decide)).2.2.2.2⟩

/-- C9: `GrantAccess(p, d)` followed by `GrantAccess(p, d)` leaves the store in the
state of the single first `GrantAccess(p, d)` in every column except `granted_at`,
both calls succeed, and `CheckAccess(p, d)` returns true without error after the
first call and after the second. -/
theorem C9_grant_is_idempotent (env1 env2 : Env) (db : DB) (p d : String) :
    (PatientRepository.GrantAccess env2
        (PatientRepository.GrantAccess env1 db p d).1 p d).1.exceptGrantedAt =
      (PatientRepository.GrantAccess env1 db p d).1.exceptGrantedAt ∧
    (PatientRepository.GrantAccess env1 db p d).2 = none ∧
    (PatientRepository.GrantAccess env2
      (PatientRepository.GrantAccess env1 db p d).1 p d).2 = none ∧
    PatientRepository.CheckAccess (PatientRepository.GrantAccess env1 db p d).1 p d =
      (true, none) ∧
    PatientRepository.CheckAccess (PatientRepository.GrantAccess env2
      (PatientRepository.GrantAccess env1 db p d).1 p d).1 p d = (true, none) := by
  have hrow1 := GrantAccess_hasGrantRow env1 db p d
  have hact1 := GrantAccess_rows_active env1 db p d
  have hcheck : ∀ (e : Env) (db0 : DB),
      PatientRepository.CheckAccess (PatientRepository.GrantAccess e db0 p d).1 p d =
        (true, none) := by
    intro e db0
    unfold PatientRepository.CheckAccess
    rw [(sqlGet_isActive _ p d true (GrantAccess_hasGrantRow e db0 p d)
      (fun g hg h1 h2 => (GrantAccess_rows_active e db0 p d g hg h1 h2).1)).1]
    simp
  refine ⟨?_, (GrantAccess_tables env1 db p d).1, (GrantAccess_tables env2 _ p d).1,
    hcheck env1 db, hcheck env2 _⟩
  generalize PatientRepository.GrantAccess env1 db p d = res1 at hrow1 hact1 ⊢
  unfold PatientRepository.GrantAccess
  simp only [DB.hasGrantRow] at hrow1
  simp only [hrow1, if_true, DB.exceptGrantedAt, List.map_map]
  congr 1
  apply List.map_congr_left
  intro g hg
  simp only [Function.comp]
  by_cases hc : (decide (g.PatientID = p) && decide (g.DoctorID = d)) = true
  · rw [if_pos hc]
    simp only [Bool.and_eq_true, decide_eq_true_eq] at hc
    obtain ⟨ha, hr⟩ := hact1 g hg hc.1 hc.2
    simp only [DoctorAccessPermission.exceptGrantedAt]
    rw [← ha, ← hr]
  · rw [if_neg hc]

/-- C10, as stated, fails: on a store with an active grant of alice to bob, revoking at
time 7 and again at time 9 leaves `revoked_at = 9`, while the single revocation at
time 7 leaves `revoked_at = 7`: the two stores differ. -/
theorem C10_second_revoke_moves_revoked_at :
    (PatientRepository.RevokeAccess laterEnv
        (PatientRepository.RevokeAccess sampleEnv grantedWorld.db "p-alice" "d-bob").1
        "p-alice" "d-bob").1 ≠
      (PatientRepository.RevokeAccess sampleEnv grantedWorld.db "p-alice" "d-bob").1 ∧
    (PatientRepository.RevokeAccess laterEnv
        (PatientRepository.RevokeAccess sampleEnv grantedWorld.db "p-alice" "d-bob").1
        "p-alice" "d-bob").1.doctor_access_permissions.map (fun g => g.RevokedAt) = [some 9] ∧
    (PatientRepository.RevokeAccess sampleEnv grantedWorld.db "p-alice"
        "d-bob").1.doctor_access_permissions.map (fun g => g.RevokedAt) = [some 7] := by
  refine ⟨by decide, by decide, by decide⟩

/-- C10, amended: `RevokeAccess(p, d)` followed by `RevokeAccess(p, d)` leaves the store
in the state of the single first `RevokeAccess(p, d)` in every column except
`revoked_at`, which carries the time of the second call (the store is the one a single
call at that time leaves); both calls succeed; and when no row for `(p, d)` exists
both calls change nothing and `CheckAccess(p, d)` afterwards yields false. -/
theorem C10_revoke_is_idempotent_up_to_revoked_at (env1 env2 : Env) (db : DB)
    (p d : String) :
    (PatientRepository.RevokeAccess env2
        (PatientRepository.RevokeAccess env1 db p d).1 p d).1.exceptRevokedAt =
      (PatientRepository.RevokeAccess env1 db p d).1.exceptRevokedAt ∧
    (PatientRepository.RevokeAccess env2
        (PatientRepository.RevokeAccess env1 db p d).1 p d).1 =
      (PatientRepository.RevokeAccess env2 db p d).1 ∧
    (PatientRepository.RevokeAccess env1 db p d).2 = none ∧
    (PatientRepository.RevokeAccess env2
      (PatientRepository.RevokeAccess env1 db p d).1 p d).2 = none ∧
    (db.hasGrantRow p d = false →
      (PatientRepository.RevokeAccess env1 db p d).1 = db ∧
      (PatientRepository.RevokeAccess env2
        (PatientRepository.RevokeAccess env1 db p d).1 p d).1 = db ∧
      (PatientRepository.CheckAccess (PatientRepository.RevokeAccess env2
        (PatientRepository.RevokeAccess env1 db p d).1 p d).1 p d).1 = false) := by
  refine ⟨?_, ?_, rfl, rfl, fun hno => ?_⟩
  · simp only [PatientRepository.RevokeAccess, DB.exceptRevokedAt, List.map_map]
    congr 1
    apply List.map_congr_left
    intro g _
    simp only [Function.comp]
    by_cases hc : g.PatientID = p ∧ g.DoctorID = d
    · simp [hc, DoctorAccessPermission.exceptRevokedAt]
    · simp [hc]
  · simp only [PatientRepository.RevokeAccess, List.map_map]
    congr 1
    apply List.map_congr_left
    intro g _
    simp only [Function.comp]
    by_cases hc : g.PatientID = p ∧ g.DoctorID = d
    · simp [hc]
    · simp [hc]
  · have h1 := RevokeAccess_no_row env1 db p d hno
    have h2 : (PatientRepository.RevokeAccess env2
        (PatientRepository.RevokeAccess env1 db p d).1 p d).1 = db := by
      rw [h1]
      exact RevokeAccess_no_row env2 db p d hno
    refine ⟨h1, h2, ?_⟩
    rw [h2]
    have hf : db.doctor_access_permissions.find?
        (fun g => decide (g.PatientID = p) && decide (g.DoctorID = d)) = none := by
      rw [List.find?_eq_none]
      intro g hg hc
      have : db.hasGrantRow p d = true := by
        simp only [DB.hasGrantRow, List.any_eq_true]
        exact ⟨g, hg, hc⟩
      rw [hno] at this
      exact Bool.false_ne_true this
    unfold PatientRepository.CheckAccess
    rw [sqlGet_of_find_none _ _ _ hf]
    simp

/-- Witness of C10 amended: in the sample world no row exists for (alice, bob); the two
revocations leave the store as it is and `CheckAccess` yields false. -/
theorem C10_revoke_witness :
    sampleWorld.db.hasGrantRow "p-alice" "d-bob" = false ∧
      (PatientRepository.RevokeAccess laterEnv
        (PatientRepository.RevokeAccess sampleEnv sampleWorld.db "p-alice" "d-bob").1
        "p-alice" "d-bob").1 = sampleWorld.db ∧
      (PatientRepository.CheckAccess (PatientRepository.RevokeAccess laterEnv
        (PatientRepository.RevokeAccess sampleEnv sampleWorld.db "p-alice" "d-bob").1
        "p-alice" "d-bob").1 "p-alice" "d-bob").1 = false :=
  ⟨by decide,
    ((C10_revoke_is_idempotent_up_to_revoked_at sampleEnv laterEnv sampleWorld.db "p-alice"
      "d-bob").2.2.2.2 (by decide)).2⟩

/-! ## Rows of a pair -/

/-- Under a key without duplicates at most one row carries a given key. -/
theorem filter_key_length_le_one {α κ : Type} [DecidableEq κ] (key : α → κ) (k : κ)
    (rows : List α) (hnd : (rows.map key).Nodup) :
    (rows.filter (fun x => decide (key x = k))).length ≤ 1 := by
  induction rows with
  | nil => simp
  | cons a l ih =>
    rw [List.map_cons, List.nodup_cons] at hnd
    by_cases ha : key a = k
    · have hnone : l.filter (fun x => decide (key x = k)) = [] := by
        rw [List.filter_eq_nil_iff]
        intro x hx hk
        simp only [decide_eq_true_eq] at hk
        exact hnd.1 (ha ▸ hk ▸ List.mem_map_of_mem key hx)
      rw [List.filter_cons_of_pos (by simpa using ha), hnone]
      simp
    · rw [List.filter_cons_of_neg (by simpa using ha)]
      exact ih hnd.2

theorem grantRows_length_le_one (db : DB) (h : db.UniqueGrants) (p d : String) :
    (db.grantRows p d).length ≤ 1 := by
  have := filter_key_length_le_one
    (fun g : DoctorAccessPermission => (g.PatientID, g.DoctorID)) (p, d)
    db.doctor_access_permissions h
  simpa [DB.grantRows, Prod.ext_iff] using this

theorem hasGrantRow_iff_grantRows (db : DB) (p d : String) :
    db.hasGrantRow p d = true ↔ db.grantRows p d ≠ [] := by
  simp [DB.hasGrantRow, DB.grantRows, List.filter_eq_nil_iff]

/-- `GrantAccess` keeps the number of rows of a pair that has rows, and leaves one row
for a pair that had none. -/
theorem GrantAccess_grantRows_length (env : Env) (db : DB) (p d : String) :
    ((PatientRepository.GrantAccess env db p d).1.grantRows p d).length =
      if db.hasGrantRow p d = true then (db.grantRows p d).length else 1 := by
  unfold PatientRepository.GrantAccess DB.hasGrantRow
  simp only []
  split
  · rename_i hany
    simp only [DB.grantRows, List.filter_map, List.length_map]
    congr 1
    apply List.filter_congr
    intro g _
    simp only [Function.comp]
    split <;> rfl
  · rename_i hany
    have hnil : db.doctor_access_permissions.filter
        (fun g => decide (g.PatientID = p) && decide (g.DoctorID = d)) = [] := by
      rw [List.filter_eq_nil_iff]
      intro g hg hc
      exact hany (List.any_eq_true.mpr ⟨g, hg, hc⟩)
    simp [DB.grantRows, List.filter_append, hnil]

theorem RevokeAccess_grantRows_length (env : Env) (db : DB) (p d p1 d1 : String) :
    ((PatientRepository.RevokeAccess env db p d).1.grantRows p1 d1).length =
      (db.grantRows p1 d1).length := by
  simp only [PatientRepository.RevokeAccess, DB.grantRows, List.filter_map, List.length_map]
  congr 1
  apply List.filter_congr
  intro g _
  simp only [Function.comp]
  split <;> rfl

theorem CheckAccess_after_grant (env : Env) (db : DB) (p d : String) :
    PatientRepository.CheckAccess (PatientRepository.GrantAccess env db p d).1 p d =
      (true, none) := by
  unfold PatientRepository.CheckAccess
  rw [(sqlGet_isActive _ p d true (GrantAccess_hasGrantRow env db p d)
    (fun g hg h1 h2 => (GrantAccess_rows_active env db p d g hg h1 h2).1)).1]
  simp

/-- After `GrantAccess(p, d)` on a store with at most one row of the pair, the pair has
exactly one row. -/
theorem GrantAccess_grantRows_one (env : Env) (db : DB) (p d : String)
    (h : (db.grantRows p d).length ≤ 1) :
    ((PatientRepository.GrantAccess env db p d).1.grantRows p d).length = 1 := by
  rw [GrantAccess_grantRows_length]
  split
  · rename_i hrow
    have hne := (hasGrantRow_iff_grantRows db p d).mp hrow
    have hpos : 0 < (db.grantRows p d).length := List.length_pos.mpr hne
    omega
  · rfl

/-- C11: on a grant store with the `(patient_id, doctor_id)` uniqueness constraint,
after `GrantAccess(p,d); RevokeAccess(p,d); GrantAccess(p,d)` (each of which succeeds)
exactly one row exists for `(p,d)`, it has `is_active = true` and `revoked_at = NULL`,
and `CheckAccess(p,d)` returns true without error. -/
theorem C11_grant_revoke_grant_reactivates (env1 env2 env3 : Env) (db : DB) (p d : String)
    (huniq : db.UniqueGrants) :
    (∃ g, (PatientRepository.GrantAccess env3 (PatientRepository.RevokeAccess env2
          (PatientRepository.GrantAccess env1 db p d).1 p d).1 p d).1.grantRows p d = [g] ∧
        g.IsActive = true ∧ g.RevokedAt = none) ∧
    PatientRepository.CheckAccess (PatientRepository.GrantAccess env3
      (PatientRepository.RevokeAccess env2
        (PatientRepository.GrantAccess env1 db p d).1 p d).1 p d).1 p d = (true, none) ∧
    (PatientRepository.GrantAccess env1 db p d).2 = none ∧
    (PatientRepository.RevokeAccess env2
      (PatientRepository.GrantAccess env1 db p d).1 p d).2 = none ∧
    (PatientRepository.GrantAccess env3 (PatientRepository.RevokeAccess env2
      (PatientRepository.GrantAccess env1 db p d).1 p d).1 p d).2 = none := by
  have h1 := GrantAccess_grantRows_one env1 db p d (grantRows_length_le_one db huniq p d)
  have h2 : ((PatientRepository.RevokeAccess env2
      (PatientRepository.GrantAccess env1 db p d).1 p d).1.grantRows p d).length = 1 := by
    rw [RevokeAccess_grantRows_length]; exact h1
  have h3 := GrantAccess_grantRows_one env3 _ p d (le_of_eq h2)
  refine ⟨?_, CheckAccess_after_grant env3 _ p d, (GrantAccess_tables env1 db p d).1, rfl,
    (GrantAccess_tables env3 _ p d).1⟩
  obtain ⟨g, hg⟩ := List.length_eq_one.mp h3
  have hmem : g ∈ (PatientRepository.GrantAccess env3 (PatientRepository.RevokeAccess env2
      (PatientRepository.GrantAccess env1 db p d).1 p d).1 p d).1.grantRows p d := by
    rw [hg]; exact List.mem_singleton_self g
  simp only [DB.grantRows, List.mem_filter, Bool.and_eq_true, decide_eq_true_eq] at hmem
  obtain ⟨ha, hr⟩ := GrantAccess_rows_active env3 _ p d g hmem.1 hmem.2.1 hmem.2.2
  exact ⟨g, hg, ha, hr⟩

/-- Witness of C11: on the sample store, which has no grant rows, the sequence leaves
the single active row of (alice, bob). -/
theorem C11_grant_revoke_grant_witness :
    sampleWorld.db.UniqueGrants ∧
      (PatientRepository.GrantAccess laterEnv (PatientRepository.RevokeAccess laterEnv
        (PatientRepository.GrantAccess sampleEnv sampleWorld.db "p-alice" "d-bob").1
        "p-alice" "d-bob").1 "p-alice" "d-bob").1.doctor_access_permissions =
        [{ ID := "id-new", PatientID := "p-alice", DoctorID := "d-bob", GrantedAt := 9,
           RevokedAt := none, IsActive := true }] ∧
      PatientRepository.CheckAccess (PatientRepository.GrantAccess laterEnv
        (PatientRepository.RevokeAccess laterEnv
          (PatientRepository.GrantAccess sampleEnv sampleWorld.db "p-alice" "d-bob").1
          "p-alice" "d-bob").1 "p-alice" "d-bob").1 "p-alice" "d-bob" = (true, none) :=
  ⟨by decide, by decide,
    (C11_grant_revoke_grant_reactivates sampleEnv laterEnv laterEnv sampleWorld.db "p-alice"
      "d-bob" (by decide)).2.1⟩

/-- C12, at the failing input: on the sample store, which has no row for (alice, bob),
`PatientRepository.CheckAccess` returns false together with `sql.ErrNoRows`, where the
sibling `DoctorRepository.CheckAccess` returns false without error. -/
theorem C12_missing_row_is_an_error :
    sampleWorld.db.grantRows "p-alice" "d-bob" = [] ∧
      PatientRepository.CheckAccess sampleWorld.db "p-alice" "d-bob" =
        (false, some DBError.ErrNoRows) ∧
      DoctorRepository.CheckAccess sampleWorld.db "d-bob" "p-alice" = (false, none) := by
  refine ⟨by decide, by decide, by decide⟩

/-- The rest of C12 holds: without a row of the pair `CheckAccess` yields false with
`sql.ErrNoRows`; with the uniqueness constraint it yields true, without error, exactly
when a row of the pair exists with `is_active = true`. -/
theorem CheckAccess_spec (db : DB) (p d : String) :
    (db.grantRows p d = [] →
      PatientRepository.CheckAccess db p d = (false, some DBError.ErrNoRows)) ∧
    ((PatientRepository.CheckAccess db p d).1 = true →
      (PatientRepository.CheckAccess db p d).2 = none ∧
      ∃ g ∈ db.grantRows p d, g.IsActive = true) ∧
    (db.UniqueGrants → (∃ g ∈ db.grantRows p d, g.IsActive = true) →
      PatientRepository.CheckAccess db p d = (true, none)) := by
  refine ⟨fun hnil => ?_, fun htrue => ?_, fun huniq ⟨g, hg, hact⟩ => ?_⟩
  · have hf : db.doctor_access_permissions.find?
        (fun g => decide (g.PatientID = p) && decide (g.DoctorID = d)) = none := by
      rw [List.find?_eq_none]
      intro g hg hc
      have : g ∈ db.grantRows p d := List.mem_filter.mpr ⟨hg, hc⟩
      rw [hnil] at this
      cases this
    unfold PatientRepository.CheckAccess
    rw [sqlGet_of_find_none _ _ _ hf]
    simp
  · revert htrue
    unfold PatientRepository.CheckAccess
    cases hf : db.doctor_access_permissions.find?
        (fun g => decide (g.PatientID = p) && decide (g.DoctorID = d)) with
    | none => simp [sqlGet, hf]
    | some g =>
      simp only [sqlGet, hf]
      intro h
      have hc := List.find?_some hf
      exact ⟨by simp, g, List.mem_filter.mpr ⟨List.mem_of_find?_eq_some hf, hc⟩,
        by simpa using h⟩
  · have hle := grantRows_length_le_one db huniq p d
    have hall : ∀ x ∈ db.doctor_access_permissions, x.PatientID = p → x.DoctorID = d →
        x.IsActive = true := by
      intro x hx h1 h2
      have hxm : x ∈ db.grantRows p d := List.mem_filter.mpr ⟨hx, by simp [h1, h2]⟩
      obtain ⟨y, hy⟩ : ∃ y, db.grantRows p d = [y] := by
        apply List.length_eq_one.mp
        have : 0 < (db.grantRows p d).length := List.length_pos_of_mem hg
        omega
      rw [hy] at hg hxm
      rw [List.mem_singleton.mp hxm, ← List.mem_singleton.mp hg]
      exact hact
    have hrow : db.hasGrantRow p d = true :=
      (hasGrantRow_iff_grantRows db p d).mpr (List.ne_nil_of_mem hg)
    unfold PatientRepository.CheckAccess
    rw [(sqlGet_isActive db p d true hrow hall).1]
    simp

/-! ## The invariant of the grant store -/

/-- The invariant I2 of a grant store: one row per pair, and consistent rows. -/
theorem GrantCall.run_invariant (db : DB) (call : GrantCall)
    (h : db.UniqueGrants ∧ ∀ g ∈ db.doctor_access_permissions, g.Consistent) :
    (call.run db).UniqueGrants ∧
      ∀ g ∈ (call.run db).doctor_access_permissions, g.Consistent := by
  obtain ⟨huniq, hcons⟩ := h
  cases call with
  | grant env p d =>
    simp only [GrantCall.run, PatientRepository.GrantAccess]
    split
    · constructor
      · have hkeys : (db.doctor_access_permissions.map (fun g =>
            if (decide (g.PatientID = p) && decide (g.DoctorID = d)) = true then
              { g with IsActive := true, RevokedAt := none, GrantedAt := env.now }
            else g)).map (fun g => (g.PatientID, g.DoctorID)) =
            db.doctor_access_permissions.map (fun g => (g.PatientID, g.DoctorID)) := by
          rw [List.map_map]
          apply List.map_congr_left
          intro g _
          simp only [Function.comp]
          split <;> rfl
        simp only [DB.UniqueGrants]
        rw [hkeys]
        exact huniq
      · intro g hg
        simp only [List.mem_map] at hg
        obtain ⟨g0, hg0, rfl⟩ := hg
        split
        · simp [DoctorAccessPermission.Consistent]
        · exact hcons g0 hg0
    · rename_i hany
      constructor
      · simp only [DB.UniqueGrants, List.map_append, List.map_cons, List.map_nil]
        rw [List.nodup_append]
        refine ⟨huniq, List.nodup_singleton _, ?_⟩
        intro k hk hk1
        rw [List.mem_singleton] at hk1
        subst hk1
        obtain ⟨g, hg, hgk⟩ := List.mem_map.mp hk
        simp only [Prod.mk.injEq] at hgk
        exact hany (List.any_eq_true.mpr ⟨g, hg, by simp [hgk.1, hgk.2]⟩)
      · intro g hg
        simp only [List.mem_append, List.mem_singleton] at hg
        rcases hg with hg | rfl
        · exact hcons g hg
        · simp [DoctorAccessPermission.Consistent]
  | revoke env p d =>
    simp only [GrantCall.run, PatientRepository.RevokeAccess]
    constructor
    · have hkeys : (db.doctor_access_permissions.map (fun g =>
          if g.PatientID = p ∧ g.DoctorID = d then
            { g with IsActive := false, RevokedAt := some env.now }
          else g)).map (fun g => (g.PatientID, g.DoctorID)) =
          db.doctor_access_permissions.map (fun g => (g.PatientID, g.DoctorID)) := by
        rw [List.map_map]
        apply List.map_congr_left
        intro g _
        simp only [Function.comp]
        split <;> rfl
      simp only [DB.UniqueGrants]
      rw [hkeys]
      exact huniq
    · intro g hg
      simp only [List.mem_map] at hg
      obtain ⟨g0, hg0, rfl⟩ := hg
      split
      · simp [DoctorAccessPermission.Consistent]
      · exact hcons g0 hg0

theorem runCalls_invariant (calls : List GrantCall) (db : DB)
    (h : db.UniqueGrants ∧ ∀ g ∈ db.doctor_access_permissions, g.Consistent) :
    (runCalls db calls).UniqueGrants ∧
      ∀ g ∈ (runCalls db calls).doctor_access_permissions, g.Consistent := by
  induction calls generalizing db with
  | nil => exact h
  | cons c cs ih =>
    simp only [runCalls, List.foldl_cons]
    exact ih (GrantCall.run db c) (GrantCall.run_invariant db c h)

/-- C13: every grant-store state reached from the empty store by a sequence of
`GrantAccess` and `RevokeAccess` calls (with any clocks and UUIDs) has at most one row
per (patient, doctor) pair, and in each row `is_active = true` if and only if
`revoked_at` is NULL. -/
theorem C13_reachable_grant_stores_are_consistent (calls : List GrantCall) :
    (∀ p d, ((runCalls emptyDB calls).grantRows p d).length ≤ 1) ∧
      (runCalls emptyDB calls).UniqueGrants ∧
      ∀ g ∈ (runCalls emptyDB calls).doctor_access_permissions,
        (g.IsActive = true ↔ g.RevokedAt = none) := by
  have h := runCalls_invariant calls emptyDB
    ⟨by simp [DB.UniqueGrants, emptyDB], by simp [emptyDB]⟩
  exact ⟨fun p d => grantRows_length_le_one _ h.1 p d, h.1, h.2⟩

/-! ## Denied reads do not reveal whether the patient exists -/

/-- The response of `GetPatientTimeline` to a doctor without an active grant. -/
theorem TimelineHandler.GetPatientTimeline_no_grant (r : Request) (w : World)
    (hrole : r.Header.Get "X-User-Role" = "doctor")
    (hno : ¬ HasActiveGrant w.db (r.Header.Get "X-User-ID") (r.Query.Get "patient_id")) :
    (TimelineHandler.GetPatientTimeline r w).1 =
      if r.Header.Get "X-User-ID" = "" then utils.SendError 401 "Unauthorized"
      else if r.Query.Get "patient_id" = "" then utils.SendError 400 "Patient ID is required"
      else utils.SendError 403 "Access denied" := by
  by_cases hu : r.Header.Get "X-User-ID" = ""
  · unfold TimelineHandler.GetPatientTimeline; simp [hu]
  by_cases ht : r.Query.Get "patient_id" = ""
  · unfold TimelineHandler.GetPatientTimeline; simp [hu, ht]
  have hden : TimelineHandler.accessDenied w.db (r.Header.Get "X-User-ID") "doctor"
      (r.Query.Get "patient_id") = true := by
    by_contra hc
    exact hno (accessDenied_doctor_sound _ _ _ (by simpa using hc))
  rw [TimelineHandler.GetPatientTimeline_eq r w hu ht, hrole, if_pos hden, if_neg hu,
    if_neg ht]

/-- The response of `GetPatientPrescriptions` to a doctor without an active grant. -/
theorem PrescriptionHandler.GetPatientPrescriptions_no_grant (r : Request) (w : World)
    (hrole : r.Header.Get "X-User-Role" = "doctor")
    (hno : ¬ HasActiveGrant w.db (r.Header.Get "X-User-ID") (r.Query.Get "patient_id")) :
    (PrescriptionHandler.GetPatientPrescriptions r w).1 =
      if r.Header.Get "X-User-ID" = "" then utils.SendError 401 "Unauthorized"
      else if r.Query.Get "patient_id" = "" then utils.SendError 400 "Patient ID is required"
      else utils.SendError 403 "Access denied" := by
  by_cases hu : r.Header.Get "X-User-ID" = ""
  · unfold PrescriptionHandler.GetPatientPrescriptions; simp [hu]
  by_cases ht : r.Query.Get "patient_id" = ""
  · unfold PrescriptionHandler.GetPatientPrescriptions; simp [hu, ht]
  have hden : TimelineHandler.accessDenied w.db (r.Header.Get "X-User-ID") "doctor"
      (r.Query.Get "patient_id") = true := by
    by_contra hc
    exact hno (accessDenied_doctor_sound _ _ _ (by simpa using hc))
  rw [PrescriptionHandler.GetPatientPrescriptions_eq r w hu ht, hrole, if_pos hden,
    if_neg hu, if_neg ht]

/-- The response of the doctor service's `GetPatientProfile` to a doctor without an
active grant: whether the patient profile exists is not consulted. -/
theorem DoctorHandler.GetPatientProfile_no_grant (r : Request) (w : World)
    (hrole : r.Header.Get "X-User-Role" = "doctor")
    (hno : ¬ HasActiveGrant w.db (r.Header.Get "X-User-ID") (r.Query.Get "patient_id")) :
    (DoctorHandler.GetPatientProfile r w).1 =
      if r.Header.Get "X-User-ID" = "" then utils.SendError 401 "Unauthorized"
      else if (w.db.doctor_profiles.find?
          (fun d => decide (d.UserID = r.Header.Get "X-User-ID"))).isNone = true then
        utils.SendError 404 "Doctor profile not found"
      else if r.Query.Get "patient_id" = "" then utils.SendError 400 "Patient ID is required"
      else utils.SendError 403 "Access denied or patient not found" := by
  unfold DoctorHandler.GetPatientProfile
  by_cases hu : r.Header.Get "X-User-ID" = ""
  · simp [hu]
  cases hfd : w.db.doctor_profiles.find?
      (fun d => decide (d.UserID = r.Header.Get "X-User-ID")) with
  | none => simp [hu, hrole, DoctorRepository.GetProfileByUserID, sqlGet, hfd]
  | some dp =>
    by_cases ht : r.Query.Get "patient_id" = ""
    · simp [hu, hrole, DoctorRepository.GetProfileByUserID, sqlGet, hfd, ht]
    have hdp := List.find?_some hfd
    simp only [decide_eq_true_eq] at hdp
    cases hfg : w.db.doctor_access_permissions.find?
        (fun g => decide (g.DoctorID = dp.ID) &&
          decide (g.PatientID = r.Query.Get "patient_id")) with
    | none =>
      simp [hu, hrole, DoctorRepository.GetProfileByUserID, sqlGet, hfd, ht,
        DoctorRepository.GetPatientProfile, DoctorRepository.CheckAccess, hfg]
    | some g =>
      have hg := List.find?_some hfg
      simp only [Bool.and_eq_true, decide_eq_true_eq] at hg
      have hinact : g.IsActive = false := by
        by_contra hc
        exact hno ⟨dp, List.mem_of_find?_eq_some hfd, hdp, g, List.mem_of_find?_eq_some hfg,
          hg.2, hg.1, by simpa using hc⟩
      simp [hu, hrole, DoctorRepository.GetProfileByUserID, sqlGet, hfd, ht,
        DoctorRepository.GetPatientProfile, DoctorRepository.CheckAccess, hfg, hinact]

/-- C14: for a doctor caller and a `patient_id` for which the doctor holds no active
grant, the responses (status, headers and body) of the doctor service's
`GetPatientProfile`, of `GetPatientTimeline` and of `GetPatientPrescriptions` are the
same in any two worlds that agree on the doctor profiles and on the grant table; in
particular in two worlds that differ only in whether a patient profile with that id
exists. -/
theorem C14_denied_doctor_learns_nothing (r : Request) (w1 w2 : World)
    (hrole : r.Header.Get "X-User-Role" = "doctor")
    (hno : ¬ HasActiveGrant w1.db (r.Header.Get "X-User-ID") (r.Query.Get "patient_id"))
    (hdoctors : w1.db.doctor_profiles = w2.db.doctor_profiles)
    (hgrants : w1.db.doctor_access_permissions = w2.db.doctor_access_permissions) :
    (DoctorHandler.GetPatientProfile r w1).1 = (DoctorHandler.GetPatientProfile r w2).1 ∧
      (TimelineHandler.GetPatientTimeline r w1).1 =
        (TimelineHandler.GetPatientTimeline r w2).1 ∧
      (PrescriptionHandler.GetPatientPrescriptions r w1).1 =
        (PrescriptionHandler.GetPatientPrescriptions r w2).1 := by
  have hno2 : ¬ HasActiveGrant w2.db (r.Header.Get "X-User-ID")
      (r.Query.Get "patient_id") := by
    simpa only [HasActiveGrant, hdoctors, hgrants] using hno
  refine ⟨?_, ?_, ?_⟩
  · rw [DoctorHandler.GetPatientProfile_no_grant r w1 hrole hno,
      DoctorHandler.GetPatientProfile_no_grant r w2 hrole hno2, hdoctors]
  · rw [TimelineHandler.GetPatientTimeline_no_grant r w1 hrole hno,
      TimelineHandler.GetPatientTimeline_no_grant r w2 hrole hno2]
  · rw [PrescriptionHandler.GetPatientPrescriptions_no_grant r w1 hrole hno,
      PrescriptionHandler.GetPatientPrescriptions_no_grant r w2 hrole hno2]

/-- Witness of C14: doctor bob holds no grant of alice; with and without the patient
profiles the three endpoints give him the same response, a 403. -/
theorem C14_denied_doctor_witness :
    doctorRequest.Header.Get "X-User-Role" = "doctor" ∧
      ¬ HasActiveGrant sampleWorld.db (doctorRequest.Header.Get "X-User-ID")
        (doctorRequest.Query.Get "patient_id") ∧
      sampleWorld.db.patient_profiles ≠ noPatientWorld.db.patient_profiles ∧
      (DoctorHandler.GetPatientProfile doctorRequest sampleWorld).1.StatusCode = 403 ∧
      ((DoctorHandler.GetPatientProfile doctorRequest sampleWorld).1 =
          (DoctorHandler.GetPatientProfile doctorRequest noPatientWorld).1 ∧
        (TimelineHandler.GetPatientTimeline doctorRequest sampleWorld).1 =
          (TimelineHandler.GetPatientTimeline doctorRequest noPatientWorld).1 ∧
        (PrescriptionHandler.GetPatientPrescriptions doctorRequest sampleWorld).1 =
          (PrescriptionHandler.GetPatientPrescriptions doctorRequest noPatientWorld).1) :=
  ⟨by decide, by decide, by decide, by decide,
    C14_denied_doctor_learns_nothing doctorRequest sampleWorld noPatientWorld (by decide)
      (by decide) rfl rfl⟩

/-! ## The gateway: client key and routing -/

theorem Header.Get_eq_headD (h : Header) (key : String) :
    h.Get key = (h.Values key).headD "" := by
  unfold Header.Get Header.Values Values.Get Values.All
  cases h.entries.lookup (CanonicalMIMEHeaderKey key) with
  | none => rfl
  | some l => cases l <;> rfl

/-- C17, as stated, fails: the request carries an `X-Forwarded-For` header, whose first
value is the empty string, and `getClientIP` returns the `X-Real-IP` value instead of
that first value. -/
theorem C17_empty_forwarded_header_is_skipped :
    Gateway.present Gateway.emptyForwardedRequest "X-Forwarded-For" ∧
      Gateway.firstValue Gateway.emptyForwardedRequest "X-Forwarded-For" = "" ∧
      Gateway.getClientIP Gateway.emptyForwardedRequest = "203.0.113.9" ∧
      Gateway.getClientIP Gateway.emptyForwardedRequest ≠
        Gateway.firstValue Gateway.emptyForwardedRequest "X-Forwarded-For" := by
  refine ⟨by decide, by decide, by decide, by decide⟩

/-- C17, amended: `getClientIP` returns the first `X-Forwarded-For` value if that value
is not empty, otherwise the first `X-Real-IP` value if that value is not empty,
otherwise `RemoteAddr`; a header that is absent or whose first value is empty is passed
over. -/
theorem C17_client_key (r : Request) :
    (Gateway.firstValue r "X-Forwarded-For" ≠ "" →
      Gateway.getClientIP r = Gateway.firstValue r "X-Forwarded-For") ∧
    (Gateway.firstValue r "X-Forwarded-For" = "" →
      Gateway.firstValue r "X-Real-IP" ≠ "" →
      Gateway.getClientIP r = Gateway.firstValue r "X-Real-IP") ∧
    (Gateway.firstValue r "X-Forwarded-For" = "" → Gateway.firstValue r "X-Real-IP" = "" →
      Gateway.getClientIP r = r.RemoteAddr) ∧
    (¬ Gateway.present r "X-Forwarded-For" → Gateway.firstValue r "X-Forwarded-For" = "") ∧
    (¬ Gateway.present r "X-Real-IP" → Gateway.firstValue r "X-Real-IP" = "") := by
  simp only [Gateway.firstValue, Gateway.getClientIP, ← Header.Get_eq_headD,
    Gateway.present]
  refine ⟨fun h => by simp [h], fun h1 h2 => by simp [h1, h2], fun h1 h2 => by simp [h1, h2],
    fun h => ?_, fun h => ?_⟩
  · rw [Header.Get_eq_headD, not_not.mp h]; rfl
  · rw [Header.Get_eq_headD, not_not.mp h]; rfl

/-- Witness of C17 amended: a first `X-Forwarded-For` value that is not empty is the
client key; with neither header the key is the remote address. -/
theorem C17_client_key_witness :
    Gateway.firstValue
        { emptyRequest with Header := { entries := [("X-Forwarded-For", ["1.1.1.1", "2.2.2.2"]),
            ("X-Real-Ip", ["3.3.3.3"])] } } "X-Forwarded-For" ≠ "" ∧
      Gateway.getClientIP
        { emptyRequest with Header := { entries := [("X-Forwarded-For", ["1.1.1.1", "2.2.2.2"]),
            ("X-Real-Ip", ["3.3.3.3"])] } } = "1.1.1.1" ∧
      Gateway.getClientIP emptyRequest = emptyRequest.RemoteAddr :=
  ⟨by decide,
    ((C17_client_key _).1 (by decide)).trans (by decide),
    (C17_client_key emptyRequest).2.2.1 (by decide) (by decide)⟩

/-- C19, at the failing input: the path `/api/authors/7` matches no pattern of the
routing table, which names no backend for it, and `getTargetURL` returns the auth
backend; likewise `/api/doctorsx` is sent to the doctor backend. -/
theorem C19_prefix_without_slash_is_routed :
    Gateway.routingTable Gateway.defaultConfig "/api/authors/7" = "" ∧
      Gateway.getTargetURL Gateway.defaultConfig "/api/authors/7" =
        Gateway.defaultConfig.AuthServiceURL ∧
      Gateway.routingTable Gateway.defaultConfig "/api/doctorsx" = "" ∧
      Gateway.getTargetURL Gateway.defaultConfig "/api/doctorsx" =
        Gateway.defaultConfig.DoctorServiceURL := by
  refine ⟨by decide, by decide, by decide, by decide⟩

theorem stringsHasPrefix_iff (s pre : String) :
    stringsHasPrefix s pre = true ↔ ∃ t, s.data = pre.data ++ t := by
  unfold stringsHasPrefix
  rw [List.isPrefixOf_iff_prefix]
  constructor
  · rintro ⟨t, ht⟩; exact ⟨t, ht.symm⟩
  · rintro ⟨t, ht⟩; exact ⟨t, ht.symm⟩

/-- On every path that matches a pattern of the routing table `getTargetURL` returns the
backend of the table. -/
theorem getTargetURL_on_table (config : Gateway.ServiceConfig) (path : String)
    (h : stringsHasPrefix path "/api/auth/" = true ∨
      stringsHasPrefix path "/api/patients/" = true ∨
      stringsHasPrefix path "/api/doctors/" = true ∨
      stringsHasPrefix path "/api/timeline/" = true ∨
      stringsHasPrefix path "/api/prescriptions/" = true) :
    Gateway.getTargetURL config path = Gateway.routingTable config path := by
  rcases h with h | h | h | h | h <;>
    obtain ⟨t, ht⟩ := (stringsHasPrefix_iff _ _).mp h <;>
    simp [Gateway.getTargetURL, Gateway.routingTable, stringsHasPrefix, ht, List.isPrefixOf]

/-- `RateLimitMiddleware` decides on the bucket of the client key and then either
answers 429 itself or hands the request to the wrapped handler. -/
theorem RateLimitMiddleware_eq (next : Gateway.GatewayHandler) (r : Request) (now : ℚ)
    (limiter : Gateway.IPRateLimiter) :
    Gateway.RateLimitMiddleware next r now limiter =
      if Gateway.admits limiter r now = true then
        (next r, Gateway.afterRequest limiter r now)
      else (Gateway.tooManyRequests, Gateway.afterRequest limiter r now) := by
  unfold Gateway.RateLimitMiddleware Gateway.admits Gateway.afterRequest
    Gateway.tooManyRequests
  cases h : ((limiter.GetLimiter (Gateway.getClientIP r)).2.Allow
      (limiter.GetLimiter (Gateway.getClientIP r)).1 now).1 <;> simp [h]

/-- The CORS wrapper passes a request that is not a preflight to the handler chain and
sets its headers on the response. -/
theorem ListenAndServe_passed (c : Gateway.Cors) (env : Gateway.GatewayEnv)
    (config : Gateway.ServiceConfig) (r : Request) (now : ℚ)
    (limiter : Gateway.IPRateLimiter) (h : c.preflight r = none) :
    Gateway.ListenAndServe c env config r now limiter =
      (Gateway.Served.addHeaders (c.actualHeaders r)
          (Gateway.handler env config r now limiter).1,
        (Gateway.handler env config r now limiter).2) := by
  simp only [Gateway.ListenAndServe, Gateway.Cors.Handler, h]

/-- The CORS wrapper answers a preflight itself: the handler chain is not called and the
limiter is left as it is. -/
theorem ListenAndServe_preflight (c : Gateway.Cors) (env : Gateway.GatewayEnv)
    (config : Gateway.ServiceConfig) (r : Request) (now : ℚ)
    (limiter : Gateway.IPRateLimiter) (resp : HTTPResponse) (h : c.preflight r = some resp) :
    Gateway.ListenAndServe c env config r now limiter =
      ({ response := resp, calls := [] }, limiter) := by
  simp only [Gateway.ListenAndServe, Gateway.Cors.Handler, h]

theorem set_of_getElem? {α : Type} (l : List α) (n : Nat) (a : α) (h : l[n]? = some a) :
    l.set n a = l := by
  induction l generalizing n with
  | nil => rfl
  | cons x xs ih =>
    cases n with
    | zero =>
      simp only [List.getElem?_cons_zero, Option.some.injEq] at h
      rw [List.set_cons_zero, h]
    | succ m =>
      simp only [List.getElem?_cons_succ] at h
      rw [List.set_cons_succ, ih m h]

theorem GetLimiter_lookup (i : Gateway.IPRateLimiter) (ip : String) :
    (i.GetLimiter ip).2.ips.lookup ip = some (i.GetLimiter ip).1 := by
  unfold Gateway.IPRateLimiter.GetLimiter
  cases h : i.ips.lookup ip with
  | some p => simp [h]
  | none => simp [h, List.lookup_append]

theorem lookup_mem {β : Type} (l : List (String × β)) (k : String) (v : β)
    (h : l.lookup k = some v) : (k, v) ∈ l := by
  induction l with
  | nil => simp at h
  | cons e l ih =>
    obtain ⟨k1, v1⟩ := e
    rw [List.lookup_cons] at h
    by_cases hk : k = k1
    · subst hk
      simp at h
      subst h
      exact List.mem_cons_self _ _
    · have hk1 : (k == k1) = false := by simpa using hk
      rw [hk1] at h
      exact List.mem_cons_of_mem _ (ih h)

theorem GetLimiter_valid (i : Gateway.IPRateLimiter) (ip : String)
    (h : i.ValidPointers) :
    (i.GetLimiter ip).2.ValidPointers ∧ (i.GetLimiter ip).1 < (i.GetLimiter ip).2.limiters.length
      := by
  unfold Gateway.IPRateLimiter.GetLimiter
  cases hl : i.ips.lookup ip with
  | some p => exact ⟨h, h (ip, p) (lookup_mem _ _ _ hl)⟩
  | none =>
    refine ⟨?_, by simp⟩
    intro e he
    simp only [List.mem_append, List.mem_singleton] at he
    rcases he with he | rfl
    · have := h e he
      simp only [List.length_append, List.length_singleton]
      omega
    · simp

/-- C16, as stated, fails for a CORS preflight: the CORS wrapper, which is the outermost
handler of `main.go`, answers it itself.  On a fresh limiter `Allow()` would succeed and
the handler chain would forward the request, yet the limiter is left without a bucket
for the client and nothing is forwarded; on a limiter whose bucket for the client is
empty `Allow()` fails, yet the answer is not the 429 of `RateLimitMiddleware`. -/
theorem C16_preflight_is_not_rate_limited :
    Gateway.admits (Gateway.NewIPRateLimiter 10 1) Gateway.preflightRequest 0 = true ∧
      (Gateway.handler Gateway.sampleBackends Gateway.defaultConfig
        Gateway.preflightRequest 0 (Gateway.NewIPRateLimiter 10 1)).1.calls.length = 1 ∧
      (Gateway.handler Gateway.sampleBackends Gateway.defaultConfig
        Gateway.preflightRequest 0 (Gateway.NewIPRateLimiter 10 1)).2 ≠
        Gateway.NewIPRateLimiter 10 1 ∧
      (Gateway.ListenAndServe Gateway.sampleCors Gateway.sampleBackends Gateway.defaultConfig
        Gateway.preflightRequest 0 (Gateway.NewIPRateLimiter 10 1)).1.calls = [] ∧
      (Gateway.ListenAndServe Gateway.sampleCors Gateway.sampleBackends Gateway.defaultConfig
        Gateway.preflightRequest 0 (Gateway.NewIPRateLimiter 10 1)).2 =
        Gateway.NewIPRateLimiter 10 1 ∧
      Gateway.admits (Gateway.afterRequest (Gateway.NewIPRateLimiter 10 1)
        Gateway.preflightRequest 0) Gateway.preflightRequest 0 = false ∧
      (Gateway.ListenAndServe Gateway.sampleCors Gateway.sampleBackends Gateway.defaultConfig
        Gateway.preflightRequest 0
        (Gateway.afterRequest (Gateway.NewIPRateLimiter 10 1)
          Gateway.preflightRequest 0)).1.response.StatusCode ≠ 429 ∧
      (Gateway.ListenAndServe Gateway.sampleCors Gateway.sampleBackends Gateway.defaultConfig
        Gateway.preflightRequest 0
        (Gateway.afterRequest (Gateway.NewIPRateLimiter 10 1)
          Gateway.preflightRequest 0)).2 =
        Gateway.afterRequest (Gateway.NewIPRateLimiter 10 1) Gateway.preflightRequest 0 := by
  refine ⟨by decide!, by decide!, by decide!, by decide!, by decide!, by decide!, by decide!,
    by decide!⟩

/-- C16, amended: `RateLimitMiddleware` takes the admission decision on the bucket that
the map holds for the client key of the request, whatever the path.  If `Allow()`
succeeds, the wrapped handler chain is applied to the request once and its result is the
result, and the bucket holds one token less than it had at that time; otherwise the
answer is 429 with the body
`{"success":false,"error":"Rate limit exceeded. Too many requests."}` (and the newline
of `http.Error`), no backend call is made, the wrapped handler, whatever it is, is not
invoked, and the bucket is unchanged.  For the chain of `main.go` the wrapped handler is
the router, so routing comes after admission.  This holds of every request that the
CORS wrapper of `main.go` passes on, which sets its headers on the response and changes
nothing else; a CORS preflight is answered by the wrapper itself, the limiter is not
consulted and is left as it is, and nothing is forwarded. -/
theorem C16_admission_before_routing (next : Gateway.GatewayHandler) (r : Request) (now : ℚ)
    (limiter : Gateway.IPRateLimiter) (hvalid : limiter.ValidPointers) :
    (limiter.GetLimiter (Gateway.getClientIP r)).2.ips.lookup (Gateway.getClientIP r) =
        some (limiter.GetLimiter (Gateway.getClientIP r)).1 ∧
    (∃ bucket,
      (limiter.GetLimiter (Gateway.getClientIP r)).2.limiters[
        (limiter.GetLimiter (Gateway.getClientIP r)).1]? = some bucket ∧
      Gateway.admits limiter r now = decide (1 ≤ bucket.Tokens now) ∧
      (Gateway.admits limiter r now = true →
        Gateway.RateLimitMiddleware next r now limiter =
          (next r, Gateway.afterRequest limiter r now) ∧
        (Gateway.afterRequest limiter r now).limiters[
          (limiter.GetLimiter (Gateway.getClientIP r)).1]? =
          some { bucket with last := now, tokens := bucket.Tokens now - 1 }) ∧
      (Gateway.admits limiter r now = false →
        Gateway.RateLimitMiddleware next r now limiter =
          (Gateway.tooManyRequests, (limiter.GetLimiter (Gateway.getClientIP r)).2))) ∧
    (∀ env config,
      (Gateway.admits limiter r now = true →
        (Gateway.handler env config r now limiter).1 = Gateway.router env config r) ∧
      (Gateway.admits limiter r now = false →
        (Gateway.handler env config r now limiter).1 = Gateway.tooManyRequests)) ∧
    (∀ (c : Gateway.Cors) env config,
      (c.preflight r = none →
        (Gateway.ListenAndServe c env config r now limiter).2 =
          Gateway.afterRequest limiter r now ∧
        (Gateway.admits limiter r now = true →
          (Gateway.ListenAndServe c env config r now limiter).1 =
            Gateway.Served.addHeaders (c.actualHeaders r) (Gateway.router env config r)) ∧
        (Gateway.admits limiter r now = false →
          (Gateway.ListenAndServe c env config r now limiter).1 =
            Gateway.Served.addHeaders (c.actualHeaders r) Gateway.tooManyRequests)) ∧
      (∀ resp, c.preflight r = some resp →
        Gateway.ListenAndServe c env config r now limiter =
          ({ response := resp, calls := [] }, limiter))) := by
  refine ⟨GetLimiter_lookup limiter _, ?_, fun env config => ⟨fun h => ?_, fun h => ?_⟩,
    fun c env config => ⟨fun hc => ⟨?_, fun h => ?_, fun h => ?_⟩, fun resp hc =>
      ListenAndServe_preflight c env config r now limiter resp hc⟩⟩
  · obtain ⟨_, hlt⟩ := GetLimiter_valid limiter (Gateway.getClientIP r) hvalid
    obtain ⟨bucket, hb⟩ : ∃ bucket, (limiter.GetLimiter (Gateway.getClientIP r)).2.limiters[
        (limiter.GetLimiter (Gateway.getClientIP r)).1]? = some bucket :=
      ⟨_, List.getElem?_eq_getElem hlt⟩
    have hadm : Gateway.admits limiter r now = decide (1 ≤ bucket.Tokens now) := by
      simp only [Gateway.admits, Gateway.IPRateLimiter.Allow, hb, Gateway.Limiter.Allow,
        Gateway.Limiter.Tokens]
      by_cases h1 : 1 ≤ bucket.advance now
      · simp [h1]
      · simp [h1]
    refine ⟨bucket, hb, hadm, fun h => ?_, fun h => ?_⟩
    · refine ⟨by rw [RateLimitMiddleware_eq, if_pos h], ?_⟩
      have h1 : 1 ≤ bucket.advance now := by
        rw [hadm] at h
        simpa [Gateway.Limiter.Tokens] using h
      simp only [Gateway.afterRequest, Gateway.IPRateLimiter.Allow, hb,
        Gateway.Limiter.Allow, Gateway.Limiter.Tokens]
      rw [List.getElem?_set_self hlt]
      simp [h1]
    · rw [RateLimitMiddleware_eq, if_neg (by simp [h])]
      have h1 : ¬ 1 ≤ bucket.advance now := by
        rw [hadm] at h
        simpa [Gateway.Limiter.Tokens] using h
      simp only [Gateway.afterRequest, Gateway.IPRateLimiter.Allow, hb,
        Gateway.Limiter.Allow]
      congr 1
      simp only [sub_nonneg, h1, if_false]
      cases hl : limiter.GetLimiter (Gateway.getClientIP r) with
      | mk p i1 =>
        rw [hl] at hb
        simp only at hb ⊢
        have := set_of_getElem? _ _ _ hb
        cases i1
        simp only at this ⊢
        rw [this]
  · unfold Gateway.handler
    rw [RateLimitMiddleware_eq, if_pos h]
    rfl
  · unfold Gateway.handler
    rw [RateLimitMiddleware_eq, if_neg (by simp [h])]
  · rw [ListenAndServe_passed c env config r now limiter hc]
    unfold Gateway.handler
    rw [RateLimitMiddleware_eq]
    split_ifs <;> rfl
  · rw [ListenAndServe_passed c env config r now limiter hc]
    unfold Gateway.handler
    rw [RateLimitMiddleware_eq, if_pos h]
    rfl
  · rw [ListenAndServe_passed c env config r now limiter hc]
    unfold Gateway.handler
    rw [RateLimitMiddleware_eq, if_neg (by simp [h])]

/-- Witness of C16 amended: on a fresh limiter of burst 1 the first request for an
unroutable path is admitted and reaches the router, the second one at the same instant
is answered 429 without reaching the router; behind the CORS wrapper the first is
answered with the router's 404 and the `Vary` header of the wrapper. -/
theorem C16_admission_witness :
    (Gateway.NewIPRateLimiter 10 1).ValidPointers ∧
      Gateway.admits (Gateway.NewIPRateLimiter 10 1) { emptyRequest with Path := "/nowhere" } 0
        = true ∧
      (Gateway.handler Gateway.sampleBackends Gateway.defaultConfig
        { emptyRequest with Path := "/nowhere" } 0 (Gateway.NewIPRateLimiter 10 1)).1 =
        Gateway.router Gateway.sampleBackends Gateway.defaultConfig
          { emptyRequest with Path := "/nowhere" } ∧
      (Gateway.afterRequest (Gateway.NewIPRateLimiter 10 1)
        { emptyRequest with Path := "/nowhere" } 0).ValidPointers ∧
      Gateway.admits (Gateway.afterRequest (Gateway.NewIPRateLimiter 10 1)
        { emptyRequest with Path := "/nowhere" } 0)
        { emptyRequest with Path := "/nowhere" } 0 = false ∧
      (Gateway.handler Gateway.sampleBackends Gateway.defaultConfig
        { emptyRequest with Path := "/nowhere" } 0
        (Gateway.afterRequest (Gateway.NewIPRateLimiter 10 1)
          { emptyRequest with Path := "/nowhere" } 0)).1 = Gateway.tooManyRequests ∧
      Gateway.sampleCors.preflight { emptyRequest with Path := "/nowhere" } = none ∧
      (Gateway.ListenAndServe Gateway.sampleCors Gateway.sampleBackends Gateway.defaultConfig
        { emptyRequest with Path := "/nowhere" } 0 (Gateway.NewIPRateLimiter 10 1)).1 =
        Gateway.Served.addHeaders [("Vary", "Origin")]
          (Gateway.router Gateway.sampleBackends Gateway.defaultConfig
            { emptyRequest with Path := "/nowhere" }) :=
  ⟨by decide, by decide!,
    ((C16_admission_before_routing Gateway.probingHandler
      { emptyRequest with Path := "/nowhere" } 0 (Gateway.NewIPRateLimiter 10 1)
      (by decide)).2.2.1 Gateway.sampleBackends Gateway.defaultConfig).1 (by decide!),
    by decide!, by decide!,
    ((C16_admission_before_routing Gateway.probingHandler
      { emptyRequest with Path := "/nowhere" } 0
      (Gateway.afterRequest (Gateway.NewIPRateLimiter 10 1)
        { emptyRequest with Path := "/nowhere" } 0)
      (by decide!)).2.2.1 Gateway.sampleBackends Gateway.defaultConfig).2 (by decide!),
    by decide,
    (((C16_admission_before_routing Gateway.probingHandler
      { emptyRequest with Path := "/nowhere" } 0 (Gateway.NewIPRateLimiter 10 1)
      (by decide)).2.2.2 Gateway.sampleCors Gateway.sampleBackends
      Gateway.defaultConfig).1 (by decide)).2.1 (by decide!)⟩

/-! ## The gateway: garbage collection of buckets -/

/-- The bucket of a limiter that has been left alone for longer than `burst / limit`
seconds is full. -/
theorem Limiter.Tokens_full (lim : Gateway.Limiter) (T now : ℚ) (hr : 0 < lim.limit)
    (htok : 0 ≤ lim.tokens) (hlast : lim.last ≤ T)
    (hquiet : (lim.burst : ℚ) / lim.limit < now - T) :
    lim.Tokens now = (lim.burst : ℚ) := by
  have hb : (lim.burst : ℚ) < (now - T) * lim.limit := (div_lt_iff₀ hr).mp hquiet
  have hbn : (0 : ℚ) ≤ (lim.burst : ℚ) := Nat.cast_nonneg _
  have hpos : 0 < now - T := by
    by_contra hc
    have h1 : (now - T) * lim.limit ≤ 0 :=
      mul_nonpos_of_nonpos_of_nonneg (not_lt.mp hc) hr.le
    linarith
  have hmin : min lim.last now = lim.last := min_eq_left (by linarith)
  have hmono : (now - T) * lim.limit ≤ (now - lim.last) * lim.limit :=
    mul_le_mul_of_nonneg_right (by linarith) hr.le
  unfold Gateway.Limiter.Tokens Gateway.Limiter.advance
  rw [hmin]
  exact min_eq_right (by linarith)

/-- A fresh `IPRateLimiter` has no buckets. -/
theorem Inv_NewIPRateLimiter (r : ℚ) (b : Nat) (T : ℚ) :
    (Gateway.NewIPRateLimiter r b).Inv T := by
  intro e he
  simp [Gateway.NewIPRateLimiter] at he

/-- Looking a key up, and storing a new limiter for it, keeps the state of the buckets. -/
theorem Inv_GetLimiter (i : Gateway.IPRateLimiter) (ip : String) (T : ℚ) (hT : 0 ≤ T)
    (h : i.Inv T) : (i.GetLimiter ip).2.Inv T := by
  unfold Gateway.IPRateLimiter.GetLimiter
  cases hl : i.ips.lookup ip with
  | some p => exact h
  | none =>
    intro e he
    simp only [List.mem_append, List.mem_singleton] at he
    rcases he with he | he
    · obtain ⟨lim, hlim, hrest⟩ := h e he
      refine ⟨lim, ?_, hrest⟩
      have hlt : e.2 < i.limiters.length := by
        by_contra hc
        rw [List.getElem?_eq_none (not_lt.mp hc)] at hlim
        exact Option.noConfusion hlim
      simp only [List.getElem?_append_left hlt, hlim]
    · subst he
      refine ⟨Gateway.NewLimiter i.r i.b, ?_, rfl, rfl, ?_, hT⟩
      · simp
      · simp [Gateway.NewLimiter]

/-- An `Allow()` call keeps the rate and the burst of a limiter, leaves a token count
that is not negative, and sets the last update to a time no later than the call. -/
theorem Limiter.Allow_inv (lim : Gateway.Limiter) (now T : ℚ) (hnow : now ≤ T)
    (htok : 0 ≤ lim.tokens) (hlast : lim.last ≤ T) :
    (lim.Allow now).2.limit = lim.limit ∧ (lim.Allow now).2.burst = lim.burst ∧
      0 ≤ (lim.Allow now).2.tokens ∧ (lim.Allow now).2.last ≤ T := by
  simp only [Gateway.Limiter.Allow]
  split_ifs with h
  · exact ⟨rfl, rfl, h, hnow⟩
  · exact ⟨rfl, rfl, htok, hlast⟩

/-- An `Allow()` call no later than `T`, through any pointer, keeps the state of the
buckets. -/
theorem Inv_Allow (i : Gateway.IPRateLimiter) (p : Nat) (now T : ℚ) (hnow : now ≤ T)
    (h : i.Inv T) : (i.Allow p now).2.Inv T := by
  unfold Gateway.IPRateLimiter.Allow
  cases hp : i.limiters[p]? with
  | none => exact h
  | some lim =>
    intro e he
    obtain ⟨lime, hlime, hl, hb, htok, hlast⟩ := h e he
    by_cases hep : e.2 = p
    · have hplt : p < i.limiters.length := by
        by_contra hc
        rw [List.getElem?_eq_none (not_lt.mp hc)] at hp
        exact Option.noConfusion hp
      have hsame : lime = lim := by
        rw [hep, hp] at hlime
        exact (Option.some.inj hlime).symm
      subst hsame
      obtain ⟨h1, h2, h3, h4⟩ := Limiter.Allow_inv lime now T hnow htok hlast
      refine ⟨(lime.Allow now).2, ?_, h1.trans hl, h2.trans hb, h3, h4⟩
      show (i.limiters.set p (lime.Allow now).2)[e.2]? = _
      rw [hep, List.getElem?_set_self hplt]
    · refine ⟨lime, ?_, hl, hb, htok, hlast⟩
      show (i.limiters.set p (lim.Allow now).2)[e.2]? = _
      rw [List.getElem?_set_ne (fun hc => hep hc.symm), hlime]

/-- A sweep keeps the state of the buckets that it leaves in the map. -/
theorem Inv_CleanupOldEntries (i : Gateway.IPRateLimiter) (now T : ℚ) (h : i.Inv T) :
    (i.CleanupOldEntries now).Inv T := by
  intro e he
  exact h e (List.mem_of_mem_filter he)

/-- A step without an `Allow()` call later than `T` keeps the state of the buckets. -/
theorem Inv_step (run : Gateway.Run) (ev : Gateway.Event) (T : ℚ) (hT : 0 ≤ T)
    (hev : ev.noAllowAfter T) (h : run.limiter.Inv T) : (run.step ev).limiter.Inv T := by
  cases ev with
  | getLimiter request ip => exact Inv_GetLimiter _ _ _ hT h
  | allow request now =>
    cases hl : run.held.lookup request with
    | none =>
      simp only [Gateway.Run.step, hl]
      exact h
    | some held =>
      obtain ⟨ip, p⟩ := held
      simp only [Gateway.Run.step, hl]
      exact Inv_Allow _ _ _ _ hev h
  | cleanup now => exact Inv_CleanupOldEntries _ _ _ h

/-- A schedule without an `Allow()` call later than `T` keeps the state of the buckets. -/
theorem Inv_exec (events : List Gateway.Event) (run : Gateway.Run) (T : ℚ) (hT : 0 ≤ T)
    (hev : ∀ ev ∈ events, ev.noAllowAfter T) (h : run.limiter.Inv T) :
    (Gateway.exec run events).limiter.Inv T := by
  induction events generalizing run with
  | nil => exact h
  | cons ev rest ih =>
    exact ih (run.step ev) (fun e he => hev e (List.mem_cons_of_mem _ he))
      (Inv_step run ev T hT (hev ev (List.mem_cons_self _ _)) h)

/-- The rate and the burst of the `IPRateLimiter` are never changed by a step. -/
theorem step_params (run : Gateway.Run) (ev : Gateway.Event) :
    (run.step ev).limiter.r = run.limiter.r ∧ (run.step ev).limiter.b = run.limiter.b := by
  cases ev with
  | getLimiter request ip =>
    simp only [Gateway.Run.step, Gateway.IPRateLimiter.GetLimiter]
    cases run.limiter.ips.lookup ip <;> exact ⟨rfl, rfl⟩
  | allow request now =>
    cases hl : run.held.lookup request with
    | none => simp only [Gateway.Run.step, hl, and_self]
    | some held =>
      obtain ⟨ip, p⟩ := held
      simp only [Gateway.Run.step, hl, Gateway.IPRateLimiter.Allow]
      cases run.limiter.limiters[p]? <;> exact ⟨rfl, rfl⟩
  | cleanup now => exact ⟨rfl, rfl⟩

/-- The rate and the burst of the `IPRateLimiter` are never changed by a schedule. -/
theorem exec_params (events : List Gateway.Event) (run : Gateway.Run) :
    (Gateway.exec run events).limiter.r = run.limiter.r ∧
      (Gateway.exec run events).limiter.b = run.limiter.b := by
  induction events generalizing run with
  | nil => exact ⟨rfl, rfl⟩
  | cons ev rest ih =>
    obtain ⟨h1, h2⟩ := ih (run.step ev)
    obtain ⟨h3, h4⟩ := step_params run ev
    exact ⟨h1.trans h3, h2.trans h4⟩

/-- A sweep later than `T + b/r` empties a map whose buckets were last used no later
than `T`. -/
theorem CleanupOldEntries_of_Inv (i : Gateway.IPRateLimiter) (T now : ℚ)
    (hr : 0 < i.r) (hinv : i.Inv T) (hquiet : (i.b : ℚ) / i.r < now - T) :
    (i.CleanupOldEntries now).ips = [] := by
  unfold Gateway.IPRateLimiter.CleanupOldEntries
  simp only [List.filter_eq_nil_iff]
  intro e he
  obtain ⟨lim, hl, hlim, hburst, htok, hlast⟩ := hinv e he
  have hfull := Limiter.Tokens_full lim T now (hlim ▸ hr) htok hlast
    (by rw [hlim, hburst]; exact hquiet)
  rw [hl]
  simp only [hfull, hburst]
  simp

/-- C18: for an `IPRateLimiter` with rate `R > 0` and burst `B`, after any schedule of
request steps and sweeps from the start of the gateway, whatever buckets the map holds:
if no `Allow()` call happened later than second `T` and `CleanupOldEntries` runs at a
time later than `T + B/R`, the bucket map is empty afterwards. -/
theorem C18_idle_buckets_are_collected (R : ℚ) (B : Nat) (events : List Gateway.Event)
    (T now : ℚ) (hR : 0 < R) (hT : 0 ≤ T) (hev : ∀ ev ∈ events, ev.noAllowAfter T)
    (hquiet : (B : ℚ) / R < now - T) :
    ((Gateway.exec (Gateway.start R B) events).limiter.CleanupOldEntries now).ips = [] := by
  obtain ⟨hr, hb⟩ := exec_params events (Gateway.start R B)
  have hinv := Inv_exec events (Gateway.start R B) T hT hev (Inv_NewIPRateLimiter R B T)
  refine CleanupOldEntries_of_Inv _ T now ?_ hinv ?_
  · rw [hr]; exact hR
  · rw [hr, hb]; exact hquiet

/-- Witness of C18: with rate 1 and burst 2, after three requests of two clients in the
first second the map holds two buckets, a sweep at second 3/2 deletes nothing, and a
sweep at second 4, more than `2/1` seconds after the last request, leaves the map
empty. -/
theorem C18_idle_buckets_witness :
    (Gateway.exec (Gateway.start 1 2) Gateway.quietSchedule).limiter.ips.length = 2 ∧
      ((Gateway.exec (Gateway.start 1 2) Gateway.quietSchedule).limiter.CleanupOldEntries
        (3 / 2)).ips.length = 2 ∧
      ((Gateway.exec (Gateway.start 1 2) Gateway.quietSchedule).limiter.CleanupOldEntries
        4).ips = [] :=
  ⟨by decide!, by decide!,
    C18_idle_buckets_are_collected 1 2 Gateway.quietSchedule 1 4 (by norm_num)
      (by norm_num) (by decide!) (by norm_num)⟩

/-! ## The gateway: the admission bound -/

/-- C15: the bound `B + R·t` fails when a sweep runs between the `GetLimiter` call and
the `Allow()` call of a request.  With rate 1 and burst 1, request 1 holds the pointer
of the full bucket of `"k"` when the sweep deletes it from the map; its `Allow()` call
at second 10.02 succeeds on the bucket it holds, and the `Allow()` call of request 2 at
second 10.03 succeeds on the new bucket: two requests of `"k"` are admitted in an
interval of 1/100 second, more than `1 + 1·(1/100)`.  With the parameters of `main.go`
(rate 10, burst 20) forty requests of one key are admitted at second 10, more than
`20 + 10·0`. -/
theorem C15_sweep_between_lookup_and_allow :
    (Gateway.exec (Gateway.start 1 1) Gateway.racingSchedule).admittedWithin "k"
        (10 + 2 / 100) (1 / 100) = 2 ∧
      ((1 : ℚ) + 1 * (1 / 100) <
        (Gateway.exec (Gateway.start 1 1) Gateway.racingSchedule).admittedWithin "k"
          (10 + 2 / 100) (1 / 100)) ∧
      (Gateway.exec (Gateway.start 10 20) Gateway.racingBurst).admittedWithin "k" 10 0
        = 40 ∧
      ((20 : ℚ) + 10 * 0 <
        (Gateway.exec (Gateway.start 10 20) Gateway.racingBurst).admittedWithin "k" 10 0) := by
  refine ⟨by decide!, by decide!, by decide!, by decide!⟩

/-! ## The gateway: the admission bound on schedules of whole requests -/

/-- The token count of a bucket never exceeds its burst. -/
theorem Limiter.advance_le_burst (lim : Gateway.Limiter) (t : ℚ) :
    lim.advance t ≤ (lim.burst : ℚ) := min_le_right _ _

/-- Between two times a bucket gains at most `limit` tokens per second. -/
theorem Limiter.advance_le_add (lim : Gateway.Limiter) (t u : ℚ) (hr : 0 ≤ lim.limit)
    (htu : t ≤ u) : lim.advance u ≤ lim.advance t + lim.limit * (u - t) := by
  unfold Gateway.Limiter.advance
  have hb : (0 : ℚ) ≤ lim.limit * (u - t) := mul_nonneg hr (by linarith)
  have he : (u - min lim.last u) * lim.limit ≤
      (t - min lim.last t) * lim.limit + lim.limit * (u - t) := by
    have h1 : u - min lim.last u ≤ (t - min lim.last t) + (u - t) := by
      rcases le_total lim.last t with h | h
      · rw [min_eq_left h, min_eq_left (le_trans h htu)]; linarith
      · rw [min_eq_right h]
        rcases le_total lim.last u with h2 | h2
        · rw [min_eq_left h2]; linarith
        · rw [min_eq_right h2]; linarith
    nlinarith [mul_le_mul_of_nonneg_right h1 hr]
  rcases le_total (lim.tokens + (t - min lim.last t) * lim.limit) (lim.burst : ℚ) with h | h
  · rw [min_eq_left h]
    exact le_trans (min_le_left _ _) (by linarith)
  · rw [min_eq_right h]
    exact le_trans (min_le_right _ _) (by linarith)

/-- A new bucket is full at every time. -/
theorem NewLimiter_advance (r : ℚ) (b : Nat) (t : ℚ) (hr : 0 ≤ r) :
    (Gateway.NewLimiter r b).advance t = (b : ℚ) := by
  unfold Gateway.Limiter.advance Gateway.NewLimiter
  apply min_eq_right
  have h1 : 0 ≤ t - min 0 t := by
    have := min_le_right (0 : ℚ) t
    linarith
  have := mul_nonneg h1 hr
  simp only
  linarith

/-- An admitted `Allow()` call found at least one token and leaves one token less; a
refused call leaves the bucket as it was. -/
theorem Limiter.Allow_advance (lim : Gateway.Limiter) (now : ℚ) :
    ((lim.Allow now).1 = true →
      0 ≤ (lim.Allow now).2.advance now ∧
      (lim.Allow now).2.advance now = lim.advance now - 1) ∧
    ((lim.Allow now).1 = false → (lim.Allow now).2 = lim) := by
  simp only [Gateway.Limiter.Allow]
  split_ifs with h
  · refine ⟨fun _ => ?_, fun hc => by simp at hc⟩
    have hle := Limiter.advance_le_burst lim now
    have : Gateway.Limiter.advance
        { limit := lim.limit, burst := lim.burst, tokens := lim.advance now - 1, last := now }
        now = lim.advance now - 1 := by
      show min (lim.advance now - 1 + (now - min now now) * lim.limit) (lim.burst : ℚ) = _
      rw [min_self, sub_self, zero_mul, add_zero]
      exact min_eq_left (by linarith)
    exact ⟨by rw [this]; exact h, this⟩
  · exact ⟨fun hc => by simp at hc, fun _ => rfl⟩

theorem lookup_append_ne {β : Type} (l : List (String × β)) (k k1 : String) (v : β)
    (h : k ≠ k1) : (l ++ [(k1, v)]).lookup k = l.lookup k := by
  induction l with
  | nil =>
    have hk : (k == k1) = false := by simpa using h
    simp [List.lookup_cons, hk]
  | cons e l ih =>
    obtain ⟨k2, v2⟩ := e
    simp only [List.cons_append, List.lookup_cons, ih]

theorem lookup_filter_cases {β : Type} (l : List (String × β)) (k : String)
    (p : String × β → Bool) :
    (l.filter p).lookup k = l.lookup k ∨ ∃ v, l.lookup k = some v ∧ p (k, v) = false := by
  induction l with
  | nil => exact Or.inl rfl
  | cons e l ih =>
    obtain ⟨k2, v2⟩ := e
    by_cases hk : k = k2
    · subst hk
      cases hp : p (k, v2) with
      | true => left; simp [List.filter_cons, hp, List.lookup_cons]
      | false => right; exact ⟨v2, by simp [List.lookup_cons], hp⟩
    · have hk1 : (k == k2) = false := by simpa using hk
      cases hp : p (k2, v2) with
      | true => simpa [List.filter_cons, hp, List.lookup_cons, hk1] using ih
      | false => simpa [List.filter_cons, hp, List.lookup_cons, hk1] using ih

theorem getD_append_singleton {α : Type} (l : List α) (d : α) (n : Nat) :
    ((l ++ [d])[n]?).getD d = (l[n]?).getD d := by
  rcases Nat.lt_trichotomy n l.length with h | h | h
  · rw [List.getElem?_append_left h]
  · subst h
    simp
  · rw [List.getElem?_eq_none (by simp; omega), List.getElem?_eq_none (by omega)]
/-- A fresh `IPRateLimiter` has the shape of the reachable states. -/
theorem WellFormed_NewIPRateLimiter (r : ℚ) (b : Nat) :
    (Gateway.NewIPRateLimiter r b).WellFormed := by
  refine ⟨fun e he => ?_, fun e he => ?_, fun lim hl => ?_⟩
  · simp [Gateway.NewIPRateLimiter] at he
  · simp [Gateway.NewIPRateLimiter] at he
  · simp [Gateway.NewIPRateLimiter] at hl

/-- `GetLimiter` keeps the shape of the state, the rate and the burst. -/
theorem WellFormed_GetLimiter (i : Gateway.IPRateLimiter) (ip : String)
    (h : i.WellFormed) :
    (i.GetLimiter ip).2.WellFormed ∧ (i.GetLimiter ip).2.r = i.r ∧
      (i.GetLimiter ip).2.b = i.b := by
  unfold Gateway.IPRateLimiter.GetLimiter
  cases hl : i.ips.lookup ip with
  | some p => exact ⟨h, rfl, rfl⟩
  | none =>
    obtain ⟨h1, h2, h3⟩ := h
    refine ⟨⟨fun e he => ?_, fun e he f hf hef => ?_, fun lim hlim => ?_⟩, rfl, rfl⟩
    · simp only [List.mem_append, List.mem_singleton] at he
      simp only [List.length_append, List.length_singleton]
      rcases he with he | rfl
      · have := h1 e he
        omega
      · simp
    · simp only [List.mem_append, List.mem_singleton] at he hf
      rcases he with he | rfl <;> rcases hf with hf | rfl
      · exact h2 e he f hf hef
      · have := h1 e he
        simp only at hef
        omega
      · have := h1 f hf
        simp only at hef
        omega
      · rfl
    · simp only [List.mem_append, List.mem_singleton] at hlim
      rcases hlim with hlim | rfl
      · exact h3 lim hlim
      · exact ⟨rfl, rfl, by simp [Gateway.NewLimiter]⟩

/-- An `Allow()` call through any pointer keeps the shape of the state, the rate and
the burst. -/
theorem WellFormed_Allow (i : Gateway.IPRateLimiter) (p : Nat) (now : ℚ)
    (h : i.WellFormed) :
    (i.Allow p now).2.WellFormed ∧ (i.Allow p now).2.r = i.r ∧ (i.Allow p now).2.b = i.b := by
  unfold Gateway.IPRateLimiter.Allow
  cases hp : i.limiters[p]? with
  | none => exact ⟨h, rfl, rfl⟩
  | some lim =>
    obtain ⟨h1, h2, h3⟩ := h
    refine ⟨⟨fun e he => ?_, h2, fun x hx => ?_⟩, rfl, rfl⟩
    · show e.2 < (i.limiters.set p (lim.Allow now).2).length
      rw [List.length_set]
      exact h1 e he
    · have hx1 : x ∈ i.limiters.set p (lim.Allow now).2 := hx
      obtain ⟨hl, hb, htok⟩ := h3 lim (List.getElem?_mem hp)
      rcases List.mem_or_eq_of_mem_set hx1 with hx2 | rfl
      · exact h3 x hx2
      · obtain ⟨a1, a2, a3, _⟩ := Limiter.Allow_inv lim now (max now lim.last)
          (le_max_left _ _) htok (le_max_right _ _)
        exact ⟨a1.trans hl, a2.trans hb, a3⟩

/-- A sweep keeps the shape of the state, the rate and the burst. -/
theorem WellFormed_CleanupOldEntries (i : Gateway.IPRateLimiter) (now : ℚ)
    (h : i.WellFormed) : (i.CleanupOldEntries now).WellFormed := by
  obtain ⟨h1, h2, h3⟩ := h
  exact ⟨fun e he => h1 e (List.mem_of_mem_filter he),
    fun e he f hf => h2 e (List.mem_of_mem_filter he) f (List.mem_of_mem_filter hf), h3⟩

/-- The bucket of a key has the rate and the burst of the `IPRateLimiter` and a token
count that is not negative. -/
theorem bucket_params (i : Gateway.IPRateLimiter) (k : String) (h : i.WellFormed) :
    (i.bucket k).limit = i.r ∧ (i.bucket k).burst = i.b ∧ 0 ≤ (i.bucket k).tokens := by
  have hnew : (Gateway.NewLimiter i.r i.b).limit = i.r ∧
      (Gateway.NewLimiter i.r i.b).burst = i.b ∧ 0 ≤ (Gateway.NewLimiter i.r i.b).tokens :=
    ⟨rfl, rfl, by simp [Gateway.NewLimiter]⟩
  cases hl : i.ips.lookup k with
  | none =>
    simp only [Gateway.IPRateLimiter.bucket, hl]
    exact hnew
  | some p =>
    cases hp : i.limiters[p]? with
    | none =>
      simp only [Gateway.IPRateLimiter.bucket, hl, hp, Option.getD_none]
      exact hnew
    | some lim =>
      simp only [Gateway.IPRateLimiter.bucket, hl, hp, Option.getD_some]
      exact h.2.2 lim (List.getElem?_mem hp)

/-- `GetLimiter` changes the bucket of no key. -/
theorem bucket_GetLimiter (i : Gateway.IPRateLimiter) (ip k : String) :
    (i.GetLimiter ip).2.bucket k = i.bucket k := by
  by_cases hk : k = ip
  · subst hk
    have hlook := GetLimiter_lookup i k
    unfold Gateway.IPRateLimiter.bucket
    rw [hlook]
    unfold Gateway.IPRateLimiter.GetLimiter
    cases hl : i.ips.lookup k with
    | some p => rfl
    | none => simp
  · unfold Gateway.IPRateLimiter.bucket Gateway.IPRateLimiter.GetLimiter
    cases hl : i.ips.lookup ip with
    | some p => rfl
    | none =>
      simp only [lookup_append_ne _ _ _ _ hk]
      cases i.ips.lookup k with
      | none => rfl
      | some q => exact getD_append_singleton _ _ _

/-- An `Allow()` call through the pointer of a key is an `Allow()` call on the bucket of
that key, and changes the bucket of no other key. -/
theorem bucket_Allow (i : Gateway.IPRateLimiter) (ip : String) (p : Nat) (now : ℚ)
    (h : i.WellFormed) (hp : i.ips.lookup ip = some p) :
    (i.Allow p now).1 = ((i.bucket ip).Allow now).1 ∧
      (i.Allow p now).2.bucket ip = ((i.bucket ip).Allow now).2 ∧
      ∀ k, k ≠ ip → (i.Allow p now).2.bucket k = i.bucket k := by
  have hmem := lookup_mem _ _ _ hp
  have hlt : p < i.limiters.length := h.1 _ hmem
  have hsome : i.limiters[p]? = some i.limiters[p] := List.getElem?_eq_getElem hlt
  have hb : i.bucket ip = i.limiters[p] := by
    simp only [Gateway.IPRateLimiter.bucket, hp, hsome, Option.getD_some]
  unfold Gateway.IPRateLimiter.Allow
  rw [hsome, hb]
  refine ⟨rfl, ?_, fun k hk => ?_⟩
  · unfold Gateway.IPRateLimiter.bucket
    simp only [hp, List.getElem?_set_self hlt, Option.getD_some]
  · unfold Gateway.IPRateLimiter.bucket
    simp only
    cases hl : i.ips.lookup k with
    | none => rfl
    | some q =>
      have hq := lookup_mem _ _ _ hl
      have hne : p ≠ q := fun hc => hk (h.2.1 (k, q) hq (ip, p) hmem hc.symm)
      simp only [List.getElem?_set_ne hne]

/-- At the time of a sweep, the sweep does not raise the token count of the bucket of
any key: a bucket that it deletes is full. -/
theorem bucket_CleanupOldEntries (i : Gateway.IPRateLimiter) (k : String) (now : ℚ)
    (h : i.WellFormed) :
    ((i.CleanupOldEntries now).bucket k).advance now ≤ (i.bucket k).advance now := by
  have hwf := WellFormed_CleanupOldEntries i now h
  rcases lookup_filter_cases i.ips k (fun e =>
      match i.limiters[e.2]? with
      | some limiter => decide (limiter.Tokens now ≠ (i.b : ℚ))
      | none => true) with hsame | ⟨p, hp, hfalse⟩
  · have : (i.CleanupOldEntries now).bucket k = i.bucket k := by
      unfold Gateway.IPRateLimiter.bucket Gateway.IPRateLimiter.CleanupOldEntries
      simp only [hsame]
    rw [this]
  · have hfull : (i.bucket k).advance now = (i.b : ℚ) := by
      cases hl : i.limiters[p]? with
      | none => simp [hl] at hfalse
      | some lim =>
        simp only [hl, Gateway.Limiter.Tokens, ne_eq, decide_not, Bool.not_eq_false',
          decide_eq_true_eq] at hfalse
        simp only [Gateway.IPRateLimiter.bucket, hp, hl, Option.getD_some]
        exact hfalse
    rw [hfull]
    have hb := (bucket_params (i.CleanupOldEntries now) k hwf).2.1
    have hle := Limiter.advance_le_burst ((i.CleanupOldEntries now).bucket k) now
    rw [hb] at hle
    exact hle
theorem admittedSince_cons (a : String × ℚ) (log : List (String × ℚ)) (k : String) (s : ℚ) :
    Gateway.admittedSince (a :: log) k s =
      Gateway.admittedSince log k s + if a.1 = k ∧ s ≤ a.2 then 1 else 0 := by
  unfold Gateway.admittedSince
  by_cases h : a.1 = k ∧ s ≤ a.2
  · simp [List.filter_cons, h.1, h.2]
  · rw [if_neg h]
    have : (decide (a.1 = k) && decide (s ≤ a.2)) = false := by
      rw [Bool.and_eq_false_iff, decide_eq_false_iff_not, decide_eq_false_iff_not]
      exact not_and_or.mp h
    simp [List.filter_cons, this]

theorem admittedSince_of_before (log : List (String × ℚ)) (k : String) (now s : ℚ)
    (hlog : ∀ a ∈ log, a.2 ≤ now) (hs : now < s) : Gateway.admittedSince log k s = 0 := by
  unfold Gateway.admittedSince
  rw [List.length_eq_zero, List.filter_eq_nil_iff]
  intro a ha
  have := hlog a ha
  have hlt : ¬ s ≤ a.2 := by linarith
  simp [hlt]

theorem admittedWithin_le_admittedSince (run : Gateway.Run) (k : String) (s t : ℚ) :
    run.admittedWithin k s t ≤ Gateway.admittedSince run.admitted k s := by
  unfold Gateway.Run.admittedWithin Gateway.admittedSince
  apply List.Sublist.length_le
  apply List.monotone_filter_right
  intro a ha
  simp only [Bool.and_eq_true] at ha ⊢
  exact ha.1

/-- The steps of a whole request: the lookup followed by the `Allow()` call on the
pointer it returned. -/
theorem exec_request (run : Gateway.Run) (n : Nat) (ip : String) (now : ℚ) :
    (Gateway.exec run (Gateway.Arrival.request n ip now).events).limiter =
        ((run.limiter.GetLimiter ip).2.Allow (run.limiter.GetLimiter ip).1 now).2 ∧
      (Gateway.exec run (Gateway.Arrival.request n ip now).events).admitted =
        if ((run.limiter.GetLimiter ip).2.Allow (run.limiter.GetLimiter ip).1 now).1 = true
        then (ip, now) :: run.admitted else run.admitted := by
  simp [Gateway.exec, Gateway.Arrival.events, Gateway.Run.step, List.lookup_cons]

/-- The state of a run starts within the bound. -/
theorem Within_start (R : ℚ) (B : Nat) (k : String) (now : ℚ) (hR : 0 ≤ R) :
    (Gateway.start R B).Within k now := by
  refine ⟨WellFormed_NewIPRateLimiter R B, fun a ha => ?_, fun s hs => ?_, fun s t ht => ?_⟩
  · simp [Gateway.start] at ha
  · have h1 : ((Gateway.start R B).limiter.bucket k).advance now = (B : ℚ) :=
      NewLimiter_advance R B now hR
    have h2 : Gateway.admittedSince (Gateway.start R B).admitted k s = 0 := rfl
    have h3 : 0 ≤ R * (now - s) := mul_nonneg hR (by linarith)
    rw [h1, h2]
    show ((0 : ℕ) : ℚ) + (B : ℚ) ≤ (B : ℚ) + R * (now - s)
    push_cast
    linarith
  · have h2 : (Gateway.start R B).admittedWithin k s t = 0 := rfl
    have h3 : 0 ≤ R * t := mul_nonneg hR ht
    rw [h2]
    show ((0 : ℕ) : ℚ) ≤ (B : ℚ) + R * t
    have hB : (0 : ℚ) ≤ (B : ℚ) := Nat.cast_nonneg _
    push_cast
    linarith

/-- The state of a run stays within the bound while time passes. -/
theorem Within_later (run : Gateway.Run) (k : String) (now later : ℚ)
    (hr : 0 ≤ run.limiter.r) (hle : now ≤ later) (h : run.Within k now) :
    run.Within k later := by
  obtain ⟨hwf, hlog, hpot, hwin⟩ := h
  refine ⟨hwf, fun a ha => le_trans (hlog a ha) hle, fun s hs => ?_, hwin⟩
  obtain ⟨hl, hb, _⟩ := bucket_params run.limiter k hwf
  rcases le_or_lt s now with hsn | hsn
  · have h1 := hpot s hsn
    have h2 := Limiter.advance_le_add (run.limiter.bucket k) now later (hl ▸ hr) hle
    rw [hl] at h2
    nlinarith
  · rw [admittedSince_of_before run.admitted k now s hlog hsn]
    have h1 := Limiter.advance_le_burst (run.limiter.bucket k) later
    rw [hb] at h1
    have h3 : 0 ≤ run.limiter.r * (later - s) := mul_nonneg hr (by linarith)
    push_cast
    linarith
/-- A step that admits no request of the key and does not raise the token count of its
bucket keeps the state within the bound. -/
theorem Within_of_no_admission (run next : Gateway.Run) (k : String) (now : ℚ)
    (h : run.Within k now) (hwf : next.limiter.WellFormed)
    (hr : next.limiter.r = run.limiter.r) (hb : next.limiter.b = run.limiter.b)
    (hlog : next.admitted = run.admitted ∨
      ∃ ip, ip ≠ k ∧ next.admitted = (ip, now) :: run.admitted)
    (hbucket : (next.limiter.bucket k).advance now ≤ (run.limiter.bucket k).advance now) :
    next.Within k now := by
  obtain ⟨_, hlog0, hpot, hwin⟩ := h
  have hsince : ∀ s, Gateway.admittedSince next.admitted k s =
      Gateway.admittedSince run.admitted k s := by
    intro s
    rcases hlog with hl | ⟨ip, hip, hl⟩
    · rw [hl]
    · rw [hl, admittedSince_cons]
      simp [hip]
  have hwithin : ∀ s t, next.admittedWithin k s t = run.admittedWithin k s t := by
    intro s t
    unfold Gateway.Run.admittedWithin
    rcases hlog with hl | ⟨ip, hip, hl⟩
    · rw [hl]
    · rw [hl]
      simp [List.filter_cons, hip]
  refine ⟨hwf, fun a ha => ?_, fun s hs => ?_, fun s t ht => ?_⟩
  · rcases hlog with hl | ⟨ip, hip, hl⟩
    · exact hlog0 a (hl ▸ ha)
    · rw [hl] at ha
      rcases List.mem_cons.mp ha with rfl | ha
      · exact le_refl _
      · exact hlog0 a ha
  · rw [hsince, hr, hb]
    have := hpot s hs
    linarith
  · rw [hwithin, hr, hb]
    exact hwin s t ht

/-- A step that admits a request of the key at `now` and takes one token from its
bucket keeps the state within the bound. -/
theorem Within_of_admission (run next : Gateway.Run) (k : String) (now : ℚ)
    (h : run.Within k now) (hrate : 0 ≤ run.limiter.r) (hwf : next.limiter.WellFormed)
    (hr : next.limiter.r = run.limiter.r) (hb : next.limiter.b = run.limiter.b)
    (hlog : next.admitted = (k, now) :: run.admitted)
    (hpos : 0 ≤ (next.limiter.bucket k).advance now)
    (hbucket : (next.limiter.bucket k).advance now = (run.limiter.bucket k).advance now - 1) :
    next.Within k now := by
  obtain ⟨_, hlog0, hpot, hwin⟩ := h
  refine ⟨hwf, fun a ha => ?_, fun s hs => ?_, fun s t ht => ?_⟩
  · rw [hlog] at ha
    rcases List.mem_cons.mp ha with rfl | ha
    · exact le_refl _
    · exact hlog0 a ha
  · rw [hlog, admittedSince_cons, hr, hb, hbucket]
    have := hpot s hs
    simp only [true_and, hs, if_true]
    push_cast
    linarith
  · rw [hr, hb]
    by_cases hin : s ≤ now ∧ now ≤ s + t
    · have h1 : next.admittedWithin k s t = run.admittedWithin k s t + 1 := by
        unfold Gateway.Run.admittedWithin
        rw [hlog]
        simp [List.filter_cons, hin.1, hin.2]
      have h2 := admittedWithin_le_admittedSince run k s t
      have h2q : (run.admittedWithin k s t : ℚ) ≤
          (Gateway.admittedSince run.admitted k s : ℚ) := by exact_mod_cast h2
      have h3 := hpot s hin.1
      have h4 : run.limiter.r * (now - s) ≤ run.limiter.r * t :=
        mul_le_mul_of_nonneg_left (by linarith) hrate
      rw [h1]
      push_cast
      linarith
    · have h1 : next.admittedWithin k s t = run.admittedWithin k s t := by
        unfold Gateway.Run.admittedWithin
        rw [hlog]
        have : (decide (s ≤ now) && decide (now ≤ s + t)) = false := by
          rw [Bool.and_eq_false_iff, decide_eq_false_iff_not, decide_eq_false_iff_not]
          exact not_and_or.mp hin
        simp [List.filter_cons, Bool.and_assoc, this]
      rw [h1]
      exact hwin s t ht

/-- An event of a schedule of whole requests, at the time of the state, keeps the state
within the bound. -/
theorem Within_arrival (run : Gateway.Run) (a : Gateway.Arrival) (k : String)
    (hrate : 0 ≤ run.limiter.r) (h : run.Within k a.time) :
    (Gateway.exec run a.events).Within k a.time := by
  have hwf := h.1
  cases a with
  | sweep now =>
    exact Within_of_no_admission run _ k now h (WellFormed_CleanupOldEntries _ now hwf) rfl rfl
      (Or.inl rfl) (bucket_CleanupOldEntries run.limiter k now hwf)
  | request n ip now =>
    obtain ⟨hlim, hadm⟩ := exec_request run n ip now
    obtain ⟨hwf1, hr1, hb1⟩ := WellFormed_GetLimiter run.limiter ip hwf
    obtain ⟨hwf2, hr2, hb2⟩ := WellFormed_Allow (run.limiter.GetLimiter ip).2
      (run.limiter.GetLimiter ip).1 now hwf1
    obtain ⟨hok, hsame, hother⟩ := bucket_Allow (run.limiter.GetLimiter ip).2 ip
      (run.limiter.GetLimiter ip).1 now hwf1 (GetLimiter_lookup run.limiter ip)
    rw [bucket_GetLimiter] at hok hsame
    obtain ⟨hyes, hno⟩ := Limiter.Allow_advance (run.limiter.bucket ip) now
    have hwfn : (Gateway.exec run (Gateway.Arrival.request n ip now).events).limiter.WellFormed
      := hlim ▸ hwf2
    have hrn : (Gateway.exec run (Gateway.Arrival.request n ip now).events).limiter.r =
        run.limiter.r := by rw [hlim, hr2, hr1]
    have hbn : (Gateway.exec run (Gateway.Arrival.request n ip now).events).limiter.b =
        run.limiter.b := by rw [hlim, hb2, hb1]
    cases hres : ((run.limiter.GetLimiter ip).2.Allow (run.limiter.GetLimiter ip).1 now).1 with
    | false =>
      rw [hres] at hadm hok
      refine Within_of_no_admission run _ k now h hwfn hrn hbn (Or.inl (by simpa using hadm)) ?_
      rw [hlim]
      by_cases hk : k = ip
      · subst hk
        rw [hsame, hno hok.symm]
      · rw [hother k hk, bucket_GetLimiter]
    | true =>
      rw [hres] at hadm hok
      have hadm1 : (Gateway.exec run (Gateway.Arrival.request n ip now).events).admitted =
          (ip, now) :: run.admitted := by simpa using hadm
      by_cases hk : k = ip
      · subst hk
        obtain ⟨hpos, hdec⟩ := hyes hok.symm
        refine Within_of_admission run _ k now h hrate hwfn hrn hbn hadm1 ?_ ?_
        · rw [hlim, hsame]; exact hpos
        · rw [hlim, hsame]; exact hdec
      · refine Within_of_no_admission run _ k now h hwfn hrn hbn
          (Or.inr ⟨ip, fun hc => hk hc.symm, hadm1⟩) ?_
        rw [hlim, hother k hk, bucket_GetLimiter]

/-- A schedule of whole requests and sweeps in the order of time keeps the state within
the bound. -/
theorem Within_atomic (arrivals : List Gateway.Arrival) (run : Gateway.Run) (k : String)
    (now : ℚ) (hrate : 0 ≤ run.limiter.r) (h : run.Within k now)
    (hchain : List.Chain (fun t u => t ≤ u) now (arrivals.map Gateway.Arrival.time)) :
    ∃ later, (Gateway.exec run (Gateway.atomic arrivals)).Within k later := by
  induction arrivals generalizing run now with
  | nil => exact ⟨now, h⟩
  | cons a rest ih =>
    simp only [List.map_cons, List.chain_cons] at hchain
    have h1 := Within_arrival run a k hrate (Within_later run k now a.time hrate hchain.1 h)
    have hexec : Gateway.exec run (Gateway.atomic (a :: rest)) =
        Gateway.exec (Gateway.exec run a.events) (Gateway.atomic rest) := by
      simp [Gateway.exec, Gateway.atomic, List.foldl_append]
    rw [hexec]
    exact ih (Gateway.exec run a.events) a.time
      (by rw [(exec_params a.events run).1]; exact hrate) h1 hchain.2

/-- The bound `B + R·t` of C15 holds on every schedule of whole requests and sweeps
taken in the order of time: with a rate `R ≥ 0` and a burst `B`, when no sweep and no
other request comes between the lookup and the `Allow()` call of a request, the requests
of a key admitted in any interval of length `t` are at most `B + R·t`. -/
theorem admitted_bound_of_whole_requests (R : ℚ) (B : Nat)
    (arrivals : List Gateway.Arrival) (key : String) (s t : ℚ) (hR : 0 ≤ R) (ht : 0 ≤ t)
    (hsorted : (arrivals.map Gateway.Arrival.time).Sorted (fun t u => t ≤ u)) :
    ((Gateway.exec (Gateway.start R B) (Gateway.atomic arrivals)).admittedWithin key s t : ℚ)
      ≤ B + R * t := by
  obtain ⟨hr, hb⟩ := exec_params (Gateway.atomic arrivals) (Gateway.start R B)
  have hchain : ∃ now, List.Chain (fun t u => t ≤ u) now
      (arrivals.map Gateway.Arrival.time) := by
    cases arrivals with
    | nil => exact ⟨0, List.Chain.nil⟩
    | cons a rest =>
      have hc : List.Chain' (fun t u => t ≤ u)
          (a.time :: rest.map Gateway.Arrival.time) := List.Pairwise.chain' hsorted
      exact ⟨a.time, List.Chain.cons (le_refl _) hc⟩
  obtain ⟨now, hchain⟩ := hchain
  obtain ⟨later, _, _, _, hwin⟩ := Within_atomic arrivals (Gateway.start R B) key now hR
    (Within_start R B key now hR) hchain
  have := hwin s t ht
  rw [hr, hb] at this
  exact this

/-! ## The three access checks agree -/

/-- C29: for every store state, doctor user id `u` and patient-profile id `p`,
`TimelineRepository.CheckDoctorAccess(u, p)` and
`PrescriptionRepository.CheckDoctorAccess(u, p)` return the same result, and each
returns true without error if and only if the check of the doctor service does:
`DoctorRepository.GetProfileByUserID(u)` yields a profile `d` without error and
`DoctorRepository.CheckAccess(d.ID, p)` returns true without error. -/
theorem C29_access_checks_agree (db : DB) (u p : String) :
    PrescriptionRepository.CheckDoctorAccess db u p =
        TimelineRepository.CheckDoctorAccess db u p ∧
      (TimelineRepository.CheckDoctorAccess db u p = (true, none) ↔
        (DoctorRepository.GetProfileByUserID db u).2 = none ∧
          DoctorRepository.CheckAccess db (DoctorRepository.GetProfileByUserID db u).1.ID p =
            (true, none)) ∧
      (PrescriptionRepository.CheckDoctorAccess db u p = (true, none) ↔
        (DoctorRepository.GetProfileByUserID db u).2 = none ∧
          DoctorRepository.CheckAccess db (DoctorRepository.GetProfileByUserID db u).1.ID p =
            (true, none)) := by
  have key : TimelineRepository.CheckDoctorAccess db u p = (true, none) ↔
      (DoctorRepository.GetProfileByUserID db u).2 = none ∧
        DoctorRepository.CheckAccess db (DoctorRepository.GetProfileByUserID db u).1.ID p =
          (true, none) := by
    unfold TimelineRepository.CheckDoctorAccess DoctorRepository.GetProfileByUserID
      DoctorRepository.CheckAccess
    cases hd : db.doctor_profiles.find? (fun d => decide (d.UserID = u)) with
    | none => simp [sqlGet, hd]
    | some d =>
      cases hg : db.doctor_access_permissions.find?
          (fun g => decide (g.DoctorID = d.ID) && decide (g.PatientID = p)) with
      | none => simp [sqlGet, hd, hg]
      | some g => simp [sqlGet, hd, hg]
  exact ⟨rfl, key, key⟩

/-! ## The gateway: `/health` and the rate limiter -/

/-- C27, at the failing input: with the limiter of `main.go` (rate 10, burst 20) a
`GET /health` request takes a token from the bucket of its client (20 tokens before, 19
after), and after twenty `GET /health` requests at the same instant the next one is
answered 429 and the health check is not run; the comment in `main.go` on the route says
"no rate limit". -/
theorem C27_health_is_rate_limited :
    ((Gateway.NewIPRateLimiter 10 20).bucket
        (Gateway.getClientIP Gateway.healthRequest)).Tokens 0 = 20 ∧
      (Gateway.handler Gateway.sampleBackends Gateway.defaultConfig Gateway.healthRequest 0
        (Gateway.NewIPRateLimiter 10 20)).1.response.StatusCode = 200 ∧
      ((Gateway.handler Gateway.sampleBackends Gateway.defaultConfig Gateway.healthRequest 0
        (Gateway.NewIPRateLimiter 10 20)).2.bucket
          (Gateway.getClientIP Gateway.healthRequest)).Tokens 0 = 19 ∧
      (Gateway.handler Gateway.sampleBackends Gateway.defaultConfig Gateway.healthRequest 0
        (Gateway.afterRequests Gateway.sampleBackends Gateway.defaultConfig
          (Gateway.NewIPRateLimiter 10 20) (List.replicate 20 Gateway.healthRequest) 0)).1 =
        Gateway.tooManyRequests := by
  refine ⟨by decide!, by decide!, by decide!, by decide!⟩

theorem lookup_of_mem_nodup {β : Type} (l : List (String × β)) (k : String) (v : β)
    (hnd : (l.map Prod.fst).Nodup) (h : (k, v) ∈ l) : l.lookup k = some v := by
  induction l with
  | nil => simp at h
  | cons e l ih =>
    obtain ⟨k1, v1⟩ := e
    simp only [List.map_cons, List.nodup_cons] at hnd
    rw [List.lookup_cons]
    rcases List.mem_cons.mp h with heq | hmem
    · simp only [Prod.mk.injEq] at heq
      obtain ⟨rfl, rfl⟩ := heq
      simp
    · have hne : k ≠ k1 := by
        rintro rfl
        exact hnd.1 (List.mem_map.mpr ⟨(k, v), hmem, rfl⟩)
      have hk1 : (k == k1) = false := by simpa using hne
      rw [hk1]
      exact ih hnd.2 hmem

theorem lookup_iff_mem {β : Type} (l : List (String × β)) (k : String) (v : β)
    (hnd : (l.map Prod.fst).Nodup) : l.lookup k = some v ↔ (k, v) ∈ l :=
  ⟨lookup_mem l k v, lookup_of_mem_nodup l k v hnd⟩

theorem nodup_keys_filter {β : Type} (l : List (String × β)) (p : String × β → Bool)
    (hnd : (l.map Prod.fst).Nodup) : ((l.filter p).map Prod.fst).Nodup :=
  List.Nodup.sublist (List.Sublist.map _ (List.filter_sublist l)) hnd

/-- C28: for every bucket map (distinct keys, each pointing to a bucket).
`CleanupOldEntries` leaves the buckets themselves, the rate and the burst as they are,
and the map after it holds exactly the entries of the map before it whose bucket does
not report `Tokens()` equal to the burst `b`.  `GetLimiter` of a key in the map returns
its bucket and changes nothing; `GetLimiter` of a key not in the map returns a new
bucket with rate `r`, burst `b` and `b` tokens, stores it under the key, and leaves
every other entry and every other bucket as it was.  After either call the keys of the
map are distinct: at most one bucket exists per key. -/
theorem C28_sweep_and_lookup (i : Gateway.IPRateLimiter) (now : ℚ) (key : String)
    (hkeys : i.DistinctKeys) (hvalid : i.ValidPointers) :
    ((i.CleanupOldEntries now).limiters = i.limiters ∧
      (i.CleanupOldEntries now).r = i.r ∧ (i.CleanupOldEntries now).b = i.b ∧
      (∀ k p, (i.CleanupOldEntries now).ips.lookup k = some p ↔
        i.ips.lookup k = some p ∧
          ∃ bucket, i.limiters[p]? = some bucket ∧ bucket.Tokens now ≠ (i.b : ℚ)) ∧
      (i.CleanupOldEntries now).DistinctKeys ∧ (i.CleanupOldEntries now).ValidPointers) ∧
    (∀ p, i.ips.lookup key = some p → i.GetLimiter key = (p, i)) ∧
    (i.ips.lookup key = none →
      (i.GetLimiter key).2.ips.lookup key = some (i.GetLimiter key).1 ∧
      (i.GetLimiter key).2.limiters[(i.GetLimiter key).1]? =
        some { limit := i.r, burst := i.b, tokens := i.b, last := 0 } ∧
      (∀ k, k ≠ key → (i.GetLimiter key).2.ips.lookup k = i.ips.lookup k) ∧
      (∀ p, p < i.limiters.length → (i.GetLimiter key).2.limiters[p]? = i.limiters[p]?) ∧
      (i.GetLimiter key).2.r = i.r ∧ (i.GetLimiter key).2.b = i.b) ∧
    (i.GetLimiter key).2.DistinctKeys ∧ (i.GetLimiter key).2.ValidPointers := by
  refine ⟨⟨rfl, rfl, rfl, fun k p => ?_, nodup_keys_filter _ _ hkeys,
    fun e he => hvalid e (List.mem_of_mem_filter he)⟩, fun p hp => ?_, fun hnone => ?_, ?_, ?_⟩
  · have hkeys2 : (((i.CleanupOldEntries now).ips).map Prod.fst).Nodup :=
      nodup_keys_filter _ _ hkeys
    rw [lookup_iff_mem _ _ _ hkeys2, lookup_iff_mem _ _ _ hkeys]
    unfold Gateway.IPRateLimiter.CleanupOldEntries
    simp only [List.mem_filter]
    constructor
    · rintro ⟨hmem, hkeep⟩
      refine ⟨hmem, ?_⟩
      have hlt := hvalid (k, p) hmem
      have hsome : i.limiters[p]? = some i.limiters[p] := List.getElem?_eq_getElem hlt
      refine ⟨i.limiters[p], hsome, ?_⟩
      simp only [hsome] at hkeep
      simpa using hkeep
    · rintro ⟨hmem, bucket, hb, hne⟩
      refine ⟨hmem, ?_⟩
      simp only [hb]
      simpa using hne
  · unfold Gateway.IPRateLimiter.GetLimiter
    rw [hp]
  · have hl := GetLimiter_lookup i key
    refine ⟨hl, ?_, fun k hk => ?_, fun p hp => ?_, ?_, ?_⟩
    · unfold Gateway.IPRateLimiter.GetLimiter
      simp [hnone, Gateway.NewLimiter]
    · unfold Gateway.IPRateLimiter.GetLimiter
      simp only [hnone]
      exact lookup_append_ne _ _ _ _ hk
    · unfold Gateway.IPRateLimiter.GetLimiter
      simp only [hnone]
      exact List.getElem?_append_left hp
    · unfold Gateway.IPRateLimiter.GetLimiter
      simp only [hnone]
    · unfold Gateway.IPRateLimiter.GetLimiter
      simp only [hnone]
  · unfold Gateway.IPRateLimiter.GetLimiter Gateway.IPRateLimiter.DistinctKeys
    cases hl : i.ips.lookup key with
    | some p => exact hkeys
    | none =>
      simp only [List.map_append, List.map_cons, List.map_nil]
      rw [List.nodup_append]
      refine ⟨hkeys, List.nodup_singleton _, ?_⟩
      intro a ha hb
      simp only [List.mem_singleton] at hb
      subst hb
      obtain ⟨e, he, rfl⟩ := List.mem_map.mp ha
      have := lookup_of_mem_nodup i.ips e.1 e.2 hkeys he
      rw [hl] at this
      exact Option.noConfusion this
  · exact (GetLimiter_valid i key hvalid).1

/-- Witness of C28: in a map with a full bucket for `"a"` and a used bucket for `"b"`,
a sweep at second 2 deletes `"a"` only, a lookup of `"b"` returns its bucket, and a
lookup of the new key `"c"` stores a third bucket. -/
theorem C28_sweep_and_lookup_witness :
    Gateway.twoBuckets.DistinctKeys ∧ Gateway.twoBuckets.ValidPointers ∧
      (Gateway.twoBuckets.CleanupOldEntries 2).ips = [("b", 1)] ∧
      Gateway.twoBuckets.GetLimiter "b" = (1, Gateway.twoBuckets) ∧
      (Gateway.twoBuckets.GetLimiter "c").2.ips.lookup "c" = some 2 ∧
      (Gateway.twoBuckets.GetLimiter "c").2.DistinctKeys :=
  ⟨by decide, by decide, by decide!,
    (C28_sweep_and_lookup Gateway.twoBuckets 2 "b" (by decide) (by decide)).2.1 1 (by decide),
    by decide!,
    (C28_sweep_and_lookup Gateway.twoBuckets 2 "c" (by decide) (by decide)).2.2.2.1⟩

/-! ## The gateway: the health report -/

/-- The test of `HealthCheck` on a probe: the probe errored or returned a status of 500
or more. -/
theorem unhealthy_iff (env : Gateway.GatewayEnv) (url : String) :
    Gateway.unhealthy env url = true ↔
      (∃ e, env.Get url = Except.error e) ∨
        ∃ resp, env.Get url = Except.ok resp ∧ 500 ≤ resp.StatusCode := by
  unfold Gateway.unhealthy
  cases h : env.Get url with
  | error e => simp
  | ok resp => simp

/-- C23: whatever the outcomes of the five probes, and in whatever order Go ranges over
the maps `services` and `status`: a backend counts as unhealthy exactly when its probe
errored or returned a status of 500 or more; the report names each of auth, patient,
doctor, timeline and prescription exactly once, with `"unhealthy"` for an unhealthy
backend and `"healthy"` otherwise; the `success` field is true if and only if all five
are healthy; the status is 200 if all are healthy and 503 otherwise; and each backend is
probed once.  `HealthCheck` as embedded is the case of one order. -/
theorem C23_health_report (env : Gateway.GatewayEnv) (config : Gateway.ServiceConfig)
    (r : Request) (visited pairs : List (String × String))
    (hvisited : visited.Perm (Gateway.healthServices config))
    (hpairs : pairs.Perm (Gateway.healthStatus env visited)) :
    (∀ url, Gateway.unhealthy env url = true ↔
      (∃ e, env.Get url = Except.error e) ∨
        ∃ resp, env.Get url = Except.ok resp ∧ 500 ≤ resp.StatusCode) ∧
    (pairs.map Prod.fst).Perm Gateway.healthNames ∧ Gateway.healthNames.Nodup ∧
    (∀ s ∈ Gateway.healthServices config,
      (s.1, if Gateway.unhealthy env s.2 then "unhealthy" else "healthy") ∈ pairs) ∧
    (Gateway.HealthCheckIn env visited pairs).response.Body =
      ResponseBody.text ("\x7b\"success\":" ++
        toString ((Gateway.healthServices config).all (fun s => !Gateway.unhealthy env s.2)) ++
        ",\"services\":" ++ Gateway.formatJSON pairs ++ "\x7d") ∧
    ((Gateway.healthServices config).all (fun s => !Gateway.unhealthy env s.2) = true ↔
      ∀ s ∈ Gateway.healthServices config, Gateway.unhealthy env s.2 = false) ∧
    (Gateway.HealthCheckIn env visited pairs).response.StatusCode =
      (if (Gateway.healthServices config).all (fun s => !Gateway.unhealthy env s.2) then 200
        else 503) ∧
    ((Gateway.HealthCheckIn env visited pairs).calls).Perm
      ((Gateway.healthServices config).map (fun s => Gateway.BackendCall.probe s.2)) ∧
    Gateway.HealthCheck env config r =
      Gateway.HealthCheckIn env (Gateway.healthServices config)
        (Gateway.healthStatus env (Gateway.healthServices config)) := by
  have hall : visited.all (fun s => !Gateway.unhealthy env s.2) =
      (Gateway.healthServices config).all (fun s => !Gateway.unhealthy env s.2) := by
    rw [Bool.eq_iff_iff, List.all_eq_true, List.all_eq_true]
    exact ⟨fun h s hs => h s (hvisited.mem_iff.mpr hs), fun h s hs => h s (hvisited.mem_iff.mp hs)⟩
  have hstatus : pairs.Perm (Gateway.healthStatus env (Gateway.healthServices config)) :=
    hpairs.trans (List.Perm.map _ hvisited)
  refine ⟨unhealthy_iff env, ?_, by decide, fun s hs => ?_, ?_, ?_, ?_, ?_, rfl⟩
  · have := List.Perm.map Prod.fst hstatus
    simpa [Gateway.healthStatus, Gateway.healthServices, Gateway.healthNames] using this
  · exact hstatus.mem_iff.mpr (List.mem_map.mpr ⟨s, hs, rfl⟩)
  · simp only [Gateway.HealthCheckIn, hall]
  · simp [List.all_eq_true]
  · simp only [Gateway.HealthCheckIn, hall]
  · exact List.Perm.map _ hvisited

/-- Witness of C23: with the doctor backend answering 500 and the timeline backend out
of reach, ranging over the backends in the reverse order, the report is a 503 with
`success` false that names doctor and timeline unhealthy. -/
theorem C23_health_report_witness :
    (Gateway.healthServices Gateway.defaultConfig).reverse.Perm
        (Gateway.healthServices Gateway.defaultConfig) ∧
      (Gateway.HealthCheckIn Gateway.failingBackends
        (Gateway.healthServices Gateway.defaultConfig).reverse
        (Gateway.healthStatus Gateway.failingBackends
          (Gateway.healthServices Gateway.defaultConfig).reverse)).response.StatusCode = 503 ∧
      (Gateway.HealthCheckIn Gateway.failingBackends
        (Gateway.healthServices Gateway.defaultConfig).reverse
        (Gateway.healthStatus Gateway.failingBackends
          (Gateway.healthServices Gateway.defaultConfig).reverse)).response.Body =
        ResponseBody.text ("\x7b\"success\":false,\"services\":\x7b" ++
          "\"prescription\":\"healthy\",\"timeline\":\"unhealthy\"," ++
          "\"doctor\":\"unhealthy\",\"patient\":\"healthy\",\"auth\":\"healthy\"\x7d\x7d") ∧
      (Gateway.HealthCheck Gateway.sampleBackends Gateway.defaultConfig emptyRequest
        ).response.StatusCode = 200 :=
  ⟨List.reverse_perm _,
    ((C23_health_report Gateway.failingBackends Gateway.defaultConfig emptyRequest _ _
      (List.reverse_perm _) (List.Perm.refl _)).2.2.2.2.2.2.1).trans (by decide),
    by decide, by decide⟩

/-! ## The gateway: forwarding -/

theorem foldl_Add_onto (k : String) (base : Values) (hk : ∀ e ∈ base, e.1 ≠ k)
    (hcanon : CanonicalMIMEHeaderKey k = k) (rest pre : List String) :
    rest.foldl (fun (a : Header) v => a.Add k v) { entries := base ++ [(k, pre)] } =
      { entries := base ++ [(k, pre ++ rest)] } := by
  induction rest generalizing pre with
  | nil => simp
  | cons v rest ih =>
    have hstep : Header.Add { entries := base ++ [(k, pre)] } k v =
        { entries := base ++ [(k, pre ++ [v])] } := by
      unfold Header.Add
      rw [hcanon]
      have hany : (base ++ [(k, pre)]).any (fun e => decide (e.1 = k)) = true := by simp
      simp only [hany, if_true, List.map_append, List.map_cons, List.map_nil]
      have hbase : base.map (fun e => if e.1 = k then (e.1, e.2 ++ [v]) else e) = base := by
        conv_rhs => rw [← List.map_id base]
        apply List.map_congr_left
        intro e he
        simp [hk e he]
      rw [hbase]
    rw [List.foldl_cons, hstep, ih, List.append_assoc, List.singleton_append]

theorem foldl_Add_fresh (k : String) (acc : Header) (hk : ∀ e ∈ acc.entries, e.1 ≠ k)
    (hcanon : CanonicalMIMEHeaderKey k = k) (vs : List String) :
    vs.foldl (fun (a : Header) v => a.Add k v) acc =
      { entries := acc.entries ++ (if vs = [] then [] else [(k, vs)]) } := by
  cases vs with
  | nil => simp
  | cons v rest =>
    have hstep : acc.Add k v = { entries := acc.entries ++ [(k, [v])] } := by
      unfold Header.Add
      rw [hcanon]
      have hany : acc.entries.any (fun e => decide (e.1 = k)) = false := by
        rw [List.any_eq_false]
        intro e he
        simpa using hk e he
      simp [hany]
    rw [List.foldl_cons, hstep, foldl_Add_onto k acc.entries hk hcanon rest [v]]
    simp

theorem foldl_copy (l : Values) (acc : Header)
    (hnd : (l.map Prod.fst).Nodup) (hcanon : ∀ e ∈ l, CanonicalMIMEHeaderKey e.1 = e.1)
    (hdisj : ∀ e ∈ acc.entries, ∀ f ∈ l, e.1 ≠ f.1) :
    l.foldl (fun (acc : Header) e => e.2.foldl (fun (a : Header) v => a.Add e.1 v) acc) acc =
      { entries := acc.entries ++ l.filter (fun e => decide (e.2 ≠ [])) } := by
  induction l generalizing acc with
  | nil => simp
  | cons e l ih =>
    simp only [List.map_cons, List.nodup_cons] at hnd
    rw [List.foldl_cons, foldl_Add_fresh e.1 acc
      (fun x hx => hdisj x hx e (List.mem_cons_self _ _))
      (hcanon e (List.mem_cons_self _ _)) e.2]
    rw [ih _ hnd.2 (fun x hx => hcanon x (List.mem_cons_of_mem _ hx))]
    · by_cases hv : e.2 = []
      · simp [hv, List.filter_cons]
      · simp [hv, List.filter_cons]
    · intro x hx f hf
      simp only [List.mem_append] at hx
      rcases hx with hx | hx
      · exact hdisj x hx f (List.mem_cons_of_mem _ hf)
      · by_cases hv : e.2 = []
        · simp [hv] at hx
        · simp only [hv, if_false, List.mem_singleton] at hx
          subst hx
          intro hc
          exact hnd.1 (List.mem_map.mpr ⟨f, hf, hc.symm⟩)

/-- The loop of `ProxyRequest` copies every header of a request with all its values in
order. -/
theorem copyHeaders_Values (src : Header) (hwf : src.WellFormed) (key : String) :
    (Gateway.copyHeaders src).Values key = src.Values key := by
  obtain ⟨hnd, hcanon⟩ := hwf
  unfold Gateway.copyHeaders
  rw [foldl_copy src.entries { entries := [] } hnd hcanon (fun e he => by simp at he)]
  simp only [Header.Values, Values.All, List.nil_append]
  rcases lookup_filter_cases src.entries (CanonicalMIMEHeaderKey key)
      (fun e => decide (e.2 ≠ [])) with hsame | ⟨v, hv, hdrop⟩
  · rw [hsame]
  · have hvnil : v = [] := by simpa using hdrop
    rw [hv, hvnil]
    cases hf : List.lookup (CanonicalMIMEHeaderKey key)
        (src.entries.filter (fun e => decide (e.2 ≠ []))) with
    | none => rfl
    | some x =>
      have hmem := List.mem_filter.mp (lookup_mem _ _ _ hf)
      have hx := lookup_of_mem_nodup _ _ _ hnd hmem.1
      rw [hv] at hx
      have hxnil : x = [] := by rw [← Option.some.inj hx, hvnil]
      simp [hxnil] at hmem

/-- What `ProxyRequest` forwards of a request (with the header map of a request read by
the server) that it routes to the backend base URL `u` and whose proxy request
`http.NewRequest` builds with the parsed URL `url`: the one call of `client.Do` is made
with a request that has the method of the original, the URL `url`, the original body,
and every header of the original with all its values in order, except that
`X-Forwarded-For` carries exactly one value, the observed source address `RemoteAddr`,
whatever values the client supplied for it. -/
theorem ProxyRequest_forwards (env : Gateway.GatewayEnv) (config : Gateway.ServiceConfig)
    (r : Request) (u : String) (url : Gateway.URL)
    (hu : Gateway.getTargetURL config r.Path = u) (hne : u ≠ "")
    (hwf : r.Header.WellFormed) (hmethod : r.Method ≠ "")
    (hurl : env.NewRequest r.Method (u ++ r.Path ++ "?" ++ r.RawQuery) = some url) :
    ∃ req, (Gateway.ProxyRequest env config r).calls =
        (env.Sent req).map Gateway.BackendCall.forward ∧
      req.Method = r.Method ∧ req.URL = url ∧ req.Body = r.Body ∧
      ∀ key, req.Header.Values key =
        if CanonicalMIMEHeaderKey key = "X-Forwarded-For" then [r.RemoteAddr]
        else r.Header.Values key := by
  have hxff : CanonicalMIMEHeaderKey "X-Forwarded-For" = "X-Forwarded-For" := by decide
  have hvalues : ∀ key,
      ((Gateway.copyHeaders r.Header).Set "X-Forwarded-For" r.RemoteAddr).Values key =
        if CanonicalMIMEHeaderKey key = "X-Forwarded-For" then [r.RemoteAddr]
        else r.Header.Values key := by
    intro key
    by_cases hk : CanonicalMIMEHeaderKey key = "X-Forwarded-For"
    · rw [if_pos hk]
      simp [Header.Values, Header.Set, Values.All, List.lookup_cons, hk, hxff]
    · rw [if_neg hk, Header.Values_Set_other _ _ _ _ (by rw [hxff]; exact hk)]
      exact copyHeaders_Values r.Header hwf key
  refine ⟨Gateway.OutgoingRequest.mk r.Method url
    ((Gateway.copyHeaders r.Header).Set "X-Forwarded-For" r.RemoteAddr) r.Body,
    ?_, rfl, rfl, rfl, hvalues⟩
  unfold Gateway.ProxyRequest
  simp only [hu, hne, if_false, hurl, hmethod]
  split <;> rfl

/-- The login request, which supplies an `X-Forwarded-For` header of its own, is
forwarded to the auth backend with the source address in that header and the two
`Accept` values in order. -/
theorem ProxyRequest_forwards_login :
    (Gateway.ProxyRequest Gateway.sampleBackends Gateway.defaultConfig
        Gateway.loginRequest).calls =
        [Gateway.BackendCall.forward
          { Method := "POST",
            URL := { Scheme := "http", Opaque := "", Host := "healthbar-auth-service:8001",
                     Path := "/api/auth/login", ForceQuery := false, RawQuery := "next=home",
                     Fragment := "" },
            Header := { entries := [("X-Forwarded-For", ["10.0.0.1:4000"]),
              ("Accept", ["text/html", "application/json"]),
              ("Content-Type", ["application/json"])] },
            Body := RequestBody.json [("email", "alice@x"), ("password", "secret")] }] ∧
      ∃ req, (Gateway.ProxyRequest Gateway.sampleBackends Gateway.defaultConfig
          Gateway.loginRequest).calls =
          (Gateway.sampleBackends.Sent req).map Gateway.BackendCall.forward ∧
        req.Header.Values "x-forwarded-for" = ["10.0.0.1:4000"] ∧
        req.Header.Values "Accept" = ["text/html", "application/json"] :=
  ⟨by decide,
    (ProxyRequest_forwards Gateway.sampleBackends Gateway.defaultConfig Gateway.loginRequest
      "http://healthbar-auth-service:8001"
      (Gateway.URL.mk "http" "" "healthbar-auth-service:8001" "/api/auth/login" false
        "next=home" "")
      (by decide) (by decide) (by decide) (by decide) (by decide)).imp
      fun _ h => ⟨h.1, h.2.2.2.2 "x-forwarded-for", h.2.2.2.2 "Accept"⟩⟩

/-- C21 fails on `GET /api/auth/a%23b?x=1`: `ProxyRequest` routes it to the auth
backend and joins the base URL, the decoded path `/api/auth/a#b`, `?` and the query
`x=1` into one string, which `http.NewRequest` parses again.  The request that is
forwarded has the path `/api/auth/a` and no query: what follows the `#` has become the
fragment of the URL, which an HTTP client does not send. -/
theorem C21_decoded_path_is_parsed_again :
    Gateway.fragmentRequest.Path = "/api/auth/a#b" ∧
      Gateway.fragmentRequest.RawQuery = "x=1" ∧
      Gateway.getTargetURL Gateway.defaultConfig Gateway.fragmentRequest.Path =
        "http://healthbar-auth-service:8001" ∧
      (Gateway.ProxyRequest Gateway.sampleBackends Gateway.defaultConfig
        Gateway.fragmentRequest).calls =
        [Gateway.BackendCall.forward
          { Method := "GET",
            URL := { Scheme := "http", Opaque := "", Host := "healthbar-auth-service:8001",
                     Path := "/api/auth/a", ForceQuery := false, RawQuery := "",
                     Fragment := "b?x=1" },
            Header := { entries := [("X-Forwarded-For", ["10.0.0.1:4000"])] },
            Body := RequestBody.raw "" }] ∧
      ∀ req, Gateway.BackendCall.forward req ∈
          (Gateway.ProxyRequest Gateway.sampleBackends Gateway.defaultConfig
            Gateway.fragmentRequest).calls →
        req.URL.Path ≠ Gateway.fragmentRequest.Path ∧
        req.URL.RawQuery ≠ Gateway.fragmentRequest.RawQuery := by
  have hcalls : (Gateway.ProxyRequest Gateway.sampleBackends Gateway.defaultConfig
        Gateway.fragmentRequest).calls =
        [Gateway.BackendCall.forward
          (Gateway.OutgoingRequest.mk "GET"
            (Gateway.URL.mk "http" "" "healthbar-auth-service:8001" "/api/auth/a" false ""
              "b?x=1")
            (Header.mk [("X-Forwarded-For", ["10.0.0.1:4000"])]) (RequestBody.raw ""))] := by
    decide
  refine ⟨by decide, by decide, by decide, hcalls, fun req hreq => ?_⟩
  rw [hcalls] at hreq
  simp only [List.mem_singleton, Gateway.BackendCall.forward.injEq] at hreq
  subst hreq
  exact ⟨by decide, by decide⟩

/-- C22, as stated, fails.  `GET /api/auth/%0A` is routed to the auth backend, but
`http.NewRequest` rejects the target URL with the decoded line feed, and `ProxyRequest`
answers 500 without calling the backend.  And when the auth backend answers
`GET /api/auth/old` with a redirect, the client of `ProxyRequest` follows it: the
backend receives two requests, and the response passed on is the one that answers the
second. -/
theorem C22_unbuildable_request_is_not_forwarded :
    Gateway.getTargetURL Gateway.defaultConfig Gateway.lineFeedRequest.Path =
        "http://healthbar-auth-service:8001" ∧
      (Gateway.ProxyRequest Gateway.sampleBackends Gateway.defaultConfig
        Gateway.lineFeedRequest).calls = [] ∧
      (Gateway.ProxyRequest Gateway.sampleBackends Gateway.defaultConfig
        Gateway.lineFeedRequest).response =
        httpError "\x7b\"success\":false,\"error\":\"Internal server error\"\x7d" 500 ∧
      Gateway.getTargetURL Gateway.defaultConfig Gateway.movedRequest.Path =
        "http://healthbar-auth-service:8001" ∧
      (Gateway.ProxyRequest Gateway.redirectingBackends Gateway.defaultConfig
        Gateway.movedRequest).calls.length = 2 ∧
      (Gateway.ProxyRequest Gateway.redirectingBackends Gateway.defaultConfig
        Gateway.movedRequest).response =
        { StatusCode := 200, Header := [], Body := ResponseBody.text "" } := by
  refine ⟨by decide, by decide, by decide, by decide, by decide, by decide⟩

/-- C22, amended: for every routed request whose proxy request `http.NewRequest`
builds, `ProxyRequest` calls `client.Do` once, with that request, and does not call it
again: the requests that reach the backend are the ones this call sends, and when the
client follows no redirect the backend receives exactly one request.  If the call fails
at the transport level the response is 503 with the body
`{"success":false,"error":"Service unavailable"}` (and the newline of `http.Error`),
and if it succeeds the response is the response that `client.Do` returns, with its
status, headers and body.  A routed request whose proxy request `http.NewRequest`
rejects is answered 500 with the body `{"success":false,"error":"Internal server error"}`
and the backend is not called. -/
theorem C22_forwarding (env : Gateway.GatewayEnv) (config : Gateway.ServiceConfig)
    (r : Request) (hrouted : Gateway.getTargetURL config r.Path ≠ "") :
    (∀ url, env.NewRequest r.Method
        (Gateway.getTargetURL config r.Path ++ r.Path ++ "?" ++ r.RawQuery) = some url →
      ∃ req, req.URL = url ∧
        (Gateway.ProxyRequest env config r).calls =
          (env.Sent req).map Gateway.BackendCall.forward ∧
        (env.Sent req = [req] →
          (Gateway.ProxyRequest env config r).calls = [Gateway.BackendCall.forward req]) ∧
        (∀ e, env.Do req = Except.error e →
          (Gateway.ProxyRequest env config r).response =
            httpError "\x7b\"success\":false,\"error\":\"Service unavailable\"\x7d" 503) ∧
        (∀ resp, env.Do req = Except.ok resp →
          (Gateway.ProxyRequest env config r).response = resp)) ∧
    (env.NewRequest r.Method
        (Gateway.getTargetURL config r.Path ++ r.Path ++ "?" ++ r.RawQuery) = none →
      (Gateway.ProxyRequest env config r).calls = [] ∧
      (Gateway.ProxyRequest env config r).response =
        httpError "\x7b\"success\":false,\"error\":\"Internal server error\"\x7d" 500) := by
  constructor
  · intro url hv
    have hcalls : (Gateway.ProxyRequest env config r).calls =
        (env.Sent (Gateway.OutgoingRequest.mk (if r.Method = "" then "GET" else r.Method) url
          ((Gateway.copyHeaders r.Header).Set "X-Forwarded-For" r.RemoteAddr) r.Body)).map
          Gateway.BackendCall.forward := by
      unfold Gateway.ProxyRequest
      simp only [hrouted, if_false, hv]
      split <;> rfl
    refine ⟨Gateway.OutgoingRequest.mk (if r.Method = "" then "GET" else r.Method) url
        ((Gateway.copyHeaders r.Header).Set "X-Forwarded-For" r.RemoteAddr) r.Body,
      rfl, hcalls, fun hs => ?_, fun e he => ?_, fun resp hresp => ?_⟩
    · rw [hcalls, hs]
      rfl
    · unfold Gateway.ProxyRequest
      simp only [hrouted, if_false, hv, he]
    · unfold Gateway.ProxyRequest
      simp only [hrouted, if_false, hv, hresp]
  · intro hv
    unfold Gateway.ProxyRequest
    simp [hrouted, hv]

/-- Witness of C22 amended: with the backends out of reach the login request is
forwarded once and answered 503; with the backends up it is forwarded once and the
answer of the backend is passed on. -/
theorem C22_forwarding_witness :
    Gateway.getTargetURL Gateway.defaultConfig Gateway.loginRequest.Path ≠ "" ∧
      (Gateway.ProxyRequest Gateway.downBackends Gateway.defaultConfig
        Gateway.loginRequest).calls.length = 1 ∧
      (Gateway.ProxyRequest Gateway.downBackends Gateway.defaultConfig
        Gateway.loginRequest).response =
        httpError "\x7b\"success\":false,\"error\":\"Service unavailable\"\x7d" 503 ∧
      (Gateway.ProxyRequest Gateway.sampleBackends Gateway.defaultConfig
        Gateway.loginRequest).response =
        { StatusCode := 200, Header := [], Body := ResponseBody.text "" } ∧
      ∃ req, (Gateway.ProxyRequest Gateway.sampleBackends Gateway.defaultConfig
        Gateway.loginRequest).calls = [Gateway.BackendCall.forward req] :=
  ⟨by decide, by decide, by decide, by decide,
    (((C22_forwarding Gateway.sampleBackends Gateway.defaultConfig Gateway.loginRequest
      (by decide)).1
      (Gateway.URL.mk "http" "" "healthbar-auth-service:8001" "/api/auth/login" false
        "next=home" "")
      (by decide)).imp fun _ h => h.2.2.1 rfl)⟩

/-! ## Uploads -/

/-- What `UploadPrescription` does with the file part `file` of an upload by a patient
with a profile. -/
theorem UploadPrescription_of_file (env : Env) (r : Request) (w : World)
    (files : List (String × FileHeader)) (header : FileHeader)
    (hid : r.Header.Get "X-User-ID" ≠ "") (hrole : r.Header.Get "X-User-Role" = "patient")
    (hprofile : (PrescriptionRepository.GetPatientProfileIDByUserID w.db
      (r.Header.Get "X-User-ID")).2 = none)
    (hbody : r.Body = RequestBody.multipart files) (hfile : files.lookup "file" = some header) :
    PrescriptionHandler.UploadPrescription env r w =
      if PrescriptionHandler.allowedTypes (stringsToLower (filepathExt header.Filename)) = false
      then
        (utils.SendError 400 "Invalid file type. Only PDF, JPG, JPEG, and PNG are allowed", w)
      else
        (utils.SendSuccess 201 "Prescription uploaded successfully"
          (some (Payload.prescription
            { ID := env.newUUID,
              PatientID := (PrescriptionRepository.GetPatientProfileIDByUserID w.db
                (r.Header.Get "X-User-ID")).1,
              FileName := header.Filename,
              FileType := stringsToLower (filepathExt header.Filename),
              FileSize := header.Content.length,
              FilePath := (PrescriptionRepository.GetPatientProfileIDByUserID w.db
                (r.Header.Get "X-User-ID")).1 ++ "_" ++ env.newFileUUID ++
                stringsToLower (filepathExt header.Filename),
              UploadDate := env.now, CreatedAt := env.now })),
          { db := { w.db with prescriptions := w.db.prescriptions ++
              [{ ID := env.newUUID,
                 PatientID := (PrescriptionRepository.GetPatientProfileIDByUserID w.db
                   (r.Header.Get "X-User-ID")).1,
                 FileName := header.Filename,
                 FileType := stringsToLower (filepathExt header.Filename),
                 FileSize := header.Content.length,
                 FilePath := (PrescriptionRepository.GetPatientProfileIDByUserID w.db
                   (r.Header.Get "X-User-ID")).1 ++ "_" ++ env.newFileUUID ++
                   stringsToLower (filepathExt header.Filename),
                 UploadDate := env.now, CreatedAt := env.now }] },
            uploads := writeFile w.uploads
              ((PrescriptionRepository.GetPatientProfileIDByUserID w.db
                (r.Header.Get "X-User-ID")).1 ++ "_" ++ env.newFileUUID ++
                stringsToLower (filepathExt header.Filename)) header.Content }) := by
  unfold PrescriptionHandler.UploadPrescription
  simp only [hid, hrole, hbody, ParseMultipartForm, hfile, hprofile,
    PrescriptionRepository.CreatePrescription, ne_eq, not_true_eq_false, if_false]
  cases hallowed :
    PrescriptionHandler.allowedTypes (stringsToLower (filepathExt header.Filename)) <;> simp

/-- C25: for every upload by a patient with a profile, with the file part `file`: when
the lower-cased extension of the file name is none of `.pdf`, `.jpg`, `.jpeg`, `.png`,
`UploadPrescription` answers 400 and leaves the database and the upload directory as
they were; when it is one of them the file is accepted (201), one row is added whose
`file_type` is that extension, and `getContentType` maps the stored `file_type` to
`application/pdf`, `image/jpeg` or `image/png`, not to the default
`application/octet-stream`. -/
theorem C25_upload_extension (env : Env) (r : Request) (w : World)
    (files : List (String × FileHeader)) (header : FileHeader)
    (hid : r.Header.Get "X-User-ID" ≠ "") (hrole : r.Header.Get "X-User-Role" = "patient")
    (hprofile : (PrescriptionRepository.GetPatientProfileIDByUserID w.db
      (r.Header.Get "X-User-ID")).2 = none)
    (hbody : r.Body = RequestBody.multipart files) (hfile : files.lookup "file" = some header) :
    ((stringsToLower (filepathExt header.Filename)) ∉ [".pdf", ".jpg", ".jpeg", ".png"] →
      PrescriptionHandler.UploadPrescription env r w =
        (utils.SendError 400 "Invalid file type. Only PDF, JPG, JPEG, and PNG are allowed",
          w)) ∧
    ((stringsToLower (filepathExt header.Filename)) ∈ [".pdf", ".jpg", ".jpeg", ".png"] →
      (PrescriptionHandler.UploadPrescription env r w).1.StatusCode = 201 ∧
      (∃ row, (PrescriptionHandler.UploadPrescription env r w).2.db.prescriptions =
          w.db.prescriptions ++ [row] ∧
        row.FileName = header.Filename ∧
        row.FileType = stringsToLower (filepathExt header.Filename) ∧
        PrescriptionHandler.getContentType row.FileType ∈
          ["application/pdf", "image/jpeg", "image/png"] ∧
        PrescriptionHandler.getContentType row.FileType ≠ "application/octet-stream" ∧
        (row.FilePath, header.Content) ∈
          (PrescriptionHandler.UploadPrescription env r w).2.uploads)) ∧
    ((PrescriptionHandler.UploadPrescription env r w).1.StatusCode = 201 →
      stringsToLower (filepathExt header.Filename) ∈ [".pdf", ".jpg", ".jpeg", ".png"]) := by
  have hmem :
      PrescriptionHandler.allowedTypes (stringsToLower (filepathExt header.Filename)) = true ↔
      stringsToLower (filepathExt header.Filename) ∈ [".pdf", ".jpg", ".jpeg", ".png"] := by
    simp [PrescriptionHandler.allowedTypes]
  have hrun := UploadPrescription_of_file env r w files header hid hrole hprofile hbody hfile
  refine ⟨fun hno => ?_, fun hyes => ?_, fun hcode => ?_⟩
  · have hfalse :
        PrescriptionHandler.allowedTypes (stringsToLower (filepathExt header.Filename)) = false := by
      rw [← Bool.not_eq_true, hmem]; exact hno
    rw [hrun, if_pos hfalse]
  · have htrue := hmem.mpr hyes
    rw [hrun, if_neg (by rw [htrue]; decide)]
    have hct : ∀ ext ∈ [".pdf", ".jpg", ".jpeg", ".png"],
        PrescriptionHandler.getContentType ext ∈
          ["application/pdf", "image/jpeg", "image/png"] ∧
        PrescriptionHandler.getContentType ext ≠ "application/octet-stream" := by decide
    exact ⟨rfl, _, rfl, rfl, rfl, (hct _ hyes).1, (hct _ hyes).2, by simp [writeFile]⟩
  · by_contra hno
    have hfalse :
        PrescriptionHandler.allowedTypes (stringsToLower (filepathExt header.Filename)) = false := by
      rw [← Bool.not_eq_true, hmem]; exact hno
    rw [hrun, if_pos hfalse] at hcode
    simp [utils.SendError, utils.SendJSON] at hcode

/-- Witness of C25: alice's upload of `scan.PDF` is stored with `file_type` `.pdf`; her
upload of `notes.txt` is answered 400 and changes nothing. -/
theorem C25_upload_extension_witness :
    (PrescriptionHandler.UploadPrescription sampleEnv (uploadRequest "scan.PDF" [37, 80])
        sampleWorld).1.StatusCode = 201 ∧
      (PrescriptionHandler.UploadPrescription sampleEnv (uploadRequest "scan.PDF" [37, 80])
        sampleWorld).2.db.prescriptions.map (fun p => p.FileType) = ["", ".pdf"] ∧
      PrescriptionHandler.UploadPrescription sampleEnv (uploadRequest "notes.txt" [37, 80])
        sampleWorld =
        (utils.SendError 400 "Invalid file type. Only PDF, JPG, JPEG, and PNG are allowed",
          sampleWorld) :=
  ⟨by decide, by decide,
    (C25_upload_extension sampleEnv (uploadRequest "notes.txt" [37, 80]) sampleWorld
      [("file", { Filename := "notes.txt", Content := [37, 80] })]
      { Filename := "notes.txt", Content := [37, 80] } (by decide) (by decide) (by decide)
      rfl rfl).1 (by decide)⟩

/-- C26, at the failing input: patient alice uploads `scan.pdf` with a content of 12 MiB.
`ParseMultipartForm(10 << 20)` bounds the memory used for the form, not the size of a
file part, so the upload is answered 201, a prescription row with `file_size` 12582912
is written and the file is left in the upload directory, where the code's own message
for the failure of that call is "File too large. Max size is 10MB". -/
theorem C26_large_upload_is_stored :
    10 * 2 ^ 20 < twelveMiB.length ∧
      (PrescriptionHandler.UploadPrescription sampleEnv (uploadRequest "scan.pdf" twelveMiB)
        sampleWorld).1.StatusCode = 201 ∧
      (PrescriptionHandler.UploadPrescription sampleEnv (uploadRequest "scan.pdf" twelveMiB)
        sampleWorld).2.db.prescriptions =
        sampleWorld.db.prescriptions ++
          [{ ID := "id-new", PatientID := "p-alice", FileName := "scan.pdf",
             FileType := ".pdf", FileSize := 12582912, FilePath := "p-alice_file-new.pdf",
             UploadDate := 7, CreatedAt := 7 }] ∧
      ("p-alice_file-new.pdf", twelveMiB) ∈
        (PrescriptionHandler.UploadPrescription sampleEnv (uploadRequest "scan.pdf" twelveMiB)
          sampleWorld).2.uploads := by
  have hlen : twelveMiB.length = 12582912 := by
    unfold twelveMiB
    rw [List.length_replicate]
    norm_num
  have hrun := UploadPrescription_of_file sampleEnv (uploadRequest "scan.pdf" twelveMiB)
    sampleWorld [("file", { Filename := "scan.pdf", Content := twelveMiB })]
    { Filename := "scan.pdf", Content := twelveMiB } (by decide) (by decide) (by decide)
    rfl rfl
  have hext : stringsToLower (filepathExt "scan.pdf") = ".pdf" := by decide
  have hpid : (PrescriptionRepository.GetPatientProfileIDByUserID sampleWorld.db
      ((uploadRequest "scan.pdf" twelveMiB).Header.Get "X-User-ID")).1 = "p-alice" := by
    decide
  simp only [hext, hpid, hlen] at hrun
  rw [if_neg (by decide)] at hrun
  refine ⟨by rw [hlen]; norm_num, ?_, ?_, ?_⟩
  · rw [hrun]; rfl
  · rw [hrun]; rfl
  · rw [hrun]
    simp [writeFile]
    decide

/-! ## Grants are written for the caller's own profile only -/

/-- `PatientRepository.GrantAccess(p, d)` leaves the rows of every other patient as they
were. -/
theorem GrantAccess_other_patients (env : Env) (db : DB) (p d : String) :
    (PatientRepository.GrantAccess env db p d).1.doctor_access_permissions.filter
        (fun g => decide (g.PatientID ≠ p)) =
      db.doctor_access_permissions.filter (fun g => decide (g.PatientID ≠ p)) := by
  unfold PatientRepository.GrantAccess
  simp only []
  split
  · exact filter_map_of_dropped
      (fun (g : DoctorAccessPermission) =>
        (decide (g.PatientID = p) && decide (g.DoctorID = d)) = true) _ _ _
      (fun g _ hc => by
        simp only [Bool.and_eq_true, decide_eq_true_eq] at hc
        simp [hc.1])
  · simp [List.filter_append]

/-- `PatientRepository.RevokeAccess(p, d)` leaves the rows of every other patient as they
were. -/
theorem RevokeAccess_other_patients (env : Env) (db : DB) (p d : String) :
    (PatientRepository.RevokeAccess env db p d).1.doctor_access_permissions.filter
        (fun g => decide (g.PatientID ≠ p)) =
      db.doctor_access_permissions.filter (fun g => decide (g.PatientID ≠ p)) := by
  unfold PatientRepository.RevokeAccess
  exact filter_map_of_dropped
    (fun (g : DoctorAccessPermission) => g.PatientID = p ∧ g.DoctorID = d) _ _ _
    (fun g _ hc => by simp [hc.1])

/-- What the handler `GrantAccess` does to the world: nothing, or the repository call
for the profile of the caller, a patient. -/
theorem PatientHandler.GrantAccess_world (env : Env) (r : Request) (w : World) :
    (PatientHandler.GrantAccess env r w).2 = w ∨
      (r.Header.Get "X-User-Role" = "patient" ∧
        (PatientRepository.GetProfileByUserID w.db (r.Header.Get "X-User-ID")).2 = none ∧
        ∃ d, (PatientHandler.GrantAccess env r w).2 =
          { w with db := (PatientRepository.GrantAccess env w.db
            (PatientRepository.GetProfileByUserID w.db (r.Header.Get "X-User-ID")).1.ID d).1 })
    := by
  unfold PatientHandler.GrantAccess
  by_cases hu : r.Header.Get "X-User-ID" = ""
  · simp [hu]
  by_cases hrole : r.Header.Get "X-User-Role" = "patient"
  swap
  · simp [hu, hrole]
  by_cases herr : (PatientRepository.GetProfileByUserID w.db (r.Header.Get "X-User-ID")).2
      = none
  swap
  · simp [hu, hrole, herr]
  cases hbody : jsonDecode r.Body with
  | none => simp [hu, hrole, herr, hbody]
  | some req =>
    by_cases hd : jsonField req "doctor_id" = ""
    · simp [hu, hrole, herr, hbody, hd]
    · right
      refine ⟨hrole, herr, jsonField req "doctor_id", ?_⟩
      simp [hu, hrole, herr, hbody, hd, (GrantAccess_tables env w.db _ _).1]

/-- What the handler `RevokeAccess` does to the world: nothing, or the repository call
for the profile of the caller, a patient. -/
theorem PatientHandler.RevokeAccess_world (env : Env) (r : Request) (w : World) :
    (PatientHandler.RevokeAccess env r w).2 = w ∨
      (r.Header.Get "X-User-Role" = "patient" ∧
        (PatientRepository.GetProfileByUserID w.db (r.Header.Get "X-User-ID")).2 = none ∧
        ∃ d, (PatientHandler.RevokeAccess env r w).2 =
          { w with db := (PatientRepository.RevokeAccess env w.db
            (PatientRepository.GetProfileByUserID w.db (r.Header.Get "X-User-ID")).1.ID d).1 })
    := by
  unfold PatientHandler.RevokeAccess
  by_cases hu : r.Header.Get "X-User-ID" = ""
  · simp [hu]
  by_cases hrole : r.Header.Get "X-User-Role" = "patient"
  swap
  · simp [hu, hrole]
  by_cases herr : (PatientRepository.GetProfileByUserID w.db (r.Header.Get "X-User-ID")).2
      = none
  swap
  · simp [hu, hrole, herr]
  by_cases hd : r.Query.Get "doctor_id" = ""
  · simp [hu, hrole, herr, hd]
  · right
    refine ⟨hrole, herr, r.Query.Get "doctor_id", ?_⟩
    simp [hu, hrole, herr, hd, (RevokeAccess_tables env w.db _ _).1]

/-- C30: for every request handled by the handlers `GrantAccess` and `RevokeAccess` of
the patient service, whatever its body and query string: the grant rows whose
`patient_id` is not the profile id of the patient identified by the trusted `X-User-ID`
are, after the request, the rows they were; every row of the grant table after the
request is a row of the table before it or has that profile id as its `patient_id`; the
other tables and the upload directory are unchanged; and when the role of the caller is
not `patient`, or the caller has no patient profile, the world is unchanged. -/
theorem C30_grants_only_of_the_caller (env : Env) (r : Request) (w : World) :
    ∀ h ∈ [PatientHandler.GrantAccess env, PatientHandler.RevokeAccess env],
      (h r w).2.db.doctor_access_permissions.filter (fun g => decide (g.PatientID ≠
          (PatientRepository.GetProfileByUserID w.db (r.Header.Get "X-User-ID")).1.ID)) =
        w.db.doctor_access_permissions.filter (fun g => decide (g.PatientID ≠
          (PatientRepository.GetProfileByUserID w.db (r.Header.Get "X-User-ID")).1.ID)) ∧
      (∀ g ∈ (h r w).2.db.doctor_access_permissions,
        g ∈ w.db.doctor_access_permissions ∨ g.PatientID =
          (PatientRepository.GetProfileByUserID w.db (r.Header.Get "X-User-ID")).1.ID) ∧
      (h r w).2.db.patient_profiles = w.db.patient_profiles ∧
      (h r w).2.db.doctor_profiles = w.db.doctor_profiles ∧
      (h r w).2.db.hospital_visits = w.db.hospital_visits ∧
      (h r w).2.db.prescriptions = w.db.prescriptions ∧
      (h r w).2.uploads = w.uploads ∧
      ((r.Header.Get "X-User-Role" ≠ "patient" ∨
          (PatientRepository.GetProfileByUserID w.db (r.Header.Get "X-User-ID")).2 ≠ none) →
        (h r w).2 = w) := by
  have key : ∀ (w1 : World),
      (w1 = w ∨ (r.Header.Get "X-User-Role" = "patient" ∧
        (PatientRepository.GetProfileByUserID w.db (r.Header.Get "X-User-ID")).2 = none ∧
        ∃ db1 : DB, w1 = { w with db := db1 } ∧
          db1.doctor_access_permissions.filter (fun g => decide (g.PatientID ≠
            (PatientRepository.GetProfileByUserID w.db (r.Header.Get "X-User-ID")).1.ID)) =
          w.db.doctor_access_permissions.filter (fun g => decide (g.PatientID ≠
            (PatientRepository.GetProfileByUserID w.db (r.Header.Get "X-User-ID")).1.ID)) ∧
          db1.patient_profiles = w.db.patient_profiles ∧
          db1.doctor_profiles = w.db.doctor_profiles ∧
          db1.hospital_visits = w.db.hospital_visits ∧
          db1.prescriptions = w.db.prescriptions)) →
      w1.db.doctor_access_permissions.filter (fun g => decide (g.PatientID ≠
          (PatientRepository.GetProfileByUserID w.db (r.Header.Get "X-User-ID")).1.ID)) =
        w.db.doctor_access_permissions.filter (fun g => decide (g.PatientID ≠
          (PatientRepository.GetProfileByUserID w.db (r.Header.Get "X-User-ID")).1.ID)) ∧
      (∀ g ∈ w1.db.doctor_access_permissions,
        g ∈ w.db.doctor_access_permissions ∨ g.PatientID =
          (PatientRepository.GetProfileByUserID w.db (r.Header.Get "X-User-ID")).1.ID) ∧
      w1.db.patient_profiles = w.db.patient_profiles ∧
      w1.db.doctor_profiles = w.db.doctor_profiles ∧
      w1.db.hospital_visits = w.db.hospital_visits ∧
      w1.db.prescriptions = w.db.prescriptions ∧
      w1.uploads = w.uploads ∧
      ((r.Header.Get "X-User-Role" ≠ "patient" ∨
          (PatientRepository.GetProfileByUserID w.db (r.Header.Get "X-User-ID")).2 ≠ none) →
        w1 = w) := by
    intro w1 hw1
    rcases hw1 with rfl | ⟨hrole, herr, db1, rfl, hfilter, h1, h2, h3, h4⟩
    · exact ⟨rfl, fun g hg => Or.inl hg, rfl, rfl, rfl, rfl, rfl, fun _ => rfl⟩
    · refine ⟨hfilter, fun g hg => ?_, h1, h2, h3, h4, rfl, fun hc => ?_⟩
      · by_cases hp : g.PatientID =
            (PatientRepository.GetProfileByUserID w.db (r.Header.Get "X-User-ID")).1.ID
        · exact Or.inr hp
        · left
          have hmem : g ∈ db1.doctor_access_permissions.filter (fun g => decide (g.PatientID ≠
              (PatientRepository.GetProfileByUserID w.db (r.Header.Get "X-User-ID")).1.ID)) :=
            List.mem_filter.mpr ⟨hg, by simpa using hp⟩
          rw [hfilter] at hmem
          exact (List.mem_filter.mp hmem).1
      · rcases hc with hc | hc
        · exact absurd hrole hc
        · exact absurd herr hc
  intro h hh
  simp only [List.mem_cons, List.mem_singleton, List.not_mem_nil, or_false] at hh
  rcases hh with rfl | rfl
  · apply key
    rcases PatientHandler.GrantAccess_world env r w with hsame | ⟨hrole, herr, d, hw⟩
    · exact Or.inl hsame
    · obtain ⟨_, t1, t2, t3, t4⟩ := GrantAccess_tables env w.db
        (PatientRepository.GetProfileByUserID w.db (r.Header.Get "X-User-ID")).1.ID d
      exact Or.inr ⟨hrole, herr, _, hw, GrantAccess_other_patients env w.db _ d, t1, t2, t3, t4⟩
  · apply key
    rcases PatientHandler.RevokeAccess_world env r w with hsame | ⟨hrole, herr, d, hw⟩
    · exact Or.inl hsame
    · obtain ⟨_, t1, t2, t3, t4⟩ := RevokeAccess_tables env w.db
        (PatientRepository.GetProfileByUserID w.db (r.Header.Get "X-User-ID")).1.ID d
      exact Or.inr ⟨hrole, herr, _, hw, RevokeAccess_other_patients env w.db _ d, t1, t2, t3,
        t4⟩

/-- Witness of C30: alice's grant request names carol's profile in its body and query;
the handler adds a row for alice's own profile and leaves carol's row as it was, and
her revoke request changes no row, as she has granted nothing. -/
theorem C30_grants_witness :
    (PatientHandler.GrantAccess sampleEnv grantRequest
        carolGrantWorld).2.db.doctor_access_permissions =
        [{ ID := "g-carol", PatientID := "p-carol", DoctorID := "d-bob", GrantedAt := 3,
           RevokedAt := none, IsActive := true },
         { ID := "id-new", PatientID := "p-alice", DoctorID := "d-bob", GrantedAt := 7,
           RevokedAt := none, IsActive := true }] ∧
      (PatientHandler.RevokeAccess sampleEnv grantRequest carolGrantWorld).2 =
        carolGrantWorld ∧
      (PatientHandler.GrantAccess sampleEnv grantRequest
        carolGrantWorld).2.db.doctor_access_permissions.filter (fun g => decide (g.PatientID ≠
          (PatientRepository.GetProfileByUserID carolGrantWorld.db
            (grantRequest.Header.Get "X-User-ID")).1.ID)) =
        carolGrantWorld.db.doctor_access_permissions.filter (fun g => decide (g.PatientID ≠
          (PatientRepository.GetProfileByUserID carolGrantWorld.db
            (grantRequest.Header.Get "X-User-ID")).1.ID)) :=
  ⟨by decide, by decide,
    (C30_grants_only_of_the_caller sampleEnv grantRequest carolGrantWorld
      (PatientHandler.GrantAccess sampleEnv) (List.mem_cons_self _ _)).1⟩

/-! ## The envelope of the responses -/

theorem Enveloped_SendError (c : Nat) (m : String) :
    (utils.SendError c m).Enveloped ↔ 400 ≤ c := by
  simp [HTTPResponse.Enveloped, HTTPResponse.success, utils.SendError, utils.SendJSON]

theorem Enveloped_SendSuccess (c : Nat) (m : String) (d : Option Payload) :
    (utils.SendSuccess c m d).Enveloped ↔ 200 ≤ c ∧ c < 300 := by
  simp [HTTPResponse.Enveloped, HTTPResponse.success, utils.SendSuccess, utils.SendJSON]

theorem PatientHandler.CreateProfile_Enveloped (env : Env) (r : Request) (w : World) :
    (PatientHandler.CreateProfile env r w).1.Enveloped := by
  unfold PatientHandler.CreateProfile
  simp only []
  repeat' (first | split_ifs | split)
  all_goals simp [Enveloped_SendError, Enveloped_SendSuccess]

theorem PatientHandler.GetMyProfile_Enveloped (r : Request) (w : World) :
    (PatientHandler.GetMyProfile r w).1.Enveloped := by
  unfold PatientHandler.GetMyProfile
  simp only []
  repeat' (first | split_ifs | split)
  all_goals simp [Enveloped_SendError, Enveloped_SendSuccess]

theorem PatientHandler.UpdateProfile_Enveloped (env : Env) (r : Request) (w : World) :
    (PatientHandler.UpdateProfile env r w).1.Enveloped := by
  unfold PatientHandler.UpdateProfile
  simp only []
  repeat' (first | split_ifs | split)
  all_goals simp [Enveloped_SendError, Enveloped_SendSuccess]

theorem PatientHandler.GrantAccess_Enveloped (env : Env) (r : Request) (w : World) :
    (PatientHandler.GrantAccess env r w).1.Enveloped := by
  unfold PatientHandler.GrantAccess
  simp only []
  repeat' (first | split_ifs | split)
  all_goals simp [Enveloped_SendError, Enveloped_SendSuccess]

theorem PatientHandler.RevokeAccess_Enveloped (env : Env) (r : Request) (w : World) :
    (PatientHandler.RevokeAccess env r w).1.Enveloped := by
  unfold PatientHandler.RevokeAccess
  simp only []
  repeat' (first | split_ifs | split)
  all_goals simp [Enveloped_SendError, Enveloped_SendSuccess]

theorem PatientHandler.ListPermissions_Enveloped (r : Request) (w : World) :
    (PatientHandler.ListPermissions r w).1.Enveloped := by
  unfold PatientHandler.ListPermissions
  simp only []
  repeat' (first | split_ifs | split)
  all_goals simp [Enveloped_SendError, Enveloped_SendSuccess]

theorem DoctorHandler.CreateDoctorProfile_Enveloped (env : Env) (r : Request) (w : World) :
    (DoctorHandler.CreateProfile env r w).1.Enveloped := by
  unfold DoctorHandler.CreateProfile
  simp only []
  repeat' (first | split_ifs | split)
  all_goals simp [Enveloped_SendError, Enveloped_SendSuccess]

theorem DoctorHandler.GetMyDoctorProfile_Enveloped (r : Request) (w : World) :
    (DoctorHandler.GetMyProfile r w).1.Enveloped := by
  unfold DoctorHandler.GetMyProfile
  simp only []
  repeat' (first | split_ifs | split)
  all_goals simp [Enveloped_SendError, Enveloped_SendSuccess]

theorem DoctorHandler.UpdateDoctorProfile_Enveloped (env : Env) (r : Request) (w : World) :
    (DoctorHandler.UpdateProfile env r w).1.Enveloped := by
  unfold DoctorHandler.UpdateProfile
  simp only []
  repeat' (first | split_ifs | split)
  all_goals simp [Enveloped_SendError, Enveloped_SendSuccess]

theorem DoctorHandler.GetPatientProfile_Enveloped (r : Request) (w : World) :
    (DoctorHandler.GetPatientProfile r w).1.Enveloped := by
  unfold DoctorHandler.GetPatientProfile
  simp only []
  repeat' (first | split_ifs | split)
  all_goals simp [Enveloped_SendError, Enveloped_SendSuccess]

theorem DoctorHandler.ListAccessiblePatients_Enveloped (r : Request) (w : World) :
    (DoctorHandler.ListAccessiblePatients r w).1.Enveloped := by
  unfold DoctorHandler.ListAccessiblePatients
  simp only []
  repeat' (first | split_ifs | split)
  all_goals simp [Enveloped_SendError, Enveloped_SendSuccess]

theorem TimelineHandler.CreateVisit_Enveloped (env : Env) (r : Request) (w : World) :
    (TimelineHandler.CreateVisit env r w).1.Enveloped := by
  unfold TimelineHandler.CreateVisit
  simp only []
  repeat' (first | split_ifs | split)
  all_goals simp [Enveloped_SendError, Enveloped_SendSuccess]

theorem TimelineHandler.GetMyTimeline_Enveloped (r : Request) (w : World) :
    (TimelineHandler.GetMyTimeline r w).1.Enveloped := by
  unfold TimelineHandler.GetMyTimeline
  simp only []
  repeat' (first | split_ifs | split)
  all_goals simp [Enveloped_SendError, Enveloped_SendSuccess]

theorem TimelineHandler.GetPatientTimeline_Enveloped (r : Request) (w : World) :
    (TimelineHandler.GetPatientTimeline r w).1.Enveloped := by
  unfold TimelineHandler.GetPatientTimeline
  simp only []
  repeat' (first | split_ifs | split)
  all_goals simp [Enveloped_SendError, Enveloped_SendSuccess]

theorem TimelineHandler.GetVisit_Enveloped (r : Request) (w : World) :
    (TimelineHandler.GetVisit r w).1.Enveloped := by
  unfold TimelineHandler.GetVisit
  simp only []
  repeat' (first | split_ifs | split)
  all_goals simp [Enveloped_SendError, Enveloped_SendSuccess]

theorem TimelineHandler.UpdateVisit_Enveloped (env : Env) (r : Request) (w : World) :
    (TimelineHandler.UpdateVisit env r w).1.Enveloped := by
  unfold TimelineHandler.UpdateVisit
  simp only []
  repeat' (first | split_ifs | split)
  all_goals simp [Enveloped_SendError, Enveloped_SendSuccess]

theorem TimelineHandler.DeleteVisit_Enveloped (r : Request) (w : World) :
    (TimelineHandler.DeleteVisit r w).1.Enveloped := by
  unfold TimelineHandler.DeleteVisit
  simp only []
  repeat' (first | split_ifs | split)
  all_goals simp [Enveloped_SendError, Enveloped_SendSuccess]

theorem PrescriptionHandler.UploadPrescription_Enveloped (env : Env) (r : Request) (w : World) :
    (PrescriptionHandler.UploadPrescription env r w).1.Enveloped := by
  unfold PrescriptionHandler.UploadPrescription
  simp only []
  repeat' (first | split_ifs | split)
  all_goals simp [Enveloped_SendError, Enveloped_SendSuccess]

theorem PrescriptionHandler.GetMyPrescriptions_Enveloped (r : Request) (w : World) :
    (PrescriptionHandler.GetMyPrescriptions r w).1.Enveloped := by
  unfold PrescriptionHandler.GetMyPrescriptions
  simp only []
  repeat' (first | split_ifs | split)
  all_goals simp [Enveloped_SendError, Enveloped_SendSuccess]

theorem PrescriptionHandler.GetPatientPrescriptions_Enveloped (r : Request) (w : World) :
    (PrescriptionHandler.GetPatientPrescriptions r w).1.Enveloped := by
  unfold PrescriptionHandler.GetPatientPrescriptions
  simp only []
  repeat' (first | split_ifs | split)
  all_goals simp [Enveloped_SendError, Enveloped_SendSuccess]

theorem PrescriptionHandler.DeletePrescription_Enveloped (r : Request) (w : World) :
    (PrescriptionHandler.DeletePrescription r w).1.Enveloped := by
  unfold PrescriptionHandler.DeletePrescription
  simp only []
  repeat' (first | split_ifs | split)
  all_goals simp [Enveloped_SendError, Enveloped_SendSuccess]

theorem AuthHandler.Register_Enveloped (env : AuthEnv) (r : Request) (users : List User) :
    (AuthHandler.Register env r users).1.Enveloped := by
  unfold AuthHandler.Register
  simp only []
  repeat' (first | split_ifs | split)
  all_goals simp [Enveloped_SendError, Enveloped_SendSuccess]

theorem AuthHandler.Login_Enveloped (env : AuthEnv) (r : Request) (users : List User) :
    (AuthHandler.Login env r users).1.Enveloped := by
  unfold AuthHandler.Login
  simp only []
  repeat' (first | split_ifs | split)
  all_goals simp [Enveloped_SendError, Enveloped_SendSuccess]

theorem AuthHandler.GetCurrentUser_Enveloped (env : AuthEnv) (r : Request) (users : List User) :
    (AuthHandler.GetCurrentUser env r users).1.Enveloped := by
  unfold AuthHandler.GetCurrentUser
  simp only []
  repeat' (first | split_ifs | split)
  all_goals simp [Enveloped_SendError, Enveloped_SendSuccess]

/-- `DownloadPrescription` answers with an envelope or streams the file with status 200. -/
theorem PrescriptionHandler.DownloadPrescription_Enveloped (r : Request) (w : World) :
    (PrescriptionHandler.DownloadPrescription r w).1.Enveloped ∨
      ((PrescriptionHandler.DownloadPrescription r w).1.StatusCode = 200 ∧
        ∃ content, (PrescriptionHandler.DownloadPrescription r w).1.Body =
          ResponseBody.bytes content) := by
  unfold PrescriptionHandler.DownloadPrescription
  simp only []
  repeat' (first | split_ifs | split)
  all_goals simp [Enveloped_SendError, Enveloped_SendSuccess]

/-- The health report of the gateway is an envelope. -/
theorem HealthCheck_Enveloped (env : Gateway.GatewayEnv) (config : Gateway.ServiceConfig)
    (r : Request) : (Gateway.HealthCheck env config r).response.Enveloped := by
  have key : ∀ b1 b2 b3 b4 b5 : Bool,
      HTTPResponse.Enveloped
        { StatusCode := if (!b1 && (!b2 && (!b3 && (!b4 && (!b5 && true))))) then 200 else 503,
          Header := [("Content-Type", "application/json")],
          Body := ResponseBody.text ("\x7b\"success\":" ++
            toString (!b1 && (!b2 && (!b3 && (!b4 && (!b5 && true))))) ++ ",\"services\":" ++
            Gateway.formatJSON
              [("auth", if b1 then "unhealthy" else "healthy"),
               ("patient", if b2 then "unhealthy" else "healthy"),
               ("doctor", if b3 then "unhealthy" else "healthy"),
               ("timeline", if b4 then "unhealthy" else "healthy"),
               ("prescription", if b5 then "unhealthy" else "healthy")] ++ "\x7d") } := by
    intro b1 b2 b3 b4 b5
    cases b1 <;> cases b2 <;> cases b3 <;> cases b4 <;> cases b5 <;> decide!
  exact key _ _ _ _ _

/-- What `ProxyRequest` answers itself is an envelope; otherwise its response is the
response of the backend. -/
theorem ProxyRequest_Enveloped (env : Gateway.GatewayEnv) (config : Gateway.ServiceConfig)
    (r : Request) :
    (Gateway.ProxyRequest env config r).response.Enveloped ∨
      ∃ req resp, env.Do req = Except.ok resp ∧
        (Gateway.ProxyRequest env config r).response = resp := by
  unfold Gateway.ProxyRequest
  simp only []
  split_ifs
  · left; decide
  all_goals
    split
    · left; decide
    · split
      · left
        show HTTPResponse.Enveloped
          (httpError "\x7b\"success\":false,\"error\":\"Service unavailable\"\x7d" 503)
        decide
      · next resp hresp => exact Or.inr ⟨_, resp, hresp, rfl⟩

/-- C24, as stated, fails: the info endpoint `GET /` of the gateway answers 200 with a
JSON object that has no `success` member; the gateway answers `GET /nowhere` with the
router's plain-text `404 page not found`; and `DownloadPrescription` answers alice's
download of her prescription with status 200 and the bytes of the file. -/
theorem C24_responses_without_envelope :
    ((Gateway.handler Gateway.sampleBackends Gateway.defaultConfig emptyRequest 0
        (Gateway.NewIPRateLimiter 10 20)).1.response.StatusCode = 200 ∧
      (Gateway.handler Gateway.sampleBackends Gateway.defaultConfig emptyRequest 0
        (Gateway.NewIPRateLimiter 10 20)).1.response.success = none) ∧
    ((Gateway.handler Gateway.sampleBackends Gateway.defaultConfig
        { emptyRequest with Path := "/nowhere" } 0
        (Gateway.NewIPRateLimiter 10 20)).1.response.Body =
        ResponseBody.text "404 page not found\n" ∧
      (Gateway.handler Gateway.sampleBackends Gateway.defaultConfig
        { emptyRequest with Path := "/nowhere" } 0
        (Gateway.NewIPRateLimiter 10 20)).1.response.success = none) ∧
    ((PrescriptionHandler.DownloadPrescription (patientRequest "p-alice" "v1" "rx1")
        sampleWorld).1.StatusCode = 200 ∧
      (PrescriptionHandler.DownloadPrescription (patientRequest "p-alice" "v1" "rx1")
        sampleWorld).1.Body = ResponseBody.bytes [37, 80, 68, 70] ∧
      (PrescriptionHandler.DownloadPrescription (patientRequest "p-alice" "v1" "rx1")
        sampleWorld).1.success = none) ∧
    ¬ (PrescriptionHandler.DownloadPrescription (patientRequest "p-alice" "v1" "rx1")
        sampleWorld).1.Enveloped := by
  refine ⟨⟨by decide!, by decide!⟩, ⟨by decide!, by decide!⟩, ⟨by decide, by decide, by decide⟩,
    by decide⟩

/-- C24, amended: every response of a handler of the auth, patient, doctor, timeline and
prescription services, except the file that `DownloadPrescription` streams with status
200, and every response that the gateway produces itself for a request that is refused
by the rate limiter (429), for a request under `/api/` that it does not route or forward
(404, 500, 503) and for the health report, has a body that is a JSON object with a
boolean `success` field; `success` is true only with a 2xx status and false only with a
status of 400 or more.  A response of a backend is passed on by `ProxyRequest` as it
is. -/
theorem C24_envelopes :
    (∀ env, ∀ h ∈ backendHandlers env, ∀ r w, (h r w).1.Enveloped) ∧
    (∀ r w, (PrescriptionHandler.DownloadPrescription r w).1.Enveloped ∨
      ((PrescriptionHandler.DownloadPrescription r w).1.StatusCode = 200 ∧
        ∃ content, (PrescriptionHandler.DownloadPrescription r w).1.Body =
          ResponseBody.bytes content)) ∧
    (∀ env, ∀ h ∈ authHandlers env, ∀ r users, (h r users).1.Enveloped) ∧
    Gateway.tooManyRequests.response.Enveloped ∧
    (∀ env config r, (Gateway.HealthCheck env config r).response.Enveloped) ∧
    (∀ env config r, (Gateway.ProxyRequest env config r).response.Enveloped ∨
      ∃ req resp, env.Do req = Except.ok resp ∧
        (Gateway.ProxyRequest env config r).response = resp) := by
  refine ⟨fun env h hh r w => ?_, PrescriptionHandler.DownloadPrescription_Enveloped,
    fun env h hh r users => ?_, by decide, HealthCheck_Enveloped, ProxyRequest_Enveloped⟩
  · simp only [backendHandlers, List.mem_cons, List.mem_singleton, List.not_mem_nil,
      or_false] at hh
    rcases hh with rfl | rfl | rfl | rfl | rfl | rfl | rfl | rfl | rfl | rfl | rfl | rfl |
      rfl | rfl | rfl | rfl | rfl | rfl | rfl | rfl | rfl
    · exact PatientHandler.CreateProfile_Enveloped env r w
    · exact PatientHandler.GetMyProfile_Enveloped r w
    · exact PatientHandler.UpdateProfile_Enveloped env r w
    · exact PatientHandler.GrantAccess_Enveloped env r w
    · exact PatientHandler.RevokeAccess_Enveloped env r w
    · exact PatientHandler.ListPermissions_Enveloped r w
    · exact DoctorHandler.CreateDoctorProfile_Enveloped env r w
    · exact DoctorHandler.GetMyDoctorProfile_Enveloped r w
    · exact DoctorHandler.UpdateDoctorProfile_Enveloped env r w
    · exact DoctorHandler.GetPatientProfile_Enveloped r w
    · exact DoctorHandler.ListAccessiblePatients_Enveloped r w
    · exact TimelineHandler.CreateVisit_Enveloped env r w
    · exact TimelineHandler.GetMyTimeline_Enveloped r w
    · exact TimelineHandler.GetPatientTimeline_Enveloped r w
    · exact TimelineHandler.GetVisit_Enveloped r w
    · exact TimelineHandler.UpdateVisit_Enveloped env r w
    · exact TimelineHandler.DeleteVisit_Enveloped r w
    · exact PrescriptionHandler.UploadPrescription_Enveloped env r w
    · exact PrescriptionHandler.GetMyPrescriptions_Enveloped r w
    · exact PrescriptionHandler.GetPatientPrescriptions_Enveloped r w
    · exact PrescriptionHandler.DeletePrescription_Enveloped r w
  · simp only [authHandlers, List.mem_cons, List.mem_singleton, List.not_mem_nil,
      or_false] at hh
    rcases hh with rfl | rfl | rfl
    · exact AuthHandler.Register_Enveloped env r users
    · exact AuthHandler.Login_Enveloped env r users
    · exact AuthHandler.GetCurrentUser_Enveloped env r users

end HealthBar
